import Mathlib

/-!
# EVR custom presenter: sample pool, scheduler and presenter

A shallow embedding of the C++ sources of the EVR presenter
(`SamplePool.cpp`, `scheduler.cpp`, `Presenter.cpp`, `Helpers.h`) together
with the properties proved about them.  Every C++ method becomes a pure
function that takes the object state and returns the `HRESULT`, the
out-parameters and the new state.
-/

namespace EVRPresenter

/-! ## Machine integers and status codes -/

/-- The type `HRESULT` is a signed 32-bit status code; negative values are failures. -/
abbrev HRESULT := Int

/-- Arithmetic of `DWORD`: reduction modulo `2^32`. -/
def wrapDWORD (x : Int) : Nat := (x % 4294967296).toNat

/-- The cast `(LONG)x`: narrowing to a signed 32-bit integer (two's complement). -/
def toLONG (x : Int) : Int := (x + 2147483648) % 4294967296 - 2147483648

/-- The macro `SUCCEEDED(hr)` of EVRPresenter.h. -/
def SUCCEEDED (hr : HRESULT) : Bool := decide (0 ≤ hr)

/-- The macro `FAILED(hr)` of EVRPresenter.h. -/
def FAILED (hr : HRESULT) : Bool := decide (hr < 0)

/-- Value `0` of winerror.h. -/
def S_OK : HRESULT := 0
/-- Value `1` of winerror.h. -/
def S_FALSE : HRESULT := 1
/-- Value `0x80070057` of winerror.h. -/
def E_INVALIDARG : HRESULT := -2147024809
/-- Value `0x80004005` of winerror.h. -/
def E_FAIL : HRESULT := -2147467259
/-- The code `E_OUTOFMEMORY` (winerror.h), `0x8007000E`. -/
def E_OUTOFMEMORY : HRESULT := -2147024882
/-- Value `0xC00D36B6` of mferror.h. -/
def MF_E_NOT_INITIALIZED : HRESULT := -1072875850
/-- Value `0xC00D36B2` of mferror.h. -/
def MF_E_INVALIDREQUEST : HRESULT := -1072875854
/-- Value `0xC00D4A3E` of mferror.h. -/
def MF_E_SAMPLEALLOCATOR_EMPTY : HRESULT := -1072870850
/-- Value `0xC00D36B9` of mferror.h. -/
def MF_E_NO_MORE_TYPES : HRESULT := -1072875847
/-- Value `0xC00D6D60` of mferror.h. -/
def MF_E_TRANSFORM_TYPE_NOT_SET : HRESULT := -1072861856

/-! ## Samples and the pointer list -/

/-- An `IMFSample`: its COM identity, its optional presentation time
(`GetSampleTime` fails when there is none) and its optional
`MFSamplePresenter_SampleCounter` attribute. -/
structure Sample where
  id : Nat
  sampleTime : Option Int
  counter : Option Nat
  deriving DecidableEq, Repr

/-- Modelled from the spec: `ComPtrList` (linklist.h) is not among the
sources; it is the ordered sequence of frames the spec describes, with
insertion at either end and removal at the front.  Insertion allocates a
node and is taken to succeed. -/
abbrev ComPtrList (α : Type) := List α

namespace ComPtrList

variable {α : Type}

/-- Modelled from the spec: `ComPtrList::IsEmpty` (linklist.h), whether the
sequence holds no frame. -/
def IsEmpty (l : ComPtrList α) : Bool := List.isEmpty l

/-- Modelled from the spec: `ComPtrList::InsertBack` (linklist.h), insertion
at the back of the sequence. -/
def InsertBack (l : ComPtrList α) (item : α) : HRESULT × ComPtrList α :=
  (S_OK, l ++ [item])

/-- Modelled from the spec: `ComPtrList::InsertFront` (linklist.h),
insertion at the front of the sequence. -/
def InsertFront (l : ComPtrList α) (item : α) : HRESULT × ComPtrList α :=
  (S_OK, item :: l)

/-- Modelled from the spec: `ComPtrList::RemoveFront` (linklist.h), removal
of the front frame; removing from an empty list fails and leaves the list
as it is. -/
def RemoveFront : ComPtrList α → HRESULT × Option α × ComPtrList α
  | [] => (E_INVALIDARG, none, [])
  | x :: rest => (S_OK, some x, rest)

/-- Modelled from the spec: `ComPtrList::Clear` (linklist.h), which discards
all frames. -/
def Clear (_l : ComPtrList α) : ComPtrList α := []

end ComPtrList

abbrev VideoSampleList := ComPtrList Sample

/-! ## SamplePool (SamplePool.cpp) -/

/-- The data members of `SamplePool` (SamplePool.h); `m_cPending` is a
`DWORD`. -/
structure SamplePool where
  m_VideoSampleQueue : VideoSampleList
  m_bInitialized : Bool
  m_cPending : Nat
  deriving DecidableEq, Repr

namespace SamplePool

/-- The constructor `SamplePool::SamplePool`. -/
def new : SamplePool :=
  { m_VideoSampleQueue := [], m_bInitialized := false, m_cPending := 0 }

/-- Method `SamplePool::GetSample`: the result, the sample handed out and the pool
afterwards. -/
def GetSample (p : SamplePool) : HRESULT × Option Sample × SamplePool :=
  if !p.m_bInitialized then (MF_E_NOT_INITIALIZED, none, p)
  else if ComPtrList.IsEmpty p.m_VideoSampleQueue then
    (MF_E_SAMPLEALLOCATOR_EMPTY, none, p)
  else
    match ComPtrList.RemoveFront p.m_VideoSampleQueue with
    | (hr, pSample, queue) =>
      if SUCCEEDED hr then
        (hr, pSample,
          { p with m_VideoSampleQueue := queue,
                   m_cPending := wrapDWORD (p.m_cPending + 1) })
      else (hr, none, { p with m_VideoSampleQueue := queue })

/-- Method `SamplePool::ReturnSample`. -/
def ReturnSample (p : SamplePool) (pSample : Sample) : HRESULT × SamplePool :=
  if !p.m_bInitialized then (MF_E_NOT_INITIALIZED, p)
  else
    match ComPtrList.InsertBack p.m_VideoSampleQueue pSample with
    | (hr, queue) =>
      if SUCCEEDED hr then
        (hr, { p with m_VideoSampleQueue := queue,
                      m_cPending := wrapDWORD (p.m_cPending - 1) })
      else (hr, { p with m_VideoSampleQueue := queue })

/-- Method `SamplePool::AreSamplesPending`. -/
def AreSamplesPending (p : SamplePool) : Bool :=
  if p.m_bInitialized then decide (0 < p.m_cPending) else false

/-- The `while` loop of `SamplePool::Initialize`: every sample of the
caller's list is appended to the pool's queue; the first failure stops the
loop (`CHECK_HR`). -/
def Initialize.moveSamples (queue : VideoSampleList) :
    List Sample → HRESULT × VideoSampleList
  | [] => (S_OK, queue)
  | pSample :: rest =>
    match ComPtrList.InsertBack queue pSample with
    | (hr, queue') =>
      if FAILED hr then (hr, queue') else Initialize.moveSamples queue' rest

/-- Method `SamplePool::Initialize`: the result, the pool afterwards and the
caller's list afterwards (cleared at `done:`, which the early return for an
initialized pool does not reach). -/
def Initialize (p : SamplePool) (samples : VideoSampleList) :
    HRESULT × SamplePool × VideoSampleList :=
  if p.m_bInitialized then (MF_E_INVALIDREQUEST, p, samples)
  else
    match Initialize.moveSamples p.m_VideoSampleQueue samples with
    | (hr, queue) =>
      if FAILED hr then
        (hr, { p with m_VideoSampleQueue := queue }, ComPtrList.Clear samples)
      else
        (hr, { p with m_VideoSampleQueue := queue, m_bInitialized := true },
          ComPtrList.Clear samples)

/-- Method `SamplePool::Clear`. -/
def Clear (p : SamplePool) : HRESULT × SamplePool :=
  (S_OK, { p with m_VideoSampleQueue := ComPtrList.Clear p.m_VideoSampleQueue,
                  m_bInitialized := false, m_cPending := 0 })

end SamplePool

/-- A call made on the pool by a client: `GetSample` or `ReturnSample`. -/
inductive PoolCall where
  | get
  | ret (pSample : Sample)
  deriving DecidableEq, Repr

/-- The pool after one call. -/
def PoolCall.apply (p : SamplePool) : PoolCall → SamplePool
  | .get => (p.GetSample).2.2
  | .ret pSample => (p.ReturnSample pSample).2

/-- The pool after a sequence of calls. -/
def runCalls (p : SamplePool) (calls : List PoolCall) : SamplePool :=
  calls.foldl PoolCall.apply p

/-- Every `ReturnSample` of the sequence is made while a sample is
outstanding (the pending count is positive at the time of the call). -/
def returnsMatched : SamplePool → List PoolCall → Bool
  | _, [] => true
  | p, .get :: calls => returnsMatched (PoolCall.apply p .get) calls
  | p, .ret pSample :: calls =>
    decide (0 < p.m_cPending) && returnsMatched (PoolCall.apply p (.ret pSample)) calls

/-! ## Binary32 arithmetic of the playback rate -/

/-- A finite binary32 value `mant * 2^exp`; every finite `float` has this
form.  The rate `1.0f` is `⟨1, 0⟩`. -/
structure F32 where
  mant : Int
  exp : Int
  deriving DecidableEq, Repr

/-- The quotient `a / b` rounded to the nearest integer, ties to even. -/
def roundNearestEven (a b : Nat) : Nat :=
  if 2 * (a % b) < b then a / b
  else if b < 2 * (a % b) then a / b + 1
  else if (a / b) % 2 = 0 then a / b else a / b + 1

/-- The loop computing `floor (log2 n)`: halve until below two. -/
def floorLog2.go : Nat → Nat → Nat
  | 0, _ => 0
  | fuel + 1, n => if n < 2 then 0 else floorLog2.go fuel (n / 2) + 1

/-- The integer `floor (log2 n)` for positive `n` (the position of the
leading bit). -/
def floorLog2 (n : Nat) : Nat := floorLog2.go n n

/-- Conversion of a non-negative integer to binary32 (24 significant bits,
round to nearest even); integers below `2^24` are exact. -/
def f32OfNat (a : Nat) : Nat :=
  if a < 16777216 then a
  else roundNearestEven a (2 ^ (floorLog2 a - 23)) * 2 ^ (floorLog2 a - 23)

/-- The integer `floor (log2 (N / D))` for positive `N` and `D`. -/
def floorLog2Quot (N D : Nat) : Int :=
  let t : Int := (floorLog2 N : Int) - (floorLog2 D : Int)
  if 0 ≤ t then (if D * 2 ^ t.toNat ≤ N then t else t - 1)
  else (if D ≤ N * 2 ^ (-t).toNat then t else t - 1)

/-- The binary32 quotient `N / D` (correctly rounded, `D > 0`), truncated
toward zero to an integer. -/
def f32QuotTrunc (N D : Nat) : Nat :=
  if N = 0 then 0
  else if N % D = 0 then f32OfNat (N / D)
  else if 23 ≤ floorLog2Quot N D then
    roundNearestEven N (D * 2 ^ (floorLog2Quot N D - 23).toNat)
      * 2 ^ (floorLog2Quot N D - 23).toNat
  else
    roundNearestEven (N * 2 ^ (23 - floorLog2Quot N D).toNat) D
      / 2 ^ (23 - floorLog2Quot N D).toNat

/-- The expression `(LONG)(lNextSleep / fabsf(m_fRate))` of `ProcessSample`:
the `LONG` is converted to binary32, divided by the magnitude of the rate
in binary32 and truncated back to a `LONG`.  A quotient that is infinite,
not a number or outside the range of `LONG` converts to `0x80000000`, the
value the SSE conversion instruction yields. -/
def divByAbsRate (l : Int) (rate : F32) : Int :=
  if rate.mant = 0 then -2147483648
  else
    let q : Int :=
      if rate.exp ≤ 0 then
        f32QuotTrunc (f32OfNat l.natAbs * 2 ^ (-rate.exp).toNat) rate.mant.natAbs
      else
        f32QuotTrunc (f32OfNat l.natAbs) (rate.mant.natAbs * 2 ^ rate.exp.toNat)
    let v : Int := if l < 0 then -q else q
    if -2147483648 ≤ v ∧ v ≤ 2147483647 then v else -2147483648

/-! ## Scheduler (scheduler.cpp) -/

/-- One second in 100-nanosecond units. -/
def ONE_SECOND : Int := 10000000
/-- The constant `ONE_MSEC`; `ONE_SECOND / ONE_MSEC` is the number of
100-nanosecond units in a millisecond. -/
def ONE_MSEC : Int := 1000
/-- The `DWORD` constant `INFINITE` of the Windows headers. -/
def INFINITE : Int := 4294967295

/-- The function `MFTimeToMsec`: 100-nanosecond units to milliseconds,
narrowed to `LONG`. -/
def MFTimeToMsec (time : Int) : Int :=
  toLONG (Int.tdiv time (Int.tdiv ONE_SECOND ONE_MSEC))

/-- Messages for the scheduler thread (`enum ScheduleEvent`). -/
inductive ScheduleEvent where
  | eTerminate
  | eSchedule
  | eFlush
  deriving DecidableEq, Repr

/-- Method `ThreadSafeQueue::Queue` (Helpers.h).  The methods of the
template act on the underlying list; the lock has no counterpart in the
sequential model. -/
def ThreadSafeQueue.Queue (l : ComPtrList Sample) (p : Sample) :
    HRESULT × ComPtrList Sample :=
  ComPtrList.InsertBack l p

/-- Method `ThreadSafeQueue::Dequeue` returns `S_FALSE` when the queue is
empty. -/
def ThreadSafeQueue.Dequeue (l : ComPtrList Sample) :
    HRESULT × Option Sample × ComPtrList Sample :=
  if ComPtrList.IsEmpty l then (S_FALSE, none, l) else ComPtrList.RemoveFront l

/-- Method `ThreadSafeQueue::PutBack`: re-insertion at the front. -/
def ThreadSafeQueue.PutBack (l : ComPtrList Sample) (p : Sample) :
    HRESULT × ComPtrList Sample :=
  ComPtrList.InsertFront l p

/-- Method `ThreadSafeQueue::Clear`. -/
def ThreadSafeQueue.Clear (l : ComPtrList Sample) : ComPtrList Sample :=
  ComPtrList.Clear l

/-- The scheduler.  The first group of fields are the data members of the
class `Scheduler` (pointers and handles are recorded as set or `NULL`).
The second group is the part of the environment the methods act on: the
calls made to the presentation callback `m_pCB->PresentSample(sample,
target)` in order, the message queue of the worker thread, the state of
the flush-done event, whether the worker thread has exited
(`GetExitCodeThread`), and the two locals `lWait` and `bExitThread` of the
thread procedure.  The model covers executions in which a callback is
registered whenever a sample is presented. -/
structure Scheduler where
  m_ScheduledSamples : ComPtrList Sample
  m_pCB : Bool
  m_pClock : Bool
  m_hSchedulerThread : Bool
  m_fRate : F32
  m_LastSampleTime : Int
  m_PerFrameInterval : Int
  m_PerFrame_1_4th : Int
  presented : List (Sample × Int)
  messages : List ScheduleEvent
  flushDone : Bool
  threadExited : Bool
  lWait : Int
  bExitThread : Bool
  deriving DecidableEq, Repr

namespace Scheduler

/-- The cast `(MFTIME)x` for a `UINT64`: reinterpretation as a signed 64-bit
value. -/
def toMFTIME (x : Int) : Int :=
  (x + 9223372036854775808) % 18446744073709551616 - 9223372036854775808

/-- Method `Scheduler::SetFrameRate`; `AvgTimePerFrame` is the duration that
`MFFrameRateToAverageTimePerFrame` (a platform function) returns for the
frame rate. -/
def SetFrameRate (s : Scheduler) (AvgTimePerFrame : Nat) : Scheduler :=
  { s with m_PerFrameInterval := toMFTIME AvgTimePerFrame,
           m_PerFrame_1_4th := Int.tdiv (toMFTIME AvgTimePerFrame) 4 }

/-- The call `m_pCB->PresentSample(pSample, llTarget)`. -/
def PresentSample (s : Scheduler) (pSample : Sample) (llTarget : Int) : Scheduler :=
  { s with presented := s.presented ++ [(pSample, llTarget)] }

/-- The call `PostThreadMessage(m_dwThreadID, msg, 0, 0)`. -/
def PostThreadMessage (s : Scheduler) (msg : ScheduleEvent) : Scheduler :=
  { s with messages := s.messages ++ [msg] }

/-- Method `Scheduler::ScheduleSample`. -/
def ScheduleSample (s : Scheduler) (pSample : Sample) (bPresentNow : Bool) :
    HRESULT × Scheduler :=
  if !s.m_pCB || !s.m_hSchedulerThread then (MF_E_NOT_INITIALIZED, s)
  else if s.threadExited then (E_FAIL, s)
  else if bPresentNow || !s.m_pClock then (S_OK, s.PresentSample pSample 0)
  else
    match ThreadSafeQueue.Queue s.m_ScheduledSamples pSample with
    | (hr, queue) =>
      if SUCCEEDED hr then
        (hr, ({ s with m_ScheduledSamples := queue }).PostThreadMessage .eSchedule)
      else (hr, { s with m_ScheduledSamples := queue })

/-- The timing block of `ProcessSample` for the dequeued sample: the values
of `bPresentNow` and `lNextSleep` it leaves.  `hnsTimeNow` is the time that
`m_pClock->GetCorrelatedTime` reports.  The source computes `hnsDelta` and its
negation in `LONGLONG`, where an overflow is undefined; the differences are
exact here, so the definition describes the source for time stamps and clock
readings whose difference fits 64 bits. -/
def ProcessSample.timing (s : Scheduler) (pSample : Sample) (hnsTimeNow : Int) :
    Bool × Int :=
  if s.m_pClock then
    match pSample.sampleTime with
    | some hnsPresentationTime =>
      let hnsDelta := hnsPresentationTime - hnsTimeNow
      let hnsDelta := if s.m_fRate.mant < 0 then -hnsDelta else hnsDelta
      if hnsDelta < 0 then (true, 0)
      else if hnsDelta > s.m_PerFrame_1_4th then
        (false, divByAbsRate (MFTimeToMsec (hnsDelta - s.m_PerFrame_1_4th)) s.m_fRate)
      else (true, 0)
    | none => (true, 0)
  else (true, 0)

/-- The value of `hnsPresentationTime` that `ProcessSample` passes to the
callback: the sample's time stamp when a clock is set and the sample has
one, and zero otherwise. -/
def ProcessSample.target (s : Scheduler) (pSample : Sample) : Int :=
  if s.m_pClock then pSample.sampleTime.getD 0 else 0

/-- Method `Scheduler::ProcessSample`: the returned `bool`, the value of
`*plNextSleep` afterwards (`lNextSleepIn` is its value before the call, kept
when the queue is empty) and the scheduler afterwards. -/
def ProcessSample (s : Scheduler) (hnsTimeNow : Int) (lNextSleepIn : Int) :
    Bool × Int × Scheduler :=
  match ThreadSafeQueue.Dequeue s.m_ScheduledSamples with
  | (hr, some pSample, queue) =>
    if hr ≠ S_OK then (false, lNextSleepIn, { s with m_ScheduledSamples := queue })
    else
      match ProcessSample.timing s pSample hnsTimeNow with
      | (true, lNextSleep) =>
        (true, lNextSleep,
          ({ s with m_ScheduledSamples := queue }).PresentSample pSample
            (ProcessSample.target s pSample))
      | (false, lNextSleep) =>
        (true, lNextSleep,
          { s with m_ScheduledSamples := (ThreadSafeQueue.PutBack queue pSample).2 })
  | (_, none, queue) => (false, lNextSleepIn, { s with m_ScheduledSamples := queue })

/-- The `while (true)` loop of `ProcessSamplesInQueue`.  The `i`-th call of
`ProcessSample` reads the clock value `clock i`.  The loop need not end (a
sample that is put back with a wait of zero is processed again), so the
model runs it for at most `fuel` iterations. -/
def ProcessSamplesInQueue.loop (clock : Nat → Int) :
    Nat → Nat → Scheduler → Int → Option (Int × Scheduler)
  | 0, _, _, _ => none
  | fuel + 1, i, s, lWait =>
    match ProcessSample s (clock i) lWait with
    | (false, lWait', s') => some (lWait', s')
    | (true, lWait', s') =>
      if lWait' > 0 then some (lWait', s')
      else ProcessSamplesInQueue.loop clock fuel (i + 1) s' lWait'

/-- Method `Scheduler::ProcessSamplesInQueue`: the result, `*plNextSleep` and the
scheduler afterwards; `none` when `fuel` iterations do not finish the loop. -/
def ProcessSamplesInQueue (fuel : Nat) (clock : Nat → Int) (s : Scheduler) :
    Option (HRESULT × Int × Scheduler) :=
  match ProcessSamplesInQueue.loop clock fuel 0 s 0 with
  | none => none
  | some (lWait, s') => some (S_OK, if lWait = 0 then toLONG INFINITE else lWait, s')

/-- One message of the `switch` in `SchedulerThreadProcPrivate`. -/
def handleMessage (fuel : Nat) (clock : Nat → Int) (s : Scheduler) :
    ScheduleEvent → Option Scheduler
  | .eTerminate =>
    some { s with m_ScheduledSamples := ThreadSafeQueue.Clear s.m_ScheduledSamples,
                  bExitThread := true }
  | .eFlush =>
    some { s with m_ScheduledSamples := ThreadSafeQueue.Clear s.m_ScheduledSamples,
                  lWait := toLONG INFINITE, flushDone := true }
  | .eSchedule =>
    match ProcessSamplesInQueue fuel clock s with
    | none => none
    | some (hr, lWait, s') =>
      some { s' with lWait := lWait,
                     bExitThread := if FAILED hr then true else s'.bExitThread }

/-- The loop `while (PeekMessage(...))` of the thread procedure: the posted
messages are handled in the order they were posted.  The `j`-th call of
`ProcessSamplesInQueue` within one iteration of the thread's main loop
reads its clock values from `clocks j`. -/
def drainMessages (fuel : Nat) (clocks : Nat → Nat → Int) :
    Nat → List ScheduleEvent → Scheduler → Option Scheduler
  | _, [], s => some s
  | j, msg :: rest, s =>
    match handleMessage fuel (clocks j) s msg with
    | none => none
    | some s' => drainMessages fuel clocks (j + 1) rest s'

/-- The first part of an iteration of the main loop of
`SchedulerThreadProcPrivate`: when `MsgWaitForMultipleObjects` returned
`WAIT_TIMEOUT` (`timedOut`) the samples in the queue are processed. -/
def threadIteration.afterWait (fuel : Nat) (clocks : Nat → Nat → Int) (s : Scheduler)
    (timedOut : Bool) : Option Scheduler :=
  if timedOut then
    match ProcessSamplesInQueue fuel (clocks 0) s with
    | none => none
    | some (hr, lWait, s') =>
      some { s' with lWait := lWait,
                     bExitThread := if FAILED hr then true else s'.bExitThread }
  else some s

/-- One iteration of the main loop of `SchedulerThreadProcPrivate`: after
the wait all posted messages are handled, and the thread exits if
`bExitThread` was set.  A thread that has exited runs no iteration. -/
def threadIteration (fuel : Nat) (clocks : Nat → Nat → Int) (s : Scheduler)
    (timedOut : Bool) : Option Scheduler :=
  if s.threadExited then some s
  else
    match threadIteration.afterWait fuel clocks s timedOut with
    | none => none
    | some s1 =>
      match drainMessages fuel clocks 1 s1.messages { s1 with messages := [] } with
      | none => none
      | some s2 => some { s2 with threadExited := s2.bExitThread }

/-- How the wait in `Scheduler::Flush` ends: the worker thread has run an
iteration of its loop that handled the posted messages (`completed`, with
the wait result of that iteration), or `SCHEDULER_TIMEOUT` milliseconds
passed before the worker thread got to the flush message. -/
inductive FlushWait where
  | completed (workerTimedOut : Bool)
  | timeout
  deriving DecidableEq, Repr

/-- Method `Scheduler::Flush`: the flush message is posted and the caller waits for
the flush-done event (which the wait resets), for the end of the thread, or
for the timeout. -/
def Flush (fuel : Nat) (clocks : Nat → Nat → Int) (s : Scheduler) (wait : FlushWait) :
    Option (HRESULT × Scheduler) :=
  if s.m_hSchedulerThread then
    let s1 := s.PostThreadMessage .eFlush
    if s1.threadExited then some (S_OK, s1)
    else
      match wait with
      | .timeout => some (S_OK, s1)
      | .completed workerTimedOut =>
        match threadIteration fuel clocks s1 workerTimedOut with
        | none => none
        | some s2 => some (S_OK, { s2 with flushDone := false })
  else some (S_OK, s)

end Scheduler

/-- An operation on a running scheduler: a call of `ScheduleSample` by the
presenter, or an iteration of the worker thread's loop. -/
inductive SchedulerStep where
  | schedule (pSample : Sample) (bPresentNow : Bool)
  | worker (fuel : Nat) (clocks : Nat → Nat → Int) (timedOut : Bool)

/-- The scheduler after one operation. -/
def SchedulerStep.apply (s : Scheduler) : SchedulerStep → Option Scheduler
  | .schedule pSample bPresentNow => some (s.ScheduleSample pSample bPresentNow).2
  | .worker fuel clocks timedOut => s.threadIteration fuel clocks timedOut

/-- The scheduler after a sequence of operations. -/
def runSteps : Scheduler → List SchedulerStep → Option Scheduler
  | s, [] => some s
  | s, step :: rest =>
    match step.apply s with
    | none => none
    | some s' => runSteps s' rest

/-- The samples passed to `ScheduleSample` in a sequence of operations. -/
def scheduledSamples : List SchedulerStep → List Sample
  | [] => []
  | .schedule pSample _ :: rest => pSample :: scheduledSamples rest
  | .worker _ _ _ :: rest => scheduledSamples rest

/-! ## Presenter (Presenter.cpp) -/

/-- Modelled from the spec: the render states of the presenter
(`RENDER_STATE` of Presenter.h, which is not among the sources). -/
inductive RENDER_STATE where
  | RENDER_STATE_STARTED
  | RENDER_STATE_STOPPED
  | RENDER_STATE_PAUSED
  | RENDER_STATE_SHUTDOWN
  deriving DecidableEq, Repr

/-- Modelled from the spec: the frame-step states in their declared order
(`FRAMESTEP_STATE` of Presenter.h, which is not among the sources). -/
inductive FRAMESTEP_STATE where
  | FRAMESTEP_NONE
  | FRAMESTEP_WAITING_START
  | FRAMESTEP_PENDING
  | FRAMESTEP_SCHEDULED
  | FRAMESTEP_COMPLETE
  deriving DecidableEq, Repr

/-- Modelled from the spec: the frame-step data of the presenter (the
struct `FrameStep` of Presenter.h): state, queue of frames, step counter
and the identity of the frame chosen to complete the step (`none` is
`NULL`). -/
structure FrameStep where
  state : FRAMESTEP_STATE
  samples : VideoSampleList
  steps : Nat
  pSampleNoRef : Option Nat
  deriving DecidableEq, Repr

/-- The event codes the presenter sends to the EVR (evcode.h). -/
inductive EventCode where
  | EC_COMPLETE
  | EC_ERRORABORT
  | EC_STEP_COMPLETE
  | EC_SCRUB_TIME
  | EC_DISPLAY_CHANGED
  | EC_PROCESSING_LATENCY
  deriving DecidableEq, Repr

/-- An `IMFMediaType` as far as the negotiation looks at it:
`surfaceFormat` is `surfaceInfo.Format` of its `MFVIDEOFORMAT`
representation (`none` when `GetRepresentation` fails) and `attributes`
stands for all its other attributes. -/
structure MediaType where
  surfaceFormat : Option Nat
  attributes : Nat
  deriving DecidableEq, Repr

/-- The code `FCC('NV12')`, the FOURCC code `0x3231564E`. -/
def FCC_NV12 : Nat := 842094158
/-- The code `FCC('YV12')`, the FOURCC code `0x32315659`. -/
def FCC_YV12 : Nat := 842094169
/-- The code `FCC('YUY2')`, the FOURCC code `0x32595559`. -/
def FCC_YUY2 : Nat := 844715353
/-- The code `FCC('UYVY')`, the FOURCC code `0x59565955`. -/
def FCC_UYVY : Nat := 1498831189
/-- Value of `D3DFORMAT` (d3d9types.h). -/
def D3DFMT_R8G8B8 : Nat := 20
/-- Value of `D3DFORMAT` (d3d9types.h). -/
def D3DFMT_A8R8G8B8 : Nat := 21
/-- Value of `D3DFORMAT` (d3d9types.h). -/
def D3DFMT_X8R8G8B8 : Nat := 22
/-- Value of `D3DFORMAT` (d3d9types.h). -/
def D3DFMT_R5G6B5 : Nat := 23

/-- The function `GetMediaTypeMerit`: the preference score of a format; `0` when the
representation cannot be obtained (`CHECK_HR` jumps to `done`). -/
def GetMediaTypeMerit (pMediaType : MediaType) : Int :=
  match pMediaType.surfaceFormat with
  | none => 0
  | some format =>
    if format = FCC_NV12 then 90000000
    else if format = FCC_YV12 then 80000000
    else if format = FCC_YUY2 then 70000000
    else if format = FCC_UYVY then 60000000
    else if format = D3DFMT_X8R8G8B8 then 1102
    else if format = D3DFMT_A8R8G8B8 then 1101
    else if format = D3DFMT_R8G8B8 then 0
    else if format = D3DFMT_R5G6B5 then 0
    else 1000

/-- What one iteration of the negotiation loop observes for the output type
the mixer offers at that index: the type, the result of
`IsMediaTypeSupported`, the result and the type of `CreateOptimalVideoType`,
and the mixer's answer to `SetOutputType(0, optimal, MFT_SET_TYPE_TEST_ONLY)`. -/
structure Offer where
  mixerType : MediaType
  hrSupported : HRESULT
  hrOptimal : HRESULT
  optimalType : MediaType
  hrTest : HRESULT
  deriving DecidableEq, Repr

/-- The mixer, an external collaborator: the output types it offers in
order (`GetOutputAvailableType` returns `MF_E_NO_MORE_TYPES` past the end
of the list), its answer to `SetOutputType(0, type, 0)`, and the output
type it currently has set. -/
structure Mixer where
  offers : List Offer
  hrSetOutputType : MediaType → HRESULT
  outputType : Option MediaType

/-- The presenter.  The first group of fields are data members of
`EVRCustomPresenter` (interface pointers are recorded as set or `NULL`);
`events` is the sequence of events sent to the EVR through
`IMediaEventSink::Notify`. -/
structure Presenter where
  m_RenderState : RENDER_STATE
  m_pClock : Bool
  m_pMixer : Bool
  m_pMediaEventSink : Bool
  m_pMediaType : Option MediaType
  m_bSampleNotify : Bool
  m_bRepaint : Bool
  m_bEndStreaming : Bool
  m_bPrerolled : Bool
  m_fRate : F32
  m_TokenCounter : Nat
  m_FrameStep : FrameStep
  m_SamplePool : SamplePool
  m_scheduler : Scheduler
  events : List (EventCode × Int × Int)
  deriving DecidableEq, Repr

namespace Presenter

/-- Modelled from the spec: `NotifyEvent` (an inline member of Presenter.h,
which is not among the sources) emits a notification to the EVR when an
event sink is set. -/
def NotifyEvent (p : Presenter) (code : EventCode) (param1 param2 : Int) : Presenter :=
  if p.m_pMediaEventSink then { p with events := p.events ++ [(code, param1, param2)] }
  else p

/-- Modelled from the spec: `IsScrubbing` (an inline member of Presenter.h):
scrubbing is playback at rate zero. -/
def IsScrubbing (p : Presenter) : Bool := decide (p.m_fRate.mant = 0)

/-- The call `MFGetAttributeUINT32(pSample, MFSamplePresenter_SampleCounter,
(UINT32)-1)`: the generation tag of a sample, `2^32 - 1` when it has
none. -/
def sampleCounter (pSample : Sample) : Nat := pSample.counter.getD 4294967295

/-- Method `EVRCustomPresenter::CompleteFrameStep`; `hnsClockTime` is the time
`m_pClock->GetCorrelatedTime` reports. -/
def CompleteFrameStep (p : Presenter) (pSample : Sample) (hnsClockTime : Int) :
    HRESULT × Presenter :=
  let p1 : Presenter :=
    ({ p with m_FrameStep :=
        { p.m_FrameStep with state := .FRAMESTEP_COMPLETE, pSampleNoRef := none } }).NotifyEvent
      .EC_STEP_COMPLETE 0 0
  if p1.IsScrubbing then
    let hnsSampleTime : Int :=
      match pSample.sampleTime with
      | some t => t
      | none => if p1.m_pClock then hnsClockTime else 0
    (S_OK, p1.NotifyEvent .EC_SCRUB_TIME (hnsSampleTime % 4294967296)
      ((hnsSampleTime / 4294967296) % 4294967296))
  else (S_OK, p1)

/-- The `IMFAsyncResult` passed to `OnSampleFree`: the results of
`GetObject` and of the `QueryInterface` for `IMFSample`, and the sample it
carries. -/
structure AsyncResult where
  hrGetObject : HRESULT
  hrQueryInterface : HRESULT
  sample : Sample
  deriving DecidableEq, Repr

/-- The label `done:` of `OnSampleFree`: a failure is reported to the EVR. -/
def OnSampleFree.done (hr : HRESULT) (p : Presenter) : HRESULT × Presenter :=
  (hr, if FAILED hr then p.NotifyEvent .EC_ERRORABORT hr 0 else p)

/-- The frame-step block of `OnSampleFree`: when a frame step is scheduled
and the released sample is the one remembered for it, the step is
completed.  The `QueryInterface` on the sample (for its identity) succeeds
for every COM object.  The result is the value of `hr` after the block. -/
def OnSampleFree.frameStep (p : Presenter) (pResult : AsyncResult) (hnsClockTime : Int) :
    HRESULT × Presenter :=
  if p.m_FrameStep.state = .FRAMESTEP_SCHEDULED then
    if p.m_FrameStep.pSampleNoRef = some pResult.sample.id then
      p.CompleteFrameStep pResult.sample hnsClockTime
    else (S_OK, p)
  else (pResult.hrQueryInterface, p)

/-- Method `EVRCustomPresenter::OnSampleFree`.  `ProcessOutputLoop` is the
presenter's method of that name, which runs after the sample has gone back
to the pool. -/
def OnSampleFree (ProcessOutputLoop : Presenter → Presenter) (p : Presenter)
    (pResult : AsyncResult) (hnsClockTime : Int) : HRESULT × Presenter :=
  if FAILED pResult.hrGetObject then OnSampleFree.done pResult.hrGetObject p
  else if FAILED pResult.hrQueryInterface then OnSampleFree.done pResult.hrQueryInterface p
  else
    match OnSampleFree.frameStep p pResult hnsClockTime with
    | (hr, p1) =>
      if FAILED hr then OnSampleFree.done hr p1
      else if sampleCounter pResult.sample = p1.m_TokenCounter then
        match p1.m_SamplePool.ReturnSample pResult.sample with
        | (hr, pool) =>
          if SUCCEEDED hr then
            OnSampleFree.done hr (ProcessOutputLoop { p1 with m_SamplePool := pool })
          else OnSampleFree.done hr { p1 with m_SamplePool := pool }
      else OnSampleFree.done hr p1

/-- The body of the `for` loop of `RenegotiateMediaType` over the types the
mixer offers, carrying `pPreferedType` and `PreferedMerit`.  An unsupported
type is skipped (`continue`); otherwise `hr` is the result of
`CreateOptimalVideoType` or of the test, and the loop condition
`hr != MF_E_NO_MORE_TYPES` is checked before the next type is fetched. -/
def RenegotiateMediaType.loop :
    List Offer → Option MediaType → Int → Option MediaType × Int
  | [], pPreferedType, PreferedMerit => (pPreferedType, PreferedMerit)
  | offer :: rest, pPreferedType, PreferedMerit =>
    if offer.hrSupported ≠ S_OK then
      RenegotiateMediaType.loop rest pPreferedType PreferedMerit
    else
      let step : HRESULT × Option MediaType × Int :=
        if SUCCEEDED offer.hrOptimal then
          if SUCCEEDED offer.hrTest then
            if GetMediaTypeMerit offer.optimalType > PreferedMerit then
              (offer.hrTest, some offer.optimalType, GetMediaTypeMerit offer.optimalType)
            else (offer.hrTest, pPreferedType, PreferedMerit)
          else (offer.hrTest, pPreferedType, PreferedMerit)
        else (offer.hrOptimal, pPreferedType, PreferedMerit)
      if step.1 = MF_E_NO_MORE_TYPES then (step.2.1, step.2.2)
      else RenegotiateMediaType.loop rest step.2.1 step.2.2

/-- Method `EVRCustomPresenter::RenegotiateMediaType`: the result, the presenter
and the mixer afterwards.  `SetMediaType` is the presenter's method of that
name (it leaves `m_pMixer` as it is); a successful `SetOutputType(0, type,
0)` sets the mixer's output type. -/
def RenegotiateMediaType
    (SetMediaType : Presenter → Option MediaType → HRESULT × Presenter)
    (p : Presenter) (mixer : Mixer) : HRESULT × Presenter × Mixer :=
  if !p.m_pMixer then (MF_E_INVALIDREQUEST, p, mixer)
  else
    match (RenegotiateMediaType.loop mixer.offers none (-1)).1 with
    | some pPreferedType =>
      match SetMediaType p (some pPreferedType) with
      | (hr, p1) =>
        if SUCCEEDED hr then
          if SUCCEEDED (mixer.hrSetOutputType pPreferedType) then
            (mixer.hrSetOutputType pPreferedType, p1,
              { mixer with outputType := some pPreferedType })
          else (MF_E_TRANSFORM_TYPE_NOT_SET, (SetMediaType p1 none).2, mixer)
        else (MF_E_TRANSFORM_TYPE_NOT_SET, (SetMediaType p1 none).2, mixer)
    | none => (MF_E_TRANSFORM_TYPE_NOT_SET, (SetMediaType p none).2, mixer)

end Presenter

/-- The scheduler as its constructor leaves it. -/
def Scheduler.new : Scheduler :=
  { m_ScheduledSamples := [], m_pCB := false, m_pClock := false, m_hSchedulerThread := false,
    m_fRate := ⟨1, 0⟩, m_LastSampleTime := 0, m_PerFrameInterval := 0,
    m_PerFrame_1_4th := 0, presented := [], messages := [], flushDone := false,
    threadExited := false, lWait := toLONG INFINITE, bExitThread := false }

/-- The presenter as its constructor leaves it once the present engine has
been created and registered as the scheduler's callback, with an event sink
attached. -/
def Presenter.new : Presenter :=
  { m_RenderState := .RENDER_STATE_SHUTDOWN, m_pClock := false, m_pMixer := false,
    m_pMediaEventSink := true, m_pMediaType := none, m_bSampleNotify := false,
    m_bRepaint := false, m_bEndStreaming := false, m_bPrerolled := false,
    m_fRate := ⟨1, 0⟩, m_TokenCounter := 0,
    m_FrameStep := { state := .FRAMESTEP_NONE, samples := [], steps := 0, pSampleNoRef := none },
    m_SamplePool := SamplePool.new,
    m_scheduler := { Scheduler.new with m_pCB := true }, events := [] }

/-- The offer is a candidate the loop compares: the presenter supports the
offered type, the optimal type was created and the mixer accepted it in
the test. -/
def Offer.accepted (o : Offer) : Bool :=
  decide (o.hrSupported = S_OK) && SUCCEEDED o.hrOptimal && SUCCEEDED o.hrTest

/-- The iteration of the negotiation loop for this offer leaves
`hr = MF_E_NO_MORE_TYPES`: the offered type is supported and either
`CreateOptimalVideoType` fails with that code or the mixer answers the test
with it. -/
def Offer.endsEnumeration (o : Offer) : Bool :=
  decide (o.hrSupported = S_OK) &&
    decide ((if SUCCEEDED o.hrOptimal then o.hrTest else o.hrOptimal) = MF_E_NO_MORE_TYPES)

/-- The presenter after a sequence of `OnSampleFree` callbacks, each with
the clock time read during it. -/
def runSampleFree (ProcessOutputLoop : Presenter → Presenter) (p : Presenter)
    (released : List (Presenter.AsyncResult × Int)) : Presenter :=
  released.foldl (fun q r => (q.OnSampleFree ProcessOutputLoop r.1 r.2).2) p

/-- The scheduler `s'` differs from `s` only in that samples taken from the
front part of the queue were passed, in order, to the presentation
callback: the samples presented since `s`, followed by the queue of `s'`,
are the queue of `s`. -/
def Conserves (s s' : Scheduler) : Prop :=
  ∃ (P : List (Sample × Int)) (Q : ComPtrList Sample),
    s' = { s with m_ScheduledSamples := Q, presented := s.presented ++ P } ∧
    P.map Prod.fst ++ Q = s.m_ScheduledSamples

/-- A scheduler as `StartScheduler` leaves it when the presenter has
registered its callback and passed a clock: the worker thread waits for
messages, the rate is `1.0`, and the frame interval is that of 30 frames
per second (333333 units of 100 ns). -/
def startedScheduler : Scheduler :=
  { m_ScheduledSamples := [], m_pCB := true, m_pClock := true, m_hSchedulerThread := true,
    m_fRate := ⟨1, 0⟩, m_LastSampleTime := 0, m_PerFrameInterval := 333333,
    m_PerFrame_1_4th := 83333, presented := [], messages := [], flushDone := false,
    threadExited := false, lWait := toLONG INFINITE, bExitThread := false }

/-- Between `s` and `s'` the presentation callback was called only on
samples that were in the queue of `s`, and the queue of `s'` holds only
samples of the queue of `s`. -/
def FromQueue (s s' : Scheduler) : Prop :=
  ∃ P : List (Sample × Int),
    s'.presented = s.presented ++ P ∧
    ∀ x ∈ P.map Prod.fst ++ s'.m_ScheduledSamples, x ∈ s.m_ScheduledSamples

/-- The pool invariant for a pool seeded with `n` frames. -/
def PoolInv (n : Nat) (p : SamplePool) : Prop :=
  p.m_bInitialized = true ∧ p.m_cPending + p.m_VideoSampleQueue.length = n

/-! ## Presenter: shutdown check, frame-step cancellation, end of stream -/

/-- The code `MF_E_SHUTDOWN` (mferror.h), `0xC00D3E85`. -/
def MF_E_SHUTDOWN : HRESULT := -1072873851
/-- The code `MF_E_UNSUPPORTED_RATE` (mferror.h), `0xC00D36D0`. -/
def MF_E_UNSUPPORTED_RATE : HRESULT := -1072875824
/-- The code `MF_E_INVALIDMEDIATYPE` (mferror.h), `0xC00D36B4`. -/
def MF_E_INVALIDMEDIATYPE : HRESULT := -1072875852
/-- The code `E_POINTER` (winerror.h), `0x80004003`. -/
def E_POINTER : HRESULT := -2147467261

/-- Modelled from the spec: the position of a frame-step state in the
declaration of `FRAMESTEP_STATE` (Presenter.h, which is not among the
sources), the value the comparisons `<` and `>` of the enumeration use. -/
def FRAMESTEP_STATE.toNat : FRAMESTEP_STATE → Nat
  | .FRAMESTEP_NONE => 0
  | .FRAMESTEP_WAITING_START => 1
  | .FRAMESTEP_PENDING => 2
  | .FRAMESTEP_SCHEDULED => 3
  | .FRAMESTEP_COMPLETE => 4

/-- Modelled from the spec: `Scheduler::SetClockRate` (an inline member of
Scheduler.h, which is not among the sources) stores the signed playback
rate. -/
def Scheduler.SetClockRate (s : Scheduler) (fRate : F32) : Scheduler :=
  { s with m_fRate := fRate }

namespace Presenter

/-- Modelled from the spec: `CheckShutdown` (an inline member of Presenter.h,
which is not among the sources): operations check the shutdown flag first
and fail after shutdown.  The failure is the code `MF_E_SHUTDOWN`, which
the spec files under the invalid requests. -/
def CheckShutdown (p : Presenter) : HRESULT :=
  if p.m_RenderState = .RENDER_STATE_SHUTDOWN then MF_E_SHUTDOWN else S_OK

/-- Modelled from the spec: `IsActive` (an inline member of Presenter.h): the
presenter is active while started or paused. -/
def IsActive (p : Presenter) : Bool :=
  decide (p.m_RenderState = .RENDER_STATE_STARTED) ||
    decide (p.m_RenderState = .RENDER_STATE_PAUSED)

/-- Method `EVRCustomPresenter::CancelFrameStep`.  The event parameter `TRUE`
(cancelled) is `1`. -/
def CancelFrameStep (p : Presenter) : HRESULT × Presenter :=
  let oldState := p.m_FrameStep.state
  let p1 : Presenter :=
    { p with m_FrameStep :=
        { p.m_FrameStep with state := .FRAMESTEP_NONE, steps := 0, pSampleNoRef := none } }
  if oldState.toNat > FRAMESTEP_STATE.toNat .FRAMESTEP_NONE ∧
      oldState.toNat < FRAMESTEP_STATE.toNat .FRAMESTEP_COMPLETE then
    (S_OK, p1.NotifyEvent .EC_STEP_COMPLETE 1 0)
  else (S_OK, p1)

/-- Method `EVRCustomPresenter::OnClockSetRate` for a finite rate `fRate`. -/
def OnClockSetRate (p : Presenter) (fRate : F32) : HRESULT × Presenter :=
  if FAILED p.CheckShutdown then (p.CheckShutdown, p)
  else
    let p1 : Presenter :=
      if p.m_fRate.mant = 0 ∧ fRate.mant ≠ 0 then
        let q := p.CancelFrameStep.2
        { q with m_FrameStep := { q.m_FrameStep with samples := ComPtrList.Clear q.m_FrameStep.samples } }
      else p
    (p.CheckShutdown, { p1 with m_fRate := fRate,
                                m_scheduler := p1.m_scheduler.SetClockRate fRate })

/-- Method `EVRCustomPresenter::CheckEndOfStream`.  The event parameter
`(LONG_PTR)S_OK` is `0`. -/
def CheckEndOfStream (p : Presenter) : HRESULT × Presenter :=
  if !p.m_bEndStreaming then (S_OK, p)
  else if p.m_bSampleNotify then (S_OK, p)
  else if p.m_SamplePool.AreSamplesPending then (S_OK, p)
  else (S_OK, { p.NotifyEvent .EC_COMPLETE S_OK 0 with m_bEndStreaming := false })

end Presenter

/-! ## Presenter: rate support (Presenter.cpp) and the present engine -/

/-- The data members of `D3DPresentEngine` (PresentEngine.h) the presenter
reads: the window handle (`none` is `NULL`), the refresh rate of the display
mode, and the number of frame buffers, an `INT`. -/
structure D3DPresentEngine where
  m_hwnd : Option Nat
  RefreshRate : Nat
  m_bufferCount : Int
  deriving DecidableEq, Repr

namespace D3DPresentEngine

/-- The constructor `D3DPresentEngine::D3DPresentEngine`: no window, a zeroed
display mode and three frame buffers. -/
def new : D3DPresentEngine :=
  { m_hwnd := none, RefreshRate := 0, m_bufferCount := 3 }

/-- Method `D3DPresentEngine::SetBufferCount`. -/
def SetBufferCount (e : D3DPresentEngine) (bufferCount : Int) : HRESULT × D3DPresentEngine :=
  if bufferCount ≤ 2 then (E_INVALIDARG, e)
  else (S_OK, { e with m_bufferCount := bufferCount })

/-- Method `D3DPresentEngine::GetBufferCount`, called with a pointer that is
not `NULL`: the result and the value written. -/
def GetBufferCount (e : D3DPresentEngine) : HRESULT × Int :=
  (S_OK, e.m_bufferCount)

end D3DPresentEngine

/-- The engine after a sequence of `SetBufferCount` calls. -/
def runSetBufferCount (e : D3DPresentEngine) (counts : List Int) : D3DPresentEngine :=
  counts.foldl (fun q n => (q.SetBufferCount n).2) e

/-- A frame rate or aspect ratio (`MFRatio`): two `DWORD`s. -/
structure MFRatio where
  Numerator : Nat
  Denominator : Nat
  deriving DecidableEq, Repr

/-- A `float` argument: a finite value, an infinity or a NaN. -/
inductive Float32 where
  | finite (v : F32)
  | inf (negative : Bool)
  | nan
  deriving DecidableEq, Repr

/-- The comparison `a < b` of two finite binary32 values: the mantissas are
compared at the smaller of the two exponents. -/
def F32.lt (a b : F32) : Bool :=
  decide (a.mant * 2 ^ (a.exp - min a.exp b.exp).toNat
    < b.mant * 2 ^ (b.exp - min a.exp b.exp).toNat)

/-- The negation `-a`. -/
def F32.neg (a : F32) : F32 := ⟨-a.mant, a.exp⟩

/-- The magnitude `fabsf(a)`. -/
def F32.fabsf (a : F32) : F32 := ⟨a.mant.natAbs, a.exp⟩

/-- The rational number a finite binary32 value stands for. -/
def F32.toRat (a : F32) : ℚ := a.mant * 2 ^ a.exp

/-- The constant `FLT_MAX`, `(2^24 - 1) * 2^104`. -/
def FLT_MAX : F32 := ⟨16777215, 104⟩

/-- The conversion `(float)n` of an `int`. -/
def F32.ofInt (n : Int) : F32 := ⟨if n < 0 then -(f32OfNat n.natAbs : Int) else f32OfNat n.natAbs, 0⟩

/-- The test `fabsf(fRate) > fMaxRate` of `IsRateSupported`; a comparison
with a NaN is false. -/
def Float32.absExceeds (fRate : Float32) (fMaxRate : F32) : Bool :=
  match fRate with
  | .finite v => F32.lt fMaxRate v.fabsf
  | .inf _ => true
  | .nan => false

/-- The test `fRate < 0`. -/
def Float32.isNegative (fRate : Float32) : Bool :=
  match fRate with
  | .finite v => decide (v.mant < 0)
  | .inf negative => negative
  | .nan => false

/-- The Windows function `MulDiv`: the product of the first two arguments
divided by the third, rounded to the nearest integer (halves away from
zero); `-1` when the divisor is zero or the result does not fit an `int`. -/
def MulDiv (nNumber nNumerator nDenominator : Int) : Int :=
  if nDenominator = 0 then -1
  else
    let n : Int := if nDenominator < 0 then -nNumber else nNumber
    let d : Int := if nDenominator < 0 then -nDenominator else nDenominator
    let ret : Int :=
      if (n < 0 ∧ nNumerator < 0) ∨ (0 ≤ n ∧ 0 ≤ nNumerator) then
        Int.tdiv (n * nNumerator + Int.tdiv d 2) d
      else Int.tdiv (n * nNumerator - Int.tdiv d 2) d
    if ret > 2147483647 ∨ ret < -2147483647 then -1 else ret

/-- The direction argument of the rate queries (`MFRATE_DIRECTION`). -/
inductive MFRATE_DIRECTION where
  | MFRATE_FORWARD
  | MFRATE_REVERSE
  deriving DecidableEq, Repr

namespace Presenter

/-- Method `EVRCustomPresenter::GetMaxRate`.  `frameRate t` is the attribute
`MF_MT_FRAME_RATE` of a media type (`none` when the type has none, in which
case `GetFrameRate` leaves `fps` at zero); the `UINT` and `UINT32` arguments
are converted to the `int` parameters of `MulDiv`. -/
def GetMaxRate (p : Presenter) (engine : D3DPresentEngine)
    (frameRate : MediaType → Option MFRatio) (bThin : Bool) : F32 :=
  if !bThin ∧ p.m_pMediaType.isSome then
    let fps : MFRatio := (p.m_pMediaType.bind frameRate).getD ⟨0, 0⟩
    let MonitorRateHz : Nat := engine.RefreshRate
    if fps.Denominator ≠ 0 ∧ fps.Numerator ≠ 0 ∧ MonitorRateHz ≠ 0 then
      F32.ofInt (MulDiv (toLONG MonitorRateHz) (toLONG fps.Denominator) (toLONG fps.Numerator))
    else FLT_MAX
  else FLT_MAX

/-- Method `EVRCustomPresenter::GetSlowestRate`: the result and the rate written
to the caller (`none` when nothing is written).  `pfRate` tells whether the
pointer is not `NULL`. -/
def GetSlowestRate (p : Presenter) (pfRate : Bool) : HRESULT × Option F32 :=
  if !pfRate then (E_POINTER, none)
  else if FAILED p.CheckShutdown then (S_OK, none)
  else (S_OK, some ⟨0, 0⟩)

/-- Method `EVRCustomPresenter::GetFastestRate`. -/
def GetFastestRate (p : Presenter) (engine : D3DPresentEngine)
    (frameRate : MediaType → Option MFRatio) (eDirection : MFRATE_DIRECTION) (bThin : Bool)
    (pfRate : Bool) : HRESULT × Option F32 :=
  if !pfRate then (E_POINTER, none)
  else if FAILED p.CheckShutdown then (p.CheckShutdown, none)
  else
    let fMaxRate := p.GetMaxRate engine frameRate bThin
    (p.CheckShutdown,
      some (if eDirection = .MFRATE_REVERSE then fMaxRate.neg else fMaxRate))

/-- Method `EVRCustomPresenter::IsRateSupported`: the result and the nearest
supported rate written to the caller (`none` when nothing is written);
`pfNearestSupportedRate` tells whether the pointer is not `NULL`. -/
def IsRateSupported (p : Presenter) (engine : D3DPresentEngine)
    (frameRate : MediaType → Option MFRatio) (bThin : Bool) (fRate : Float32)
    (pfNearestSupportedRate : Bool) : HRESULT × Option Float32 :=
  if FAILED p.CheckShutdown then (p.CheckShutdown, none)
  else
    let fMaxRate := p.GetMaxRate engine frameRate bThin
    let r : HRESULT × Float32 :=
      if fRate.absExceeds fMaxRate then
        (MF_E_UNSUPPORTED_RATE,
          .finite (if fRate.isNegative then fMaxRate.neg else fMaxRate))
      else (p.CheckShutdown, fRate)
    (r.1, if pfNearestSupportedRate then some r.2 else none)

end Presenter

/-- The presenter after a sequence of `CheckEndOfStream` calls, each preceded
by one of the changes `between` made to the presenter in the meantime. -/
def runChecks (p : Presenter) : List (Presenter → Presenter) → Presenter
  | [] => p
  | f :: rest => runChecks (f p).CheckEndOfStream.2 rest

/-! ## Presenter: clock events and pipeline messages (Presenter.cpp) -/

/-- The methods that the clock events and `ProcessMessage` call and that
are taken as given here: the effect of the call `m_scheduler.Flush()` on the
scheduler (the method `Scheduler.Flush` together with what the worker thread
does meanwhile), the presenter's methods `StartFrameStep`,
`ProcessOutputLoop` and `RenegotiateMediaType`, and the effect and result of
`m_scheduler.StartScheduler(m_pClock)` and `m_scheduler.StopScheduler()`. -/
structure Callees where
  SchedulerFlush : Scheduler → Scheduler
  StartFrameStep : Presenter → HRESULT × Presenter
  ProcessOutputLoop : Presenter → Presenter
  RenegotiateMediaType : Presenter → HRESULT × Presenter
  StartScheduler : Scheduler → Bool → HRESULT × Scheduler
  StopScheduler : Scheduler → HRESULT × Scheduler

/-- The messages of the EVR (`MFVP_MESSAGE_TYPE`, evr.h); `unknown` stands
for any other value. -/
inductive MFVP_MESSAGE_TYPE where
  | MFVP_MESSAGE_FLUSH
  | MFVP_MESSAGE_INVALIDATEMEDIATYPE
  | MFVP_MESSAGE_PROCESSINPUTNOTIFY
  | MFVP_MESSAGE_BEGINSTREAMING
  | MFVP_MESSAGE_ENDSTREAMING
  | MFVP_MESSAGE_ENDOFSTREAM
  | MFVP_MESSAGE_STEP
  | MFVP_MESSAGE_CANCELSTEP
  | unknown (value : Nat)
  deriving DecidableEq, Repr

/-- The constant `PRESENTATION_CURRENT_POSITION` (mfidl.h),
`0x7fffffffffffffff`. -/
def PRESENTATION_CURRENT_POSITION : Int := 9223372036854775807

namespace Presenter

/-- Method `EVRCustomPresenter::Flush`; `SchedulerFlush` is the effect of
`m_scheduler.Flush()`. -/
def Flush (SchedulerFlush : Scheduler → Scheduler) (p : Presenter) : HRESULT × Presenter :=
  (S_OK, { p with m_bPrerolled := false,
                  m_scheduler := SchedulerFlush p.m_scheduler,
                  m_FrameStep := { p.m_FrameStep with
                                   samples := ComPtrList.Clear p.m_FrameStep.samples } })

/-- Method `EVRCustomPresenter::ProcessInputNotify`. -/
def ProcessInputNotify (c : Callees) (p : Presenter) : HRESULT × Presenter :=
  let p1 : Presenter := { p with m_bSampleNotify := true }
  if p1.m_pMediaType = none then (MF_E_TRANSFORM_TYPE_NOT_SET, p1)
  else (S_OK, c.ProcessOutputLoop p1)

/-- Method `EVRCustomPresenter::BeginStreaming`. -/
def BeginStreaming (c : Callees) (p : Presenter) : HRESULT × Presenter :=
  ((c.StartScheduler p.m_scheduler p.m_pClock).1,
    { p with m_scheduler := (c.StartScheduler p.m_scheduler p.m_pClock).2 })

/-- Method `EVRCustomPresenter::EndStreaming`. -/
def EndStreaming (c : Callees) (p : Presenter) : HRESULT × Presenter :=
  ((c.StopScheduler p.m_scheduler).1,
    { p with m_scheduler := (c.StopScheduler p.m_scheduler).2 })

/-- Method `EVRCustomPresenter::PrepareFrameStep`; the step count is a `DWORD`. -/
def PrepareFrameStep (c : Callees) (p : Presenter) (cSteps : Nat) : HRESULT × Presenter :=
  let p1 : Presenter :=
    { p with m_FrameStep :=
        { p.m_FrameStep with steps := wrapDWORD (p.m_FrameStep.steps + cSteps),
                             state := .FRAMESTEP_WAITING_START } }
  if p1.m_RenderState = .RENDER_STATE_STARTED then c.StartFrameStep p1 else (S_OK, p1)

/-- Method `EVRCustomPresenter::ProcessMessage`; `ulParam` is the low `DWORD` of
the parameter. -/
def ProcessMessage (c : Callees) (p : Presenter) (eMessage : MFVP_MESSAGE_TYPE)
    (ulParam : Nat) : HRESULT × Presenter :=
  if FAILED p.CheckShutdown then (p.CheckShutdown, p)
  else
    match eMessage with
    | .MFVP_MESSAGE_FLUSH => p.Flush c.SchedulerFlush
    | .MFVP_MESSAGE_INVALIDATEMEDIATYPE => c.RenegotiateMediaType p
    | .MFVP_MESSAGE_PROCESSINPUTNOTIFY => p.ProcessInputNotify c
    | .MFVP_MESSAGE_BEGINSTREAMING => p.BeginStreaming c
    | .MFVP_MESSAGE_ENDSTREAMING => p.EndStreaming c
    | .MFVP_MESSAGE_ENDOFSTREAM => ({ p with m_bEndStreaming := true }).CheckEndOfStream
    | .MFVP_MESSAGE_STEP => p.PrepareFrameStep c ulParam
    | .MFVP_MESSAGE_CANCELSTEP => p.CancelFrameStep
    | .unknown _ => (E_INVALIDARG, p)

/-- Method `EVRCustomPresenter::OnClockStart`. -/
def OnClockStart (c : Callees) (p : Presenter) (llClockStartOffset : Int) :
    HRESULT × Presenter :=
  if FAILED p.CheckShutdown then (p.CheckShutdown, p)
  else if p.IsActive then
    let p1 : Presenter := { p with m_RenderState := .RENDER_STATE_STARTED }
    let p2 : Presenter :=
      if llClockStartOffset ≠ PRESENTATION_CURRENT_POSITION then (p1.Flush c.SchedulerFlush).2
      else p1
    (p.CheckShutdown, c.ProcessOutputLoop p2)
  else
    match c.StartFrameStep { p with m_RenderState := .RENDER_STATE_STARTED } with
    | (hr, p1) => if FAILED hr then (hr, p1) else (hr, c.ProcessOutputLoop p1)

/-- Method `EVRCustomPresenter::OnClockRestart`. -/
def OnClockRestart (c : Callees) (p : Presenter) : HRESULT × Presenter :=
  if FAILED p.CheckShutdown then (p.CheckShutdown, p)
  else
    match c.StartFrameStep { p with m_RenderState := .RENDER_STATE_STARTED } with
    | (hr, p1) => if FAILED hr then (hr, p1) else (hr, c.ProcessOutputLoop p1)

/-- Method `EVRCustomPresenter::OnClockStop`. -/
def OnClockStop (c : Callees) (p : Presenter) : HRESULT × Presenter :=
  if FAILED p.CheckShutdown then (p.CheckShutdown, p)
  else if p.m_RenderState ≠ .RENDER_STATE_STOPPED then
    let p1 := (({ p with m_RenderState := .RENDER_STATE_STOPPED } : Presenter).Flush
      c.SchedulerFlush).2
    (p.CheckShutdown,
      if p1.m_FrameStep.state ≠ .FRAMESTEP_NONE then p1.CancelFrameStep.2 else p1)
  else (p.CheckShutdown, p)

/-- Method `EVRCustomPresenter::OnClockPause`. -/
def OnClockPause (p : Presenter) : HRESULT × Presenter :=
  if SUCCEEDED p.CheckShutdown then
    (p.CheckShutdown, { p with m_RenderState := .RENDER_STATE_PAUSED })
  else (p.CheckShutdown, p)

end Presenter

/-- A clock event or a pipeline message delivered to the presenter. -/
inductive Operation where
  | clockStart (llClockStartOffset : Int)
  | clockRestart
  | clockStop
  | clockPause
  | clockSetRate (fRate : F32)
  | message (eMessage : MFVP_MESSAGE_TYPE) (ulParam : Nat)
  deriving DecidableEq, Repr

/-- The result of an operation and the presenter after it. -/
def Operation.apply (c : Callees) (p : Presenter) : Operation → HRESULT × Presenter
  | .clockStart llClockStartOffset => p.OnClockStart c llClockStartOffset
  | .clockRestart => p.OnClockRestart c
  | .clockStop => p.OnClockStop c
  | .clockPause => p.OnClockPause
  | .clockSetRate fRate => p.OnClockSetRate fRate
  | .message eMessage ulParam => p.ProcessMessage c eMessage ulParam

/-- The presenter after a sequence of operations. -/
def runOperations (c : Callees) (p : Presenter) (ops : List Operation) : Presenter :=
  ops.foldl (fun q op => (op.apply c q).2) p

/-! ## Presenter: video window and position (Presenter.cpp) -/

/-- A normalized rectangle (`MFVideoNormalizedRect`): four `float`s. -/
structure MFVideoNormalizedRect where
  left : F32
  top : F32
  right : F32
  bottom : F32
  deriving DecidableEq, Repr

/-- A rectangle of `LONG`s (`RECT`). -/
structure RECT where
  left : Int
  top : Int
  right : Int
  bottom : Int
  deriving DecidableEq, Repr

/-- The source rectangle `m_nrcSource` as the constructor of the presenter
sets it: `(0, 0, 1, 1)`. -/
def MFVideoNormalizedRect.full : MFVideoNormalizedRect :=
  { left := ⟨0, 0⟩, top := ⟨0, 0⟩, right := ⟨1, 0⟩, bottom := ⟨1, 0⟩ }

namespace D3DPresentEngine

/-- Method `D3DPresentEngine::GetVideoWindow` (PresentEngine.h). -/
def GetVideoWindow (e : D3DPresentEngine) : Option Nat := e.m_hwnd

/-- Method `D3DPresentEngine::SetVideoWindow`: the handle is stored and the device
is created anew; `CreateD3DDevice` is the engine's method of that name. -/
def SetVideoWindow (CreateD3DDevice : D3DPresentEngine → HRESULT × D3DPresentEngine)
    (e : D3DPresentEngine) (hwnd : Nat) : HRESULT × D3DPresentEngine :=
  CreateD3DDevice { e with m_hwnd := some hwnd }

end D3DPresentEngine

namespace Presenter

/-- Method `EVRCustomPresenter::SetVideoWindow`; `IsWindow` is the Windows
function of that name. -/
def SetVideoWindow (CreateD3DDevice : D3DPresentEngine → HRESULT × D3DPresentEngine)
    (IsWindow : Nat → Bool) (p : Presenter) (engine : D3DPresentEngine) (hwndVideo : Nat) :
    HRESULT × Presenter × D3DPresentEngine :=
  if !IsWindow hwndVideo then (E_INVALIDARG, p, engine)
  else if engine.GetVideoWindow ≠ some hwndVideo then
    ((engine.SetVideoWindow CreateD3DDevice hwndVideo).1,
      p.NotifyEvent .EC_DISPLAY_CHANGED 0 0,
      (engine.SetVideoWindow CreateD3DDevice hwndVideo).2)
  else (S_OK, p, engine)

/-- Method `EVRCustomPresenter::GetVideoWindow`: the result and the handle written
to the caller; `phwndVideo` tells whether the pointer is not `NULL`. -/
def GetVideoWindow (_p : Presenter) (engine : D3DPresentEngine) (phwndVideo : Bool) :
    HRESULT × Option (Option Nat) :=
  if !phwndVideo then (E_POINTER, none) else (S_OK, some engine.GetVideoWindow)

/-- Method `EVRCustomPresenter::SetVideoPosition`: the result and the stored source
rectangle `m_nrcSource` afterwards.  `pnrcSource` is the rectangle passed
(`none` for `NULL`), `prcDest` tells whether the destination pointer is not
`NULL`, and `hrSetMixerSourceRect` is the result of `SetMixerSourceRect` on
the mixer. -/
def SetVideoPosition (p : Presenter) (m_nrcSource : MFVideoNormalizedRect)
    (hrSetMixerSourceRect : HRESULT) (pnrcSource : Option MFVideoNormalizedRect)
    (prcDest : Bool) : HRESULT × MFVideoNormalizedRect :=
  match pnrcSource with
  | none => if !prcDest then (E_POINTER, m_nrcSource) else (S_OK, m_nrcSource)
  | some src =>
    if F32.lt src.right src.left || F32.lt src.bottom src.top then (E_INVALIDARG, m_nrcSource)
    else if F32.lt src.left ⟨0, 0⟩ || F32.lt ⟨1, 0⟩ src.right ||
        F32.lt src.top ⟨0, 0⟩ || F32.lt ⟨1, 0⟩ src.bottom then (E_INVALIDARG, m_nrcSource)
    else if p.m_pMixer then (hrSetMixerSourceRect, src)
    else (S_OK, src)

/-- Method `EVRCustomPresenter::GetVideoPosition`: the result and the rectangles
written to the caller (`none` when nothing is written).  `m_nrcSource` is
the stored source rectangle, `frameSize t` the attribute `MF_MT_FRAME_SIZE`
of a media type (`none` when `MFGetAttributeSize` fails), and `pnrcSource`
and `prcDest` tell whether the pointers are not `NULL`. -/
def GetVideoPosition (p : Presenter) (m_nrcSource : MFVideoNormalizedRect)
    (frameSize : MediaType → Option (Nat × Nat)) (pnrcSource prcDest : Bool) :
    HRESULT × Option MFVideoNormalizedRect × Option RECT :=
  if !pnrcSource && !prcDest then (E_POINTER, none, none)
  else if FAILED p.CheckShutdown then (p.CheckShutdown, none, none)
  else
    (p.CheckShutdown,
      if pnrcSource then some m_nrcSource else none,
      if prcDest then
        (p.m_pMediaType.bind frameSize).map
          (fun size => { left := 0, top := 0, right := toLONG size.1, bottom := toLONG size.2 })
      else none)

end Presenter

/-! ## Presenter: setting the media type (Presenter.cpp) -/

/-- What `SetMediaType` observes of the objects outside the presenter when
it is handed a media type: the result of
`pMediaType->GetUINT64(MF_MT_FRAME_SIZE, ...)`, the result of the engine's
`CreateVideoSamples` and the samples it put into the list, the result of
`pSample->SetUINT32(MFSamplePresenter_SampleCounter, ...)` for each sample,
and the frame rate `GetFrameRate` reads (`none` when it fails). -/
structure TypeObservation where
  hrGetFrameSize : HRESULT
  hrCreateVideoSamples : HRESULT
  videoSamples : List Sample
  hrSetCounter : Sample → HRESULT
  frameRate : Option MFRatio

/-- The surroundings of `SetMediaType`: the observations for each media
type, the effect of `m_scheduler.Flush()` on the scheduler, and the platform
function `MFFrameRateToAverageTimePerFrame`. -/
structure SetMediaTypeEnv where
  observe : MediaType → TypeObservation
  SchedulerFlush : Scheduler → Scheduler
  AvgTimePerFrame : MFRatio → Nat

/-- The default frame rate `g_DefaultFrameRate`, 30 frames per second. -/
def g_DefaultFrameRate : MFRatio := ⟨30, 1⟩

namespace Presenter

/-- Method `EVRCustomPresenter::ReleaseResources`: the token counter (a `UINT32`)
is incremented, the presenter is flushed and the pool is cleared.  The
engine's own `ReleaseResources` acts on the engine only. -/
def ReleaseResources (SchedulerFlush : Scheduler → Scheduler) (p : Presenter) : Presenter :=
  let p1 : Presenter := { p with m_TokenCounter := wrapDWORD (p.m_TokenCounter + 1) }
  let p2 : Presenter := (p1.Flush SchedulerFlush).2
  { p2 with m_SamplePool := p2.m_SamplePool.Clear.2 }

/-- The `for` loop of `SetMediaType` that marks each new sample with the
token counter; the first failure ends it (`CHECK_HR`).  The result is the
value of `hr` and the list with the samples marked so far. -/
def SetMediaType.tagSamples (hrSetCounter : Sample → HRESULT) (counter : Nat) :
    List Sample → HRESULT × List Sample
  | [] => (S_OK, [])
  | pSample :: rest =>
    if FAILED (hrSetCounter pSample) then (hrSetCounter pSample, pSample :: rest)
    else
      ((SetMediaType.tagSamples hrSetCounter counter rest).1,
        { pSample with counter := some counter }
          :: (SetMediaType.tagSamples hrSetCounter counter rest).2)

/-- Method `EVRCustomPresenter::SetMediaType`; `none` is the `NULL` type.  The two
calls wrapped in `CHECK_HR` without an assignment to `hr` jump to `done:`
with `hr` still `S_OK`; `GetAspectRatio` always succeeds.  The media types
are equal (`IsEqual` returns `S_OK`) when all their attributes agree. -/
def SetMediaType (env : SetMediaTypeEnv) (p : Presenter) (pMediaType : Option MediaType) :
    HRESULT × Presenter :=
  match pMediaType with
  | none => (S_OK, ({ p with m_pMediaType := none } : Presenter).ReleaseResources env.SchedulerFlush)
  | some t =>
    if FAILED p.CheckShutdown then
      (p.CheckShutdown, p.ReleaseResources env.SchedulerFlush)
    else if FAILED (env.observe t).hrGetFrameSize then (p.CheckShutdown, p)
    else if p.m_pMediaType = some t then (p.CheckShutdown, p)
    else
      let p1 : Presenter :=
        ({ p with m_pMediaType := none } : Presenter).ReleaseResources env.SchedulerFlush
      if FAILED (env.observe t).hrCreateVideoSamples then
        ((env.observe t).hrCreateVideoSamples, p1.ReleaseResources env.SchedulerFlush)
      else
        let tagged : HRESULT × List Sample :=
          SetMediaType.tagSamples (env.observe t).hrSetCounter p1.m_TokenCounter
            (env.observe t).videoSamples
        if FAILED tagged.1 then (tagged.1, p1.ReleaseResources env.SchedulerFlush)
        else
          let init : HRESULT × SamplePool × VideoSampleList :=
            p1.m_SamplePool.Initialize tagged.2
          if FAILED init.1 then
            (init.1, ({ p1 with m_SamplePool := init.2.1 } : Presenter).ReleaseResources
              env.SchedulerFlush)
          else
            let fps : MFRatio :=
              match (env.observe t).frameRate with
              | some r => if r.Numerator ≠ 0 ∧ r.Denominator ≠ 0 then r else g_DefaultFrameRate
              | none => g_DefaultFrameRate
            (init.1, { p1 with m_SamplePool := init.2.1,
                               m_scheduler := p1.m_scheduler.SetFrameRate (env.AvgTimePerFrame fps),
                               m_pMediaType := some t })

end Presenter

/-! ## Presenter: checking a proposed media type (Presenter.cpp) -/

/-- A fixed-point offset (`MFOffset`): `fract` is a `WORD`, `value` a
`SHORT`. -/
structure MFOffset where
  fract : Nat
  value : Int
  deriving DecidableEq, Repr

/-- A rectangular area of a frame (`MFVideoArea`): the offsets of its corner
and its size `Area.cx`, `Area.cy` (`LONG`s). -/
structure MFVideoArea where
  OffsetX : MFOffset
  OffsetY : MFOffset
  cx : Int
  cy : Int
  deriving DecidableEq, Repr

/-- The function `MFOffsetToFloat`: `value + float(fract) / 65536` in binary32.
The exact sum is `(value * 65536 + fract) / 65536`; it is rounded to 24
significant bits. -/
def MFOffsetToFloat (offset : MFOffset) : F32 :=
  ⟨(F32.ofInt (offset.value * 65536 + offset.fract)).mant, -16⟩

/-- The cast `(LONG)f` of a binary32 value: truncation toward zero. -/
def F32.toLONG (f : F32) : Int :=
  if 0 ≤ f.exp then f.mant * 2 ^ f.exp.toNat else Int.tdiv f.mant (2 ^ (-f.exp).toNat)

/-- The code `MFVideoInterlace_Progressive` of `MFVideoInterlaceMode`
(mfobjects.h). -/
def MFVideoInterlace_Progressive : Nat := 2

/-- The function `ValidateVideoArea`; `width` and `height` are `UINT32`s cast to
`LONG`. -/
def ValidateVideoArea (area : MFVideoArea) (width height : Nat) : HRESULT :=
  if (MFOffsetToFloat area.OffsetX).toLONG + area.cx > toLONG width ∨
      (MFOffsetToFloat area.OffsetY).toLONG + area.cy > toLONG height then
    MF_E_INVALIDMEDIATYPE
  else S_OK

/-- What `IsMediaTypeSupported` observes of the proposed type: the result of
`GetRepresentation` and whether the major type is video, the result and
answer of `IsCompressedFormat`, the result and value of the interlace mode,
the result and value of `GetFourCC`, the result of `MFGetAttributeSize` with
the frame size, and the three apertures (`none` when `GetBlob` fails). -/
structure ProposedType where
  hrGetRepresentation : HRESULT
  majortypeIsVideo : Bool
  hrIsCompressedFormat : HRESULT
  bCompressed : Bool
  hrGetInterlaceMode : HRESULT
  InterlaceMode : Nat
  hrGetFourCC : HRESULT
  d3dFormat : Nat
  hrGetFrameSize : HRESULT
  width : Nat
  height : Nat
  panScanAperture : Option MFVideoArea
  geometricAperture : Option MFVideoArea
  minimumDisplayAperture : Option MFVideoArea
  deriving DecidableEq, Repr

/-- Method `EVRCustomPresenter::IsMediaTypeSupported`; `CheckFormat` is the
engine's method of that name.  The three calls of `ValidateVideoArea` are
made for the apertures that are present and their results are dropped: the
value returned is the one `hr` holds after `MFGetAttributeSize`. -/
def IsMediaTypeSupported (CheckFormat : Nat → HRESULT) (pProposed : ProposedType) : HRESULT :=
  if FAILED pProposed.hrGetRepresentation then pProposed.hrGetRepresentation
  else
    let hr : HRESULT :=
      if !pProposed.majortypeIsVideo then MF_E_INVALIDMEDIATYPE
      else pProposed.hrGetRepresentation
    if hr ≠ S_OK then hr
    else if FAILED pProposed.hrIsCompressedFormat then pProposed.hrIsCompressedFormat
    else if FAILED pProposed.hrGetInterlaceMode then pProposed.hrGetInterlaceMode
    else if pProposed.bCompressed ∨ pProposed.InterlaceMode ≠ MFVideoInterlace_Progressive then
      MF_E_INVALIDMEDIATYPE
    else if FAILED pProposed.hrGetFourCC then pProposed.hrGetFourCC
    else if FAILED (CheckFormat pProposed.d3dFormat) then CheckFormat pProposed.d3dFormat
    else if FAILED pProposed.hrGetFrameSize then pProposed.hrGetFrameSize
    else
      let _panScan : Option HRESULT :=
        pProposed.panScanAperture.map
          (fun area => ValidateVideoArea area pProposed.width pProposed.height)
      let _geometric : Option HRESULT :=
        pProposed.geometricAperture.map
          (fun area => ValidateVideoArea area pProposed.width pProposed.height)
      let _minimumDisplay : Option HRESULT :=
        pProposed.minimumDisplayAperture.map
          (fun area => ValidateVideoArea area pProposed.width pProposed.height)
      pProposed.hrGetFrameSize

/-! ## Presenter: delivering samples and frame stepping (Presenter.cpp) -/

/-- The state of the Direct3D device (`D3DPresentEngine::DeviceState`,
PresentEngine.h). -/
inductive DeviceState where
  | DeviceOK
  | DeviceReset
  | DeviceRemoved
  deriving DecidableEq, Repr

/-- The code `S_PRESENT_MODE_CHANGED` (d3d9.h), `0x08760877`. -/
def S_PRESENT_MODE_CHANGED : HRESULT := 141953143
/-- The code `S_PRESENT_OCCLUDED` (d3d9.h), `0x08760878`. -/
def S_PRESENT_OCCLUDED : HRESULT := 141953144
/-- The code `D3DERR_DEVICELOST` (d3d9.h), `0x88760868`. -/
def D3DERR_DEVICELOST : HRESULT := -2005530520
/-- The code `D3DERR_DEVICEREMOVED` (d3d9.h), `0x88760870`. -/
def D3DERR_DEVICEREMOVED : HRESULT := -2005530512
/-- The code `D3DERR_DEVICEHUNG` (d3d9.h), `0x88760874`. -/
def D3DERR_DEVICEHUNG : HRESULT := -2005530508

/-- Method `D3DPresentEngine::CheckDeviceState`: the result, the state written
to `*pState` and the engine afterwards.  `hrDevice` is the answer of the
device-health query `m_pDevice->CheckDeviceState(m_hwnd)` and
`CreateD3DDevice` the engine's method of that name. -/
def D3DPresentEngine.CheckDeviceState
    (CreateD3DDevice : D3DPresentEngine → HRESULT × D3DPresentEngine)
    (e : D3DPresentEngine) (hrDevice : HRESULT) :
    HRESULT × DeviceState × D3DPresentEngine :=
  if hrDevice = S_OK ∨ hrDevice = S_PRESENT_OCCLUDED ∨ hrDevice = S_PRESENT_MODE_CHANGED then
    (S_OK, .DeviceOK, e)
  else if hrDevice = D3DERR_DEVICELOST ∨ hrDevice = D3DERR_DEVICEHUNG then
    if FAILED (CreateD3DDevice e).1 then
      ((CreateD3DDevice e).1, .DeviceOK, (CreateD3DDevice e).2)
    else ((CreateD3DDevice e).1, .DeviceReset, (CreateD3DDevice e).2)
  else if hrDevice = D3DERR_DEVICEREMOVED then (hrDevice, .DeviceRemoved, e)
  else if hrDevice = E_INVALIDARG then (S_OK, .DeviceOK, e)
  else (hrDevice, .DeviceOK, e)

/-- The function `IsSampleTimePassed` for a clock that is not `NULL`:
`hnsTimeNow` is the time the clock reports and `hnsSampleDuration` the
duration of the sample (`none` when the call fails). -/
def IsSampleTimePassed (hnsTimeNow : Option Int) (pSample : Sample)
    (hnsSampleDuration : Option Int) : Bool :=
  match hnsTimeNow, pSample.sampleTime, hnsSampleDuration with
  | some now, some hnsSampleStart, some duration => decide (hnsSampleStart + duration < now)
  | _, _, _ => false

/-- What the delivery of a sample observes outside the presenter: the
result and state of the engine's `CheckDeviceState` at that moment, the time
the presentation clock reports, the duration of the sample, and the result
of the `QueryInterface` for `IUnknown` on the sample. -/
structure DeliverEnv where
  deviceCheck : Sample → HRESULT × DeviceState
  hnsTimeNow : Option Int
  duration : Sample → Option Int
  hrQueryInterface : Sample → HRESULT

namespace Presenter

/-- The value of `bPresentNow` in `DeliverSample`. -/
def DeliverSample.bPresentNow (p : Presenter) (bRepaint : Bool) : Bool :=
  decide (p.m_RenderState ≠ .RENDER_STATE_STARTED) || p.IsScrubbing || bRepaint

/-- Method `EVRCustomPresenter::DeliverSample`; `check` is the result and the
state that `m_pD3DPresentEngine->CheckDeviceState(&state)` gives. -/
def DeliverSample (p : Presenter) (check : HRESULT × DeviceState) (pSample : Sample)
    (bRepaint : Bool) : HRESULT × Presenter :=
  let scheduled : HRESULT × Scheduler :=
    if SUCCEEDED check.1 then
      p.m_scheduler.ScheduleSample pSample (DeliverSample.bPresentNow p bRepaint)
    else (check.1, p.m_scheduler)
  let p1 : Presenter := { p with m_scheduler := scheduled.2 }
  if FAILED scheduled.1 then (scheduled.1, p1.NotifyEvent .EC_ERRORABORT scheduled.1 0)
  else if check.2 = .DeviceReset then (scheduled.1, p1.NotifyEvent .EC_DISPLAY_CHANGED S_OK 0)
  else (scheduled.1, p1)

/-- The branch of `DeliverFrameStepSample` for the frame that completes the
step while the clock runs: the sample is delivered, and when that and the
`QueryInterface` succeed its identity is remembered and the state becomes
`FRAMESTEP_SCHEDULED`. -/
def DeliverFrameStepSample.deliver (env : DeliverEnv) (p : Presenter) (pSample : Sample) :
    HRESULT × Presenter :=
  let delivered := p.DeliverSample (env.deviceCheck pSample) pSample false
  if FAILED delivered.1 then delivered
  else if FAILED (env.hrQueryInterface pSample) then (env.hrQueryInterface pSample, delivered.2)
  else
    (env.hrQueryInterface pSample,
      { delivered.2 with
        m_FrameStep := { delivered.2.m_FrameStep with pSampleNoRef := some pSample.id,
                                                      state := .FRAMESTEP_SCHEDULED } })

/-- Method `EVRCustomPresenter::DeliverFrameStepSample`. -/
def DeliverFrameStepSample (env : DeliverEnv) (p : Presenter) (pSample : Sample) :
    HRESULT × Presenter :=
  if p.IsScrubbing && p.m_pClock &&
      IsSampleTimePassed env.hnsTimeNow pSample (env.duration pSample) then (S_OK, p)
  else if p.m_FrameStep.state.toNat ≥ FRAMESTEP_STATE.toNat .FRAMESTEP_SCHEDULED then
    ((ComPtrList.InsertBack p.m_FrameStep.samples pSample).1,
      { p with m_FrameStep :=
          { p.m_FrameStep with
            samples := (ComPtrList.InsertBack p.m_FrameStep.samples pSample).2 } })
  else
    let p1 : Presenter :=
      if p.m_FrameStep.steps > 0 then
        { p with m_FrameStep := { p.m_FrameStep with steps := p.m_FrameStep.steps - 1 } }
      else p
    if p1.m_FrameStep.steps > 0 then (S_OK, p1)
    else if p1.m_FrameStep.state = .FRAMESTEP_WAITING_START then
      ((ComPtrList.InsertBack p1.m_FrameStep.samples pSample).1,
        { p1 with m_FrameStep :=
            { p1.m_FrameStep with
              samples := (ComPtrList.InsertBack p1.m_FrameStep.samples pSample).2 } })
    else DeliverFrameStepSample.deliver env p1 pSample

/-- The first `while` loop of `StartFrameStep`: while the frame-step queue
is not empty and the state is `FRAMESTEP_PENDING`, the front sample is
removed and passed to `DeliverFrameStepSample`; a failure ends the loop
(`CHECK_HR`).  Every iteration removes a sample and none is added while the
state is `FRAMESTEP_PENDING`, so `fuel` equal to the length of the queue is
enough. -/
def StartFrameStep.pending (env : DeliverEnv) : Nat → Presenter → HRESULT → HRESULT × Presenter
  | 0, p, hr => (hr, p)
  | fuel + 1, p, hr =>
    if !ComPtrList.IsEmpty p.m_FrameStep.samples ∧
        p.m_FrameStep.state = .FRAMESTEP_PENDING then
      match ComPtrList.RemoveFront p.m_FrameStep.samples with
      | (hrRemove, some pSample, rest) =>
        if FAILED hrRemove then
          (hrRemove, { p with m_FrameStep := { p.m_FrameStep with samples := rest } })
        else
          let r := DeliverFrameStepSample env
            { p with m_FrameStep := { p.m_FrameStep with samples := rest } } pSample
          if FAILED r.1 then r else StartFrameStep.pending env fuel r.2 r.1
      | (hrRemove, none, rest) =>
        (hrRemove, { p with m_FrameStep := { p.m_FrameStep with samples := rest } })
    else (hr, p)

/-- The second `while` loop of `StartFrameStep`: the samples of the
frame-step queue are delivered normally. -/
def StartFrameStep.normal (env : DeliverEnv) : Nat → Presenter → HRESULT → HRESULT × Presenter
  | 0, p, hr => (hr, p)
  | fuel + 1, p, hr =>
    if !ComPtrList.IsEmpty p.m_FrameStep.samples then
      match ComPtrList.RemoveFront p.m_FrameStep.samples with
      | (hrRemove, some pSample, rest) =>
        if FAILED hrRemove then
          (hrRemove, { p with m_FrameStep := { p.m_FrameStep with samples := rest } })
        else
          let r := DeliverSample
            { p with m_FrameStep := { p.m_FrameStep with samples := rest } }
            (env.deviceCheck pSample) pSample false
          if FAILED r.1 then r else StartFrameStep.normal env fuel r.2 r.1
      | (hrRemove, none, rest) =>
        (hrRemove, { p with m_FrameStep := { p.m_FrameStep with samples := rest } })
    else (hr, p)

/-- Method `EVRCustomPresenter::StartFrameStep`. -/
def StartFrameStep (env : DeliverEnv) (p : Presenter) : HRESULT × Presenter :=
  if p.m_FrameStep.state = .FRAMESTEP_WAITING_START then
    let p1 : Presenter :=
      { p with m_FrameStep := { p.m_FrameStep with state := .FRAMESTEP_PENDING } }
    StartFrameStep.pending env p1.m_FrameStep.samples.length p1 S_OK
  else if p.m_FrameStep.state = .FRAMESTEP_NONE then
    StartFrameStep.normal env p.m_FrameStep.samples.length p S_OK
  else (S_OK, p)

end Presenter

/-! ## Presenter: the output loop (Presenter.cpp) -/

/-- The code `MF_E_TRANSFORM_STREAM_CHANGE` (mferror.h), `0xC00D6D61`. -/
def MF_E_TRANSFORM_STREAM_CHANGE : HRESULT := -1072861855
/-- The code `MF_E_TRANSFORM_NEED_MORE_INPUT` (mferror.h), `0xC00D6D72`. -/
def MF_E_TRANSFORM_NEED_MORE_INPUT : HRESULT := -1072861838

/-- One answer of the mixer to `ProcessOutput(0, 1, &dataBuffer, &dwStatus)`:
the result, the time stamp of the frame it wrote into the sample (when it
succeeds), and the clock readings taken before and after the call for the
latency event. -/
structure MixerPull where
  hr : HRESULT
  sampleTime : Option Int
  mixerStartTime : Int
  mixerEndTime : Int
  deriving DecidableEq, Repr

/-- The answer of a mixer that has no input left. -/
def MixerPull.needMoreInput : MixerPull :=
  { hr := MF_E_TRANSFORM_NEED_MORE_INPUT, sampleTime := none, mixerStartTime := 0,
    mixerEndTime := 0 }

/-- The function `ClearDesiredSampleTime` for a sample that is not `NULL`: the
result and the sample afterwards.  `hrQueryInterface` is the result of the
`QueryInterface` for `IMFDesiredSample`, `hrSetUINT32` the result of writing
the counter back and `hrSetUnknown` that of writing the swap chain back
(`none` when the sample carries none).  `IMFDesiredSample::Clear` removes all
attributes of the sample, the generation tag among them; the tag is then
written back with the value read before, `(UINT32)-1` when there was
none. -/
def ClearDesiredSampleTime (hrQueryInterface hrSetUINT32 : HRESULT)
    (hrSetUnknown : Option HRESULT) (pSample : Sample) : HRESULT × Sample :=
  if SUCCEEDED hrQueryInterface then
    if FAILED hrSetUINT32 then (hrSetUINT32, { pSample with counter := none })
    else
      (hrSetUnknown.getD hrSetUINT32,
        { pSample with counter := some (Presenter.sampleCounter pSample) })
  else (hrQueryInterface, pSample)

/-- The surroundings of `ProcessOutput`: what the delivery of a sample
observes, the result of `TrackSample` for a sample, the surroundings of
`SetMediaType`, the mixer as `RenegotiateMediaType` finds it, and what
`ClearDesiredSampleTime` observes for a sample: the results of the
`QueryInterface` for `IMFDesiredSample`, of writing the counter back and of
writing the swap chain back. -/
structure OutputEnv where
  deliver : DeliverEnv
  hrTrackSample : Sample → HRESULT
  typeEnv : SetMediaTypeEnv
  mixer : Mixer
  hrQueryDesired : Sample → HRESULT
  hrRestoreCounter : Sample → HRESULT
  hrRestoreSwapChain : Sample → Option HRESULT

namespace Presenter

/-- The call `RenegotiateMediaType()` as `ProcessOutput` makes it: the result
and the presenter afterwards. -/
def ProcessOutput.renegotiate (env : OutputEnv) (p : Presenter) : HRESULT × Presenter :=
  ((p.RenegotiateMediaType (fun q t => q.SetMediaType env.typeEnv t) env.mixer).1,
    (p.RenegotiateMediaType (fun q t => q.SetMediaType env.typeEnv t) env.mixer).2.1)

/-- The part of `ProcessOutput` after a failed call of the mixer: the sample
goes back to the pool and the known error codes are handled. -/
def ProcessOutput.mixerFailed (env : OutputEnv) (p : Presenter) (pSample : Sample)
    (hr : HRESULT) : HRESULT × Presenter :=
  let returned := p.m_SamplePool.ReturnSample pSample
  let p1 : Presenter := { p with m_SamplePool := returned.2 }
  if FAILED returned.1 then (returned.1, p1)
  else if hr = MF_E_TRANSFORM_NEED_MORE_INPUT then (hr, { p1 with m_bSampleNotify := false })
  else if hr = MF_E_TRANSFORM_TYPE_NOT_SET then ProcessOutput.renegotiate env p1
  else if hr = MF_E_TRANSFORM_STREAM_CHANGE then (hr, (p1.SetMediaType env.typeEnv none).2)
  else ProcessOutput.renegotiate env p1

/-- The end of `ProcessOutput` after a successful call of the mixer:
`TrackSample` and the delivery of the sample, as a frame-step sample while a
frame step is under way and the call is not a repaint. -/
def ProcessOutput.deliver (env : OutputEnv) (p : Presenter) (pSample : Sample)
    (bRepaint : Bool) : HRESULT × Presenter :=
  if FAILED (env.hrTrackSample pSample) then (env.hrTrackSample pSample, p)
  else
    let delivered : HRESULT × Presenter :=
      if p.m_FrameStep.state = .FRAMESTEP_NONE ∨ bRepaint = true then
        p.DeliverSample (env.deliver.deviceCheck pSample) pSample bRepaint
      else p.DeliverFrameStepSample env.deliver pSample
    if FAILED delivered.1 then delivered
    else (delivered.1, { delivered.2 with m_bPrerolled := true })

/-- The part of `ProcessOutput` after a successful call of the mixer:
the latency event (its first parameter points to the latency, recorded here
as the value), then `TrackSample` and the delivery of the sample. -/
def ProcessOutput.mixerSucceeded (env : OutputEnv) (p : Presenter) (pSample : Sample)
    (bRepaint : Bool) (pull : MixerPull) : HRESULT × Presenter :=
  ProcessOutput.deliver env
    (if p.m_pClock && !bRepaint then
      p.NotifyEvent .EC_PROCESSING_LATENCY (pull.mixerEndTime - pull.mixerStartTime) 0
    else p)
    pSample bRepaint

/-- The sample as `ProcessOutput` passes it to the mixer: for a repaint the
desired sample time is set on it (`SetDesiredSampleTime`, which leaves its
tag alone); otherwise `ClearDesiredSampleTime` is called on it and the
result of that call is dropped. -/
def ProcessOutput.prepare (env : OutputEnv) (p : Presenter) (pSample : Sample) : Sample :=
  if p.m_bRepaint then pSample
  else
    (ClearDesiredSampleTime (env.hrQueryDesired pSample) (env.hrRestoreCounter pSample)
      (env.hrRestoreSwapChain pSample) pSample).2

/-- Method `EVRCustomPresenter::ProcessOutput`: the result, the presenter
afterwards and whether the mixer was called.  `pull` is the answer the mixer
gives if it is called; a successful call writes the frame, with its time
stamp, into the sample.  A successful `GetSample` always hands out a sample
(the source asserts it). -/
def ProcessOutput (env : OutputEnv) (p : Presenter) (pull : MixerPull) :
    HRESULT × Presenter × Bool :=
  if p.m_RenderState ≠ .RENDER_STATE_STARTED ∧ p.m_bRepaint = false ∧ p.m_bPrerolled = true then
    (S_FALSE, p, false)
  else if !p.m_pMixer then (MF_E_INVALIDREQUEST, p, false)
  else if p.m_SamplePool.GetSample.1 = MF_E_SAMPLEALLOCATOR_EMPTY then
    (S_FALSE, { p with m_SamplePool := p.m_SamplePool.GetSample.2.2 }, false)
  else if FAILED p.m_SamplePool.GetSample.1 then
    (p.m_SamplePool.GetSample.1, { p with m_SamplePool := p.m_SamplePool.GetSample.2.2 }, false)
  else
    match p.m_SamplePool.GetSample.2.1 with
    | none =>
      (p.m_SamplePool.GetSample.1, { p with m_SamplePool := p.m_SamplePool.GetSample.2.2 },
        false)
    | some pSample =>
      let p1 : Presenter :=
        { p with m_SamplePool := p.m_SamplePool.GetSample.2.2, m_bRepaint := false }
      if FAILED pull.hr then
        ((ProcessOutput.mixerFailed env p1 (ProcessOutput.prepare env p pSample) pull.hr).1,
          (ProcessOutput.mixerFailed env p1 (ProcessOutput.prepare env p pSample) pull.hr).2,
          true)
      else
        ((ProcessOutput.mixerSucceeded env p1
            { ProcessOutput.prepare env p pSample with sampleTime := pull.sampleTime }
            p.m_bRepaint pull).1,
          (ProcessOutput.mixerSucceeded env p1
            { ProcessOutput.prepare env p pSample with sampleTime := pull.sampleTime }
            p.m_bRepaint pull).2, true)

/-- The end of `ProcessOutputLoop`: when the loop ended with
`MF_E_TRANSFORM_NEED_MORE_INPUT` the end of the stream is checked. -/
def ProcessOutputLoop.finish (hr : HRESULT) (p : Presenter) : Presenter :=
  if hr = MF_E_TRANSFORM_NEED_MORE_INPUT then p.CheckEndOfStream.2 else p

/-- Method `EVRCustomPresenter::ProcessOutputLoop`: the presenter afterwards and
the answers of the mixer not yet used.  The mixer gives the answers of the
list in order, one for each call, and `MF_E_TRANSFORM_NEED_MORE_INPUT` once
the list is used up. -/
def ProcessOutputLoop (env : OutputEnv) : List MixerPull → Presenter → Presenter × List MixerPull
  | [], p =>
    if !p.m_bSampleNotify then
      (ProcessOutputLoop.finish MF_E_TRANSFORM_NEED_MORE_INPUT p, [])
    else
      (ProcessOutputLoop.finish (p.ProcessOutput env MixerPull.needMoreInput).1
        (p.ProcessOutput env MixerPull.needMoreInput).2.1, [])
  | pull :: rest, p =>
    if !p.m_bSampleNotify then
      (ProcessOutputLoop.finish MF_E_TRANSFORM_NEED_MORE_INPUT p, pull :: rest)
    else if (p.ProcessOutput env pull).2.2 then
      if (p.ProcessOutput env pull).1 = S_OK then
        ProcessOutputLoop env rest (p.ProcessOutput env pull).2.1
      else
        (ProcessOutputLoop.finish (p.ProcessOutput env pull).1 (p.ProcessOutput env pull).2.1,
          rest)
    else
      (ProcessOutputLoop.finish (p.ProcessOutput env pull).1 (p.ProcessOutput env pull).2.1,
        pull :: rest)

end Presenter

/-! ## Aspect-ratio correction, and sequences of presenter calls -/

/-- The function `CorrectAspectRatio`.  The terms of the ratios are `DWORD`s,
converted to the `int` parameters of `MulDiv`. -/
def CorrectAspectRatio (src : RECT) (srcPAR destPAR : MFRatio) : RECT :=
  let rc : RECT :=
    { left := 0, top := 0, right := src.right - src.left, bottom := src.bottom - src.top }
  if srcPAR.Numerator ≠ destPAR.Numerator ∨ srcPAR.Denominator ≠ destPAR.Denominator then
    let rc1 : RECT :=
      if srcPAR.Numerator > srcPAR.Denominator then
        { rc with right := MulDiv rc.right (toLONG srcPAR.Numerator) (toLONG srcPAR.Denominator) }
      else if srcPAR.Numerator < srcPAR.Denominator then
        { rc with
          bottom := MulDiv rc.bottom (toLONG srcPAR.Denominator) (toLONG srcPAR.Numerator) }
      else rc
    if destPAR.Numerator > destPAR.Denominator then
      { rc1 with
        bottom := MulDiv rc1.bottom (toLONG destPAR.Numerator) (toLONG destPAR.Denominator) }
    else if destPAR.Numerator < destPAR.Denominator then
      { rc1 with
        right := MulDiv rc1.right (toLONG destPAR.Denominator) (toLONG destPAR.Numerator) }
    else rc1
  else rc

/-- The presenter after a sequence of frames was passed, one after the
other, to `DeliverFrameStepSample`. -/
def deliverFrameStepSamples (env : DeliverEnv) (p : Presenter) (frames : List Sample) :
    Presenter :=
  frames.foldl (fun q pSample => (q.DeliverFrameStepSample env pSample).2) p

/-- A call that acts on the sample pool or the token counter:
`SetMediaType`, `ReleaseResources`, `ProcessOutput`, or the callback
`OnSampleFree` (with the output loop it runs and the answers the mixer gives
during it), each with its surroundings. -/
inductive PresenterCall where
  | setMediaType (env : SetMediaTypeEnv) (pMediaType : Option MediaType)
  | releaseResources (SchedulerFlush : Scheduler → Scheduler)
  | processOutput (env : OutputEnv) (pull : MixerPull)
  | sampleFree (env : OutputEnv) (pulls : List MixerPull) (pResult : Presenter.AsyncResult)
      (hnsClockTime : Int)

/-- The presenter after a call. -/
def PresenterCall.apply (p : Presenter) : PresenterCall → Presenter
  | .setMediaType env pMediaType => (p.SetMediaType env pMediaType).2
  | .releaseResources SchedulerFlush => p.ReleaseResources SchedulerFlush
  | .processOutput env pull => (p.ProcessOutput env pull).2.1
  | .sampleFree env pulls pResult hnsClockTime =>
    (p.OnSampleFree (fun q => (Presenter.ProcessOutputLoop env pulls q).1) pResult
      hnsClockTime).2

/-- The presenter after a sequence of calls. -/
def runPresenterCalls (p : Presenter) (calls : List PresenterCall) : Presenter :=
  calls.foldl PresenterCall.apply p

/-- Every frame in the free queue of the pool carries the generation tag
that equals the token counter. -/
def TagInv (p : Presenter) : Prop :=
  ∀ s ∈ p.m_SamplePool.m_VideoSampleQueue, Presenter.sampleCounter s = p.m_TokenCounter

/-- Between `p` and `q` no step-complete notification was sent, and the
frame-step state and the remembered identity are as they were unless a
pending step was scheduled: the events of `q` are those of `p` followed by
events other than `EC_STEP_COMPLETE`. -/
def StepQuiet (p q : Presenter) : Prop :=
  (∃ added : List (EventCode × Int × Int), q.events = p.events ++ added ∧
    ∀ e ∈ added, e.1 ≠ EventCode.EC_STEP_COMPLETE) ∧
  ((q.m_FrameStep.state = p.m_FrameStep.state ∧
      q.m_FrameStep.pSampleNoRef = p.m_FrameStep.pSampleNoRef) ∨
    (p.m_FrameStep.state = .FRAMESTEP_PENDING ∧
      q.m_FrameStep.state = .FRAMESTEP_SCHEDULED))

/-- Surroundings of a delivery in which the device is in order, the clock
time and the durations cannot be read and every `QueryInterface`
succeeds. -/
def plainDeliverEnv : DeliverEnv :=
  { deviceCheck := fun _ => (S_OK, .DeviceOK), hnsTimeNow := none, duration := fun _ => none,
    hrQueryInterface := fun _ => S_OK }

/-- Surroundings of `ProcessOutput` in which every external call succeeds:
the engine creates three samples for every type, the scheduler's flush
empties its queue, and the mixer offers no type. -/
def plainOutputEnv : OutputEnv :=
  { deliver := plainDeliverEnv,
    hrTrackSample := fun _ => S_OK,
    typeEnv :=
      { observe := fun _ =>
          { hrGetFrameSize := S_OK, hrCreateVideoSamples := S_OK,
            videoSamples := [⟨1, none, none⟩, ⟨2, none, none⟩, ⟨3, none, none⟩],
            hrSetCounter := fun _ => S_OK, frameRate := some ⟨30, 1⟩ },
        SchedulerFlush := fun s => { s with m_ScheduledSamples := [] },
        AvgTimePerFrame := fun _ => 333333 },
    mixer := { offers := [], hrSetOutputType := fun _ => S_OK, outputType := none },
    hrQueryDesired := fun _ => S_OK,
    hrRestoreCounter := fun _ => S_OK,
    hrRestoreSwapChain := fun _ => none }

/-- The presenter as `InitServicePointers` leaves it: stopped, with a mixer
and an event sink, nothing else set. -/
def stoppedPresenter : Presenter :=
  { Presenter.new with m_RenderState := .RENDER_STATE_STOPPED, m_pMixer := true }

/-- A call of `ProcessOutput` or `OnSampleFree` in whose surroundings
`ClearDesiredSampleTime` never loses the tag of a sample: whenever the
`QueryInterface` for `IMFDesiredSample` succeeds, so does writing the counter
back. -/
def PresenterCall.keepsTags : PresenterCall → Prop
  | .setMediaType _ _ => True
  | .releaseResources _ => True
  | .processOutput env _ =>
    ∀ s : Sample, SUCCEEDED (env.hrQueryDesired s) = true → FAILED (env.hrRestoreCounter s) = false
  | .sampleFree env _ _ _ =>
    ∀ s : Sample, SUCCEEDED (env.hrQueryDesired s) = true → FAILED (env.hrRestoreCounter s) = false

/-- The callees of the message handlers, with the presenter's own
`StartFrameStep` and `ProcessOutputLoop` (the mixer having no input) in the
plain surroundings. -/
def plainCallees : Callees :=
  { SchedulerFlush := fun s => { s with m_ScheduledSamples := [] },
    StartFrameStep := Presenter.StartFrameStep plainDeliverEnv,
    ProcessOutputLoop := fun q => (Presenter.ProcessOutputLoop plainOutputEnv [] q).1,
    RenegotiateMediaType := fun q => (S_OK, q),
    StartScheduler := fun s _ => (S_OK, s),
    StopScheduler := fun s => (S_OK, s) }

/-- A presenter during playback: started at rate 1.0 with a clock, a mixer
and a media type, new input announced, a pool of generation 0 with two free
frames and one frame out, and a running scheduler. -/
def playingPresenter : Presenter :=
  { Presenter.new with
    m_RenderState := .RENDER_STATE_STARTED, m_pClock := true, m_pMixer := true,
    m_pMediaType := some ⟨some FCC_NV12, 0⟩, m_bSampleNotify := true,
    m_SamplePool :=
      { m_VideoSampleQueue := [⟨2, none, some 0⟩, ⟨3, none, some 0⟩], m_bInitialized := true,
        m_cPending := 1 },
    m_scheduler := startedScheduler }

/-! ## Theorems -/

/-! ### The sample pool -/

theorem moveSamples_eq (queue : VideoSampleList) (samples : List Sample) :
    SamplePool.Initialize.moveSamples queue samples = (S_OK, queue ++ samples) := by
  induction samples generalizing queue with
  | nil => simp [SamplePool.Initialize.moveSamples]
  | cons x rest ih =>
    simp [SamplePool.Initialize.moveSamples, ComPtrList.InsertBack, FAILED, S_OK, ih]

theorem Initialize_new (samples : List Sample) :
    SamplePool.Initialize SamplePool.new samples =
      (S_OK, { m_VideoSampleQueue := samples, m_bInitialized := true, m_cPending := 0 }, []) := by
  simp [SamplePool.Initialize, SamplePool.new, moveSamples_eq, FAILED, S_OK, ComPtrList.Clear]

theorem PoolInv_get (n : Nat) (hn : n < 4294967296) (p : SamplePool) (h : PoolInv n p) :
    PoolInv n (PoolCall.apply p .get) := by
  obtain ⟨hi, hsum⟩ := h
  rcases p with ⟨queue, init, pending⟩
  simp only at hi hsum
  subst hi
  cases queue with
  | nil => simpa [PoolInv, PoolCall.apply, SamplePool.GetSample, ComPtrList.IsEmpty] using hsum
  | cons x rest =>
    simp only [List.length_cons] at hsum
    simp only [PoolInv, PoolCall.apply, SamplePool.GetSample, ComPtrList.IsEmpty,
      ComPtrList.RemoveFront, SUCCEEDED, S_OK, wrapDWORD]
    simp
    omega

theorem PoolInv_ret (n : Nat) (p : SamplePool) (pSample : Sample) (h : PoolInv n p)
    (hpos : 0 < p.m_cPending) (hn : n < 4294967296) :
    PoolInv n (PoolCall.apply p (.ret pSample)) := by
  obtain ⟨hi, hsum⟩ := h
  rcases p with ⟨queue, init, pending⟩
  simp only at hi hsum hpos
  subst hi
  simp only [PoolInv, PoolCall.apply, SamplePool.ReturnSample, ComPtrList.InsertBack,
    SUCCEEDED, S_OK, wrapDWORD]
  simp
  omega

theorem PoolInv_runCalls (n : Nat) (hn : n < 4294967296) (calls : List PoolCall) :
    ∀ (p : SamplePool), PoolInv n p → returnsMatched p calls = true →
      ∀ k : Nat, PoolInv n (runCalls p (calls.take k)) := by
  induction calls with
  | nil => intro p h _ k; simpa [runCalls] using h
  | cons c rest ih =>
    intro p h hm k
    cases k with
    | zero => simpa [runCalls] using h
    | succ k =>
      have hstep : PoolInv n (PoolCall.apply p c) ∧ returnsMatched (PoolCall.apply p c) rest = true := by
        cases c with
        | get => exact ⟨PoolInv_get n hn p h, by simpa [returnsMatched] using hm⟩
        | ret s =>
          simp only [returnsMatched, Bool.and_eq_true, decide_eq_true_eq] at hm
          exact ⟨PoolInv_ret n p s h hm.1 hn, hm.2⟩
      have := ih (PoolCall.apply p c) hstep.1 hstep.2 k
      simpa [runCalls] using this

/-- C1 (as amended): for a pool seeded with `n < 2^32` frames and every
sequence of `GetSample`/`ReturnSample` calls in which each `ReturnSample` is
made while the pending count is positive, after each call the pending count
plus the length of the free queue equals `n`. -/
theorem pool_pending_plus_free (samples : List Sample) (calls : List PoolCall)
    (hn : samples.length < 4294967296)
    (hm : returnsMatched (SamplePool.Initialize SamplePool.new samples).2.1 calls = true)
    (k : Nat) :
    (runCalls (SamplePool.Initialize SamplePool.new samples).2.1 (calls.take k)).m_cPending
      + (runCalls (SamplePool.Initialize SamplePool.new samples).2.1
          (calls.take k)).m_VideoSampleQueue.length
      = samples.length := by
  rw [Initialize_new] at hm ⊢
  exact (PoolInv_runCalls samples.length hn calls _ ⟨rfl, by simp⟩ hm k).2

/-- Witness for C1: a pool of two frames, one acquired and returned again. -/
theorem pool_pending_plus_free_witness :
    (runCalls (SamplePool.Initialize SamplePool.new [⟨1, none, some 0⟩, ⟨2, none, some 0⟩]).2.1
        ([PoolCall.get, PoolCall.ret ⟨1, none, some 0⟩].take 2)).m_cPending
      + (runCalls (SamplePool.Initialize SamplePool.new [⟨1, none, some 0⟩, ⟨2, none, some 0⟩]).2.1
          ([PoolCall.get, PoolCall.ret ⟨1, none, some 0⟩].take 2)).m_VideoSampleQueue.length
      = [(⟨1, none, some 0⟩ : Sample), ⟨2, none, some 0⟩].length :=
  pool_pending_plus_free [⟨1, none, some 0⟩, ⟨2, none, some 0⟩]
    [PoolCall.get, PoolCall.ret ⟨1, none, some 0⟩] (by decide) (by decide) 2

/-- C1 fails as stated: on a pool seeded with one frame, a `ReturnSample`
that answers no `GetSample` leaves two frames in the free queue and the
pending count at `2^32 - 1`. -/
theorem pool_pending_plus_free_counterexample :
    (SamplePool.Initialize SamplePool.new [⟨1, none, some 0⟩]).2.1.m_bInitialized = true ∧
    (runCalls (SamplePool.Initialize SamplePool.new [⟨1, none, some 0⟩]).2.1
        [PoolCall.ret ⟨2, none, some 0⟩]).m_VideoSampleQueue.length = 2 ∧
    (runCalls (SamplePool.Initialize SamplePool.new [⟨1, none, some 0⟩]).2.1
        [PoolCall.ret ⟨2, none, some 0⟩]).m_cPending = 4294967295 ∧
    (runCalls (SamplePool.Initialize SamplePool.new [⟨1, none, some 0⟩]).2.1
        [PoolCall.ret ⟨2, none, some 0⟩]).m_cPending
      + (runCalls (SamplePool.Initialize SamplePool.new [⟨1, none, some 0⟩]).2.1
          [PoolCall.ret ⟨2, none, some 0⟩]).m_VideoSampleQueue.length
      ≠ [(⟨1, none, some 0⟩ : Sample)].length := by
  decide

/-- C3 (as amended): on an initialized pool, `GetSample` with an empty free
queue returns `MF_E_SAMPLEALLOCATOR_EMPTY` and leaves the pool unchanged;
with a non-empty free queue it succeeds, hands out the front frame, removes
it from the queue and adds one to the pending count in 32-bit arithmetic,
which is an increase by exactly one whenever the count is below
`2^32 - 1`. -/
theorem GetSample_initialized (p : SamplePool) (hinit : p.m_bInitialized = true) :
    (p.m_VideoSampleQueue = [] → p.GetSample = (MF_E_SAMPLEALLOCATOR_EMPTY, none, p)) ∧
    (∀ front rest, p.m_VideoSampleQueue = front :: rest →
      p.GetSample = (S_OK, some front,
        { p with m_VideoSampleQueue := rest,
                 m_cPending := (p.m_cPending + 1) % 4294967296 }) ∧
      (p.m_cPending < 4294967295 → (p.GetSample).2.2.m_cPending = p.m_cPending + 1)) := by
  rcases p with ⟨queue, init, pending⟩
  simp only at hinit
  subst hinit
  refine ⟨?_, ?_⟩
  · intro hq
    simp only at hq
    subst hq
    simp [SamplePool.GetSample, ComPtrList.IsEmpty]
  · intro front rest hq
    simp only at hq
    subst hq
    have hw : wrapDWORD ((pending : Int) + 1) = (pending + 1) % 4294967296 := by
      simp only [wrapDWORD]; omega
    refine ⟨?_, ?_⟩
    · simp [SamplePool.GetSample, ComPtrList.IsEmpty, ComPtrList.RemoveFront, SUCCEEDED, S_OK, hw]
    · intro hlt
      simp only at hlt
      simp only [SamplePool.GetSample, ComPtrList.IsEmpty, ComPtrList.RemoveFront, SUCCEEDED,
        S_OK, hw]
      simp
      omega

/-- Witness for C3: a pool holding two free frames hands out the first. -/
theorem GetSample_initialized_witness :
    (SamplePool.GetSample ⟨[⟨1, none, some 0⟩, ⟨2, none, some 0⟩], true, 0⟩
      = (S_OK, some ⟨1, none, some 0⟩,
          { (⟨[⟨1, none, some 0⟩, ⟨2, none, some 0⟩], true, 0⟩ : SamplePool) with
            m_VideoSampleQueue := [⟨2, none, some 0⟩],
            m_cPending := (0 + 1) % 4294967296 })) ∧
    (SamplePool.GetSample ⟨[], true, 1⟩ = (MF_E_SAMPLEALLOCATOR_EMPTY, none, ⟨[], true, 1⟩)) :=
  ⟨((GetSample_initialized ⟨[⟨1, none, some 0⟩, ⟨2, none, some 0⟩], true, 0⟩ rfl).2
      ⟨1, none, some 0⟩ [⟨2, none, some 0⟩] rfl).1,
   (GetSample_initialized ⟨[], true, 1⟩ rfl).1 rfl⟩

/-- C3 fails as stated: with the pending count at `2^32 - 1` a successful
`GetSample` leaves the count at zero, not one higher. -/
theorem GetSample_initialized_counterexample :
    (SamplePool.GetSample ⟨[⟨1, none, some 0⟩], true, 4294967295⟩).1 = S_OK ∧
    (SamplePool.GetSample ⟨[⟨1, none, some 0⟩], true, 4294967295⟩).2.2.m_cPending = 0 ∧
    (SamplePool.GetSample ⟨[⟨1, none, some 0⟩], true, 4294967295⟩).2.2.m_cPending
      ≠ 4294967295 + 1 := by
  decide

/-- C4: `Initialize` succeeds exactly on an uninitialized pool (as the
constructor and `Clear` leave it); on an initialized pool it returns
`MF_E_INVALIDREQUEST` and changes neither the pool nor the caller's list;
`Clear` leaves any pool uninitialized with an empty queue and no pending
samples. -/
theorem Initialize_Clear (p : SamplePool) (samples : VideoSampleList) :
    (SUCCEEDED (p.Initialize samples).1 = true ↔ p.m_bInitialized = false) ∧
    ((p.Initialize samples).1 = S_OK ↔ p.m_bInitialized = false) ∧
    (p.m_bInitialized = true → p.Initialize samples = (MF_E_INVALIDREQUEST, p, samples)) ∧
    (p.m_bInitialized = false →
      p.Initialize samples =
        (S_OK, { p with m_VideoSampleQueue := p.m_VideoSampleQueue ++ samples,
                        m_bInitialized := true }, [])) ∧
    SamplePool.new.m_bInitialized = false ∧
    p.Clear = (S_OK, { m_VideoSampleQueue := [], m_bInitialized := false, m_cPending := 0 }) ∧
    (SamplePool.Initialize p.Clear.2 samples).1 = S_OK := by
  rcases p with ⟨queue, init, pending⟩
  cases init <;>
    simp [SamplePool.Initialize, SamplePool.Clear, SamplePool.new, moveSamples_eq, FAILED,
      SUCCEEDED, S_OK, MF_E_INVALIDREQUEST, ComPtrList.Clear]

/-! ### The scheduler -/

/-- C5: on a started scheduler (callback set, worker thread created and
alive) `ScheduleSample(frame, TRUE)` calls the presentation callback on the
frame exactly once and changes nothing else, the scheduled queue included;
`ScheduleSample(frame, FALSE)` with a clock present does not call the
callback, appends the frame at the back of the queue and posts the schedule
message. -/
theorem ScheduleSample_started (s : Scheduler) (pSample : Sample)
    (hcb : s.m_pCB = true) (hthread : s.m_hSchedulerThread = true)
    (halive : s.threadExited = false) :
    s.ScheduleSample pSample true
      = (S_OK, { s with presented := s.presented ++ [(pSample, 0)] }) ∧
    (s.m_pClock = true →
      s.ScheduleSample pSample false
        = (S_OK, { s with m_ScheduledSamples := s.m_ScheduledSamples ++ [pSample],
                          messages := s.messages ++ [ScheduleEvent.eSchedule] })) := by
  refine ⟨?_, ?_⟩
  · simp [Scheduler.ScheduleSample, hcb, hthread, halive, Scheduler.PresentSample]
  · intro hclock
    simp [Scheduler.ScheduleSample, hcb, hthread, halive, hclock, ThreadSafeQueue.Queue,
      ComPtrList.InsertBack, SUCCEEDED, S_OK, Scheduler.PostThreadMessage]

theorem Conserves_refl (s : Scheduler) : Conserves s s :=
  ⟨[], s.m_ScheduledSamples, by simp, by simp⟩

theorem Conserves_trans {s₁ s₂ s₃ : Scheduler} (h₁ : Conserves s₁ s₂) (h₂ : Conserves s₂ s₃) :
    Conserves s₁ s₃ := by
  obtain ⟨P, Q, e₁, c₁⟩ := h₁
  obtain ⟨P', Q', e₂, c₂⟩ := h₂
  subst e₁
  subst e₂
  simp only at c₂
  refine ⟨P ++ P', Q', by simp, ?_⟩
  rw [← c₁, ← c₂]
  simp

theorem ProcessSample_nil (s : Scheduler) (now lIn : Int) (hq : s.m_ScheduledSamples = []) :
    s.ProcessSample now lIn = (false, lIn, s) := by
  rcases s with ⟨q, cb, ck, th, rate, last, iv, tol, pres, msgs, fd, ex, lw, be⟩
  simp only at hq
  subst hq
  simp [Scheduler.ProcessSample, ThreadSafeQueue.Dequeue, ComPtrList.IsEmpty]

theorem ProcessSample_cons (s : Scheduler) (now lIn : Int) (f : Sample) (rest : List Sample)
    (hq : s.m_ScheduledSamples = f :: rest) :
    s.ProcessSample now lIn =
      (true, (Scheduler.ProcessSample.timing s f now).2,
        if (Scheduler.ProcessSample.timing s f now).1 = true then
          { s with m_ScheduledSamples := rest,
                   presented := s.presented ++ [(f, Scheduler.ProcessSample.target s f)] }
        else s) := by
  rcases s with ⟨q, cb, ck, th, rate, last, iv, tol, pres, msgs, fd, ex, lw, be⟩
  simp only at hq
  subst hq
  simp only [Scheduler.ProcessSample, ThreadSafeQueue.Dequeue, ComPtrList.IsEmpty,
    ComPtrList.RemoveFront, List.isEmpty_cons, Bool.false_eq_true, if_false]
  rcases h : Scheduler.ProcessSample.timing _ f now with ⟨b, l⟩
  cases b <;>
    simp [S_OK, Scheduler.PresentSample, ThreadSafeQueue.PutBack, ComPtrList.InsertFront]

theorem ProcessSample_conserves (s : Scheduler) (now lIn : Int) :
    Conserves s (s.ProcessSample now lIn).2.2 := by
  cases hq : s.m_ScheduledSamples with
  | nil => rw [ProcessSample_nil s now lIn hq]; exact Conserves_refl s
  | cons f rest =>
    rw [ProcessSample_cons s now lIn f rest hq]
    by_cases hb : (Scheduler.ProcessSample.timing s f now).1 = true
    · simp only [hb, if_true]
      exact ⟨[(f, Scheduler.ProcessSample.target s f)], rest, rfl, by simp [hq]⟩
    · simp only [hb, if_false]
      exact Conserves_refl s

theorem loop_conserves (clock : Nat → Int) (fuel : Nat) :
    ∀ (i : Nat) (s : Scheduler) (lWait : Int) (r : Int × Scheduler),
      Scheduler.ProcessSamplesInQueue.loop clock fuel i s lWait = some r → Conserves s r.2 := by
  induction fuel with
  | zero => intro i s lWait r h; simp [Scheduler.ProcessSamplesInQueue.loop] at h
  | succ fuel ih =>
    intro i s lWait r h
    have hc := ProcessSample_conserves s (clock i) lWait
    rcases hps : s.ProcessSample (clock i) lWait with ⟨ok, lWait', s'⟩
    rw [hps] at hc
    simp only [Scheduler.ProcessSamplesInQueue.loop, hps] at h
    cases ok with
    | false =>
      simp only [Option.some.injEq] at h
      subst h
      exact hc
    | true =>
      simp only at h
      by_cases hpos : lWait' > 0
      · simp only [hpos, if_true, Option.some.injEq] at h
        subst h
        exact hc
      · simp only [hpos, if_false] at h
        exact Conserves_trans hc (ih (i + 1) s' lWait' r h)

theorem ProcessSamplesInQueue_conserves (fuel : Nat) (clock : Nat → Int) (s : Scheduler)
    (r : HRESULT × Int × Scheduler) (h : Scheduler.ProcessSamplesInQueue fuel clock s = some r) :
    Conserves s r.2.2 := by
  unfold Scheduler.ProcessSamplesInQueue at h
  cases hl : Scheduler.ProcessSamplesInQueue.loop clock fuel 0 s 0 with
  | none => simp [hl] at h
  | some r' =>
    rcases r' with ⟨lWait, s'⟩
    simp only [hl, Option.some.injEq] at h
    subst h
    exact loop_conserves clock fuel 0 s 0 (lWait, s') hl

/-- C6: whenever `ProcessSamplesInQueue` returns, for any queue, any clock
readings and any rate, the frames it passed to the presentation callback
(in the order of the calls) followed by the frames still queued are the
queue before the call, and nothing else of the scheduler has changed: each
frame was presented once or kept, none was dropped. -/
theorem ProcessSamplesInQueue_presented_or_kept (fuel : Nat) (clock : Nat → Int)
    (s s' : Scheduler) (hr : HRESULT) (lWait : Int)
    (h : Scheduler.ProcessSamplesInQueue fuel clock s = some (hr, lWait, s')) :
    ∃ P : List (Sample × Int),
      s'.presented = s.presented ++ P ∧
      P.map Prod.fst ++ s'.m_ScheduledSamples = s.m_ScheduledSamples ∧
      s' = { s with m_ScheduledSamples := s'.m_ScheduledSamples,
                    presented := s'.presented } := by
  obtain ⟨P, Q, e, c⟩ := ProcessSamplesInQueue_conserves fuel clock s _ h
  simp only at e
  subst e
  exact ⟨P, rfl, c, rfl⟩

/-- Witness for C6: a late frame is presented, the early frame behind it is
kept. -/
theorem ProcessSamplesInQueue_presented_or_kept_witness :
    ∃ P : List (Sample × Int),
      ({ startedScheduler with m_ScheduledSamples := [⟨2, some 1483333, some 0⟩],
                               presented := [(⟨1, some 0, some 0⟩, 0)] } : Scheduler).presented
        = ({ startedScheduler with
              m_ScheduledSamples := [⟨1, some 0, some 0⟩, ⟨2, some 1483333, some 0⟩] }
            : Scheduler).presented ++ P ∧
      P.map Prod.fst ++
          ({ startedScheduler with m_ScheduledSamples := [⟨2, some 1483333, some 0⟩],
                                   presented := [(⟨1, some 0, some 0⟩, 0)] }
            : Scheduler).m_ScheduledSamples
        = ({ startedScheduler with
              m_ScheduledSamples := [⟨1, some 0, some 0⟩, ⟨2, some 1483333, some 0⟩] }
            : Scheduler).m_ScheduledSamples ∧
      ({ startedScheduler with m_ScheduledSamples := [⟨2, some 1483333, some 0⟩],
                               presented := [(⟨1, some 0, some 0⟩, 0)] } : Scheduler)
        = { ({ startedScheduler with
                m_ScheduledSamples := [⟨1, some 0, some 0⟩, ⟨2, some 1483333, some 0⟩] }
              : Scheduler) with
            m_ScheduledSamples :=
              ({ startedScheduler with m_ScheduledSamples := [⟨2, some 1483333, some 0⟩],
                                       presented := [(⟨1, some 0, some 0⟩, 0)] }
                : Scheduler).m_ScheduledSamples,
            presented :=
              ({ startedScheduler with m_ScheduledSamples := [⟨2, some 1483333, some 0⟩],
                                       presented := [(⟨1, some 0, some 0⟩, 0)] }
                : Scheduler).presented } :=
  ProcessSamplesInQueue_presented_or_kept 3 (fun _ => 1000000)
    { startedScheduler with
        m_ScheduledSamples := [⟨1, some 0, some 0⟩, ⟨2, some 1483333, some 0⟩] }
    { startedScheduler with m_ScheduledSamples := [⟨2, some 1483333, some 0⟩],
                            presented := [(⟨1, some 0, some 0⟩, 0)] }
    S_OK 40 (by decide)

theorem timing_frame (s : Scheduler) (Q : ComPtrList Sample) (P : List (Sample × Int))
    (f : Sample) (now : Int) :
    Scheduler.ProcessSample.timing { s with m_ScheduledSamples := Q, presented := P } f now
      = Scheduler.ProcessSample.timing s f now := rfl

/-- The loop of `ProcessSamplesInQueue` ends within one iteration more than
the queue is long, provided every frame that is put back reports a
positive wait. -/
theorem loop_terminates (clock : Nat → Int) :
    ∀ (q : List Sample) (s : Scheduler) (i : Nat) (lWait : Int),
      s.m_ScheduledSamples = q →
      (∀ f ∈ q, ∀ j, (Scheduler.ProcessSample.timing s f (clock j)).1 = false →
        (Scheduler.ProcessSample.timing s f (clock j)).2 > 0) →
      ∃ r, Scheduler.ProcessSamplesInQueue.loop clock (q.length + 1) i s lWait = some r := by
  intro q
  induction q with
  | nil =>
    intro s i lWait hq _
    simp [Scheduler.ProcessSamplesInQueue.loop, ProcessSample_nil s (clock i) lWait hq]
  | cons f rest ih =>
    intro s i lWait hq hpos
    rw [List.length_cons, Scheduler.ProcessSamplesInQueue.loop,
      ProcessSample_cons s (clock i) lWait f rest hq]
    simp only
    by_cases hl : (Scheduler.ProcessSample.timing s f (clock i)).2 > 0
    · simp [hl]
    · simp only [hl, if_false]
      have hb : (Scheduler.ProcessSample.timing s f (clock i)).1 = true := by
        by_contra hne
        exact hl (hpos f (List.mem_cons_self f rest) i (by simpa using hne))
      simp only [hb, if_true]
      apply ih
      · rfl
      · intro g hg j hgj
        rw [timing_frame] at hgj ⊢
        exact hpos g (List.mem_cons_of_mem f hg) j hgj

/-- With one iteration more than the queue is long, `ProcessSamplesInQueue`
returns, provided every frame that is put back reports a positive wait. -/
theorem ProcessSamplesInQueue_returns (clock : Nat → Int) (s : Scheduler)
    (hpos : ∀ f ∈ s.m_ScheduledSamples, ∀ j,
      (Scheduler.ProcessSample.timing s f (clock j)).1 = false →
      (Scheduler.ProcessSample.timing s f (clock j)).2 > 0) :
    ∃ r, Scheduler.ProcessSamplesInQueue (s.m_ScheduledSamples.length + 1) clock s = some r := by
  obtain ⟨r, hr⟩ := loop_terminates clock s.m_ScheduledSamples s 0 0 rfl hpos
  exact ⟨(S_OK, if r.1 = 0 then toLONG INFINITE else r.1, r.2), by
    simp [Scheduler.ProcessSamplesInQueue, hr]⟩

theorem f32OfNat_exact (n : Nat) (h : n ≤ 16777216) : f32OfNat n = n := by
  by_cases hlt : n < 16777216
  · simp [f32OfNat, hlt]
  · have : n = 16777216 := by omega
    subst this
    decide

theorem divByAbsRate_one (l : Int) (h0 : 0 ≤ l) (h1 : l ≤ 16777216) :
    divByAbsRate l ⟨1, 0⟩ = l := by
  obtain ⟨n, rfl⟩ := Int.eq_ofNat_of_zero_le h0
  have hn : n ≤ 16777216 := by omega
  have hq : f32QuotTrunc (f32OfNat n) 1 = n := by
    rw [f32OfNat_exact n hn]
    unfold f32QuotTrunc
    by_cases hz : n = 0
    · subst hz; decide
    · simp [hz, Nat.mod_one, f32OfNat_exact n hn]
  simp only [divByAbsRate]
  simp [hq]
  omega

theorem MFTimeToMsec_nonneg (x : Int) (h0 : 0 ≤ x) (h1 : x / 10000 < 2147483648) :
    MFTimeToMsec x = x / 10000 := by
  have h10 : Int.tdiv ONE_SECOND ONE_MSEC = 10000 := by decide
  unfold MFTimeToMsec
  rw [h10, Int.tdiv_eq_ediv h0 (by norm_num)]
  unfold toLONG
  omega

/-- C7 (as amended): at rate `1.0`, with a non-negative tolerance, a frame
stamped `T` that is dequeued when the clock reads `now` with
`T - now > tolerance` and `(T - now - tolerance) / 10000 ≤ 2^24` is not
presented but put back at the front (the scheduler is left as it was) and
the reported wait is `(T - now - tolerance) / 10000` milliseconds, the
100-nanosecond difference in whole milliseconds; in particular when the
clock reads `T - (tolerance + d ms)` for a whole number `1 ≤ d ≤ 2^24` of
milliseconds the wait is exactly `d`. -/
theorem ProcessSample_sleep_at_rate_one (s : Scheduler) (lIn : Int) (f : Sample)
    (rest : List Sample) (T : Int)
    (hq : s.m_ScheduledSamples = f :: rest) (hT : f.sampleTime = some T)
    (hclock : s.m_pClock = true) (hrate : s.m_fRate = ⟨1, 0⟩)
    (htol : 0 ≤ s.m_PerFrame_1_4th) :
    (∀ now : Int, s.m_PerFrame_1_4th < T - now →
      (T - now - s.m_PerFrame_1_4th) / 10000 ≤ 16777216 →
      s.ProcessSample now lIn = (true, (T - now - s.m_PerFrame_1_4th) / 10000, s)) ∧
    (∀ d : Int, 1 ≤ d → d ≤ 16777216 →
      s.ProcessSample (T - (s.m_PerFrame_1_4th + d * 10000)) lIn = (true, d, s)) := by
  have general : ∀ now : Int, s.m_PerFrame_1_4th < T - now →
      (T - now - s.m_PerFrame_1_4th) / 10000 ≤ 16777216 →
      s.ProcessSample now lIn = (true, (T - now - s.m_PerFrame_1_4th) / 10000, s) := by
    intro now hearly hsmall
    have htim : Scheduler.ProcessSample.timing s f now
        = (false, (T - now - s.m_PerFrame_1_4th) / 10000) := by
      have hnl : ¬ (T - now < 0) := by omega
      have hms : MFTimeToMsec (T - now - s.m_PerFrame_1_4th)
          = (T - now - s.m_PerFrame_1_4th) / 10000 :=
        MFTimeToMsec_nonneg _ (by omega) (by omega)
      have hdiv : divByAbsRate ((T - now - s.m_PerFrame_1_4th) / 10000) ⟨1, 0⟩
          = (T - now - s.m_PerFrame_1_4th) / 10000 :=
        divByAbsRate_one _ (by omega) hsmall
      simp [Scheduler.ProcessSample.timing, hclock, hT, hrate, hnl, hearly, hms, hdiv]
    rw [ProcessSample_cons s now lIn f rest hq, htim]
    simp
  refine ⟨general, ?_⟩
  intro d hd1 hd2
  have h := general (T - (s.m_PerFrame_1_4th + d * 10000)) (by omega) (by omega)
  have hd : (T - (T - (s.m_PerFrame_1_4th + d * 10000)) - s.m_PerFrame_1_4th) / 10000 = d := by
    omega
  rw [hd] at h
  exact h

/-- Witness for C7: 40 ms before the tolerance band the wait is 40 ms. -/
theorem ProcessSample_sleep_at_rate_one_witness :
    Scheduler.ProcessSample
        { startedScheduler with m_ScheduledSamples := [⟨1, some 5000000, some 0⟩] }
        (5000000 - (({ startedScheduler with
            m_ScheduledSamples := [⟨1, some 5000000, some 0⟩] } : Scheduler).m_PerFrame_1_4th
          + 40 * 10000)) 0
      = (true, 40, { startedScheduler with m_ScheduledSamples := [⟨1, some 5000000, some 0⟩] }) :=
  (ProcessSample_sleep_at_rate_one
    { startedScheduler with m_ScheduledSamples := [⟨1, some 5000000, some 0⟩] } 0
    ⟨1, some 5000000, some 0⟩ [] 5000000 rfl rfl rfl rfl (by decide)).2 40 (by decide) (by decide)

/-- C7 fails as stated: for `d = 2^31` milliseconds the narrowing to `LONG`
in `MFTimeToMsec` makes the reported wait `-2^31`, and for `d = 2^24 + 1`
the conversion of the wait to `float` rounds it to `2^24`. -/
theorem ProcessSample_sleep_at_rate_one_counterexample :
    (Scheduler.ProcessSample
        { startedScheduler with m_ScheduledSamples := [⟨1, some 30000000000000, some 0⟩] }
        (30000000000000 - (83333 + 2147483648 * 10000)) 0).2.1 = -2147483648 ∧
    (Scheduler.ProcessSample
        { startedScheduler with m_ScheduledSamples := [⟨1, some 30000000000000, some 0⟩] }
        (30000000000000 - (83333 + 2147483648 * 10000)) 0).2.1 ≠ 2147483648 ∧
    (Scheduler.ProcessSample
        { startedScheduler with m_ScheduledSamples := [⟨1, some 30000000000000, some 0⟩] }
        (30000000000000 - (83333 + 16777217 * 10000)) 0).2.1 = 16777216 := by
  decide

/-- C8: with a tolerance that is a quarter of a (non-negative) frame
interval, and a time stamp and clock reading whose difference fits the
`LONGLONG` the source computes it in (so that the 64-bit difference and its
negation are the exact ones), `ProcessSample` puts the dequeued frame back
at the front without presenting it exactly when a clock is set, the frame
has a time stamp and `delta > tolerance`, where `delta` is
`presentationTime - clockNow` for a non-negative rate and
`clockNow - presentationTime` for a negative rate; in every other case it
presents the frame and reports a wait of zero.  `SetFrameRate` sets the
tolerance to a quarter of the frame interval. -/
theorem ProcessSample_defers_iff (s : Scheduler) (now lIn : Int) (f : Sample)
    (rest : List Sample) (hq : s.m_ScheduledSamples = f :: rest)
    (htol : s.m_PerFrame_1_4th = Int.tdiv s.m_PerFrameInterval 4)
    (hiv : 0 ≤ s.m_PerFrameInterval)
    (hfit : ∀ T, f.sampleTime = some T →
      -9223372036854775808 < T - now ∧ T - now < 9223372036854775808) :
    (∀ T, f.sampleTime = some T →
      Scheduler.toMFTIME (T - now) = T - now ∧ Scheduler.toMFTIME (now - T) = now - T) ∧
    ((s.m_pClock = true ∧ ∃ T, f.sampleTime = some T ∧
        s.m_PerFrame_1_4th < (if s.m_fRate.mant < 0 then now - T else T - now)) →
      (s.ProcessSample now lIn).1 = true ∧ (s.ProcessSample now lIn).2.2 = s) ∧
    (¬ (s.m_pClock = true ∧ ∃ T, f.sampleTime = some T ∧
        s.m_PerFrame_1_4th < (if s.m_fRate.mant < 0 then now - T else T - now)) →
      s.ProcessSample now lIn =
        (true, 0, { s with m_ScheduledSamples := rest,
                           presented := s.presented
                             ++ [(f, if s.m_pClock = true then f.sampleTime.getD 0 else 0)] })) ∧
    (((s.ProcessSample now lIn).2.2.m_ScheduledSamples = f :: rest ∧
        (s.ProcessSample now lIn).2.2.presented = s.presented) ↔
      (s.m_pClock = true ∧ ∃ T, f.sampleTime = some T ∧
        s.m_PerFrame_1_4th < (if s.m_fRate.mant < 0 then now - T else T - now))) ∧
    (∀ avg : Nat, (s.SetFrameRate avg).m_PerFrame_1_4th
      = Int.tdiv (s.SetFrameRate avg).m_PerFrameInterval 4) := by
  have htol0 : 0 ≤ s.m_PerFrame_1_4th := by
    rw [htol]; exact Int.tdiv_nonneg hiv (by norm_num)
  have hdefer : (s.m_pClock = true ∧ ∃ T, f.sampleTime = some T ∧
        s.m_PerFrame_1_4th < (if s.m_fRate.mant < 0 then now - T else T - now)) →
      (Scheduler.ProcessSample.timing s f now).1 = false := by
    rintro ⟨hc, T, hT, hlt⟩
    have hneg : (if s.m_fRate.mant < 0 then -(T - now) else T - now)
        = (if s.m_fRate.mant < 0 then now - T else T - now) := by
      split <;> omega
    have hnl : ¬ ((if s.m_fRate.mant < 0 then now - T else T - now) < 0) := by omega
    simp [Scheduler.ProcessSample.timing, hc, hT, hneg, hnl, hlt]
  have hpresent : ¬ (s.m_pClock = true ∧ ∃ T, f.sampleTime = some T ∧
        s.m_PerFrame_1_4th < (if s.m_fRate.mant < 0 then now - T else T - now)) →
      Scheduler.ProcessSample.timing s f now = (true, 0) := by
    intro hnot
    unfold Scheduler.ProcessSample.timing
    by_cases hc : s.m_pClock = true
    · cases hT : f.sampleTime with
      | none => simp [hc]
      | some T =>
        have hneg : (if s.m_fRate.mant < 0 then -(T - now) else T - now)
            = (if s.m_fRate.mant < 0 then now - T else T - now) := by
          split <;> omega
        have hle : ¬ (s.m_PerFrame_1_4th < (if s.m_fRate.mant < 0 then now - T else T - now)) :=
          fun hlt => hnot ⟨hc, T, hT, hlt⟩
        simp only [hc, if_true, hneg]
        by_cases hr : s.m_fRate.mant < 0
        · simp only [hr, if_true] at hle ⊢
          split_ifs <;> rfl
        · simp only [hr, if_false] at hle ⊢
          split_ifs <;> rfl
    · simp [hc]
  refine ⟨?_, ?_, ?_, ?_, ?_⟩
  · intro T hT
    have h := hfit T hT
    unfold Scheduler.toMFTIME
    constructor <;> omega
  · intro hd
    rw [ProcessSample_cons s now lIn f rest hq]
    simp [hdefer hd]
  · intro hnd
    rw [ProcessSample_cons s now lIn f rest hq, hpresent hnd]
    simp [Scheduler.ProcessSample.target]
  · constructor
    · rintro ⟨_, hpres⟩
      by_contra hnd
      rw [ProcessSample_cons s now lIn f rest hq, hpresent hnd] at hpres
      have hlen := congrArg List.length hpres
      simp at hlen
    · intro hd
      rw [ProcessSample_cons s now lIn f rest hq]
      simp [hdefer hd, hq]
  · intro avg
    simp only [Scheduler.SetFrameRate]

/-- Witness for C8: a frame 40 ms early is put back, a late frame is
presented. -/
theorem ProcessSample_defers_iff_witness :
    ((Scheduler.ProcessSample
        { startedScheduler with m_ScheduledSamples := [⟨1, some 1483333, some 0⟩] }
        1000000 0).2.2.m_ScheduledSamples = [⟨1, some 1483333, some 0⟩] ∧
      (Scheduler.ProcessSample
        { startedScheduler with m_ScheduledSamples := [⟨1, some 1483333, some 0⟩] }
        1000000 0).2.2.presented
        = ({ startedScheduler with m_ScheduledSamples := [⟨1, some 1483333, some 0⟩] }
            : Scheduler).presented) ∧
    Scheduler.ProcessSample
        { startedScheduler with m_ScheduledSamples := [⟨1, some 0, some 0⟩] } 1000000 0
      = (true, 0,
          { ({ startedScheduler with m_ScheduledSamples := [⟨1, some 0, some 0⟩] } : Scheduler)
            with m_ScheduledSamples := [],
                 presented := ({ startedScheduler with
                     m_ScheduledSamples := [⟨1, some 0, some 0⟩] } : Scheduler).presented
                   ++ [(⟨1, some 0, some 0⟩,
                        if ({ startedScheduler with
                              m_ScheduledSamples := [⟨1, some 0, some 0⟩] }
                            : Scheduler).m_pClock = true
                        then (some (0 : Int)).getD 0 else 0)] }) :=
  ⟨(ProcessSample_defers_iff
      { startedScheduler with m_ScheduledSamples := [⟨1, some 1483333, some 0⟩] } 1000000 0
      ⟨1, some 1483333, some 0⟩ [] rfl (by decide) (by decide)
      (fun T hT => by cases hT; decide)).2.2.2.1.mpr
      ⟨rfl, 1483333, rfl, by decide⟩,
   (ProcessSample_defers_iff
      { startedScheduler with m_ScheduledSamples := [⟨1, some 0, some 0⟩] } 1000000 0
      ⟨1, some 0, some 0⟩ [] rfl (by decide) (by decide)
      (fun T hT => by cases hT; decide)).2.2.1 (by decide)⟩

theorem FromQueue_refl (s : Scheduler) : FromQueue s s :=
  ⟨[], by simp, by simp⟩

theorem FromQueue_trans {s₁ s₂ s₃ : Scheduler} (h₁ : FromQueue s₁ s₂) (h₂ : FromQueue s₂ s₃) :
    FromQueue s₁ s₃ := by
  obtain ⟨P, e₁, c₁⟩ := h₁
  obtain ⟨P', e₂, c₂⟩ := h₂
  refine ⟨P ++ P', by rw [e₂, e₁, List.append_assoc], ?_⟩
  intro x hx
  simp only [List.map_append, List.mem_append] at hx c₁ c₂
  rcases hx with (hx | hx) | hx
  · exact c₁ x (Or.inl hx)
  · exact c₁ x (Or.inr (c₂ x (Or.inl hx)))
  · exact c₁ x (Or.inr (c₂ x (Or.inr hx)))

theorem Conserves_fromQueue {s s' : Scheduler} (h : Conserves s s') : FromQueue s s' := by
  obtain ⟨P, Q, e, c⟩ := h
  subst e
  refine ⟨P, rfl, ?_⟩
  intro x hx
  simp only at hx
  rw [← c]
  exact hx

theorem Conserves_messages {s s' : Scheduler} (h : Conserves s s') :
    s'.messages = s.messages := by
  obtain ⟨P, Q, e, _⟩ := h
  subst e
  rfl

theorem handleMessage_fromQueue (fuel : Nat) (clock : Nat → Int) (s s' : Scheduler)
    (msg : ScheduleEvent) (h : Scheduler.handleMessage fuel clock s msg = some s') :
    FromQueue s s' ∧ s'.messages = s.messages := by
  cases msg with
  | eTerminate =>
    simp only [Scheduler.handleMessage, Option.some.injEq] at h
    subst h
    exact ⟨⟨[], by simp, by simp [ThreadSafeQueue.Clear, ComPtrList.Clear]⟩, rfl⟩
  | eFlush =>
    simp only [Scheduler.handleMessage, Option.some.injEq] at h
    subst h
    exact ⟨⟨[], by simp, by simp [ThreadSafeQueue.Clear, ComPtrList.Clear]⟩, rfl⟩
  | eSchedule =>
    simp only [Scheduler.handleMessage] at h
    cases hp : Scheduler.ProcessSamplesInQueue fuel clock s with
    | none => simp [hp] at h
    | some r =>
      rcases r with ⟨hr, lWait, t⟩
      simp only [hp, Option.some.injEq] at h
      subst h
      have hc := ProcessSamplesInQueue_conserves fuel clock s _ hp
      obtain ⟨P, e, c⟩ := (Conserves_fromQueue hc)
      have hm := Conserves_messages hc
      exact ⟨⟨P, e, c⟩, hm⟩

theorem drainMessages_fromQueue (fuel : Nat) (clocks : Nat → Nat → Int) :
    ∀ (msgs : List ScheduleEvent) (j : Nat) (s s' : Scheduler),
      Scheduler.drainMessages fuel clocks j msgs s = some s' →
      FromQueue s s' ∧ s'.messages = s.messages := by
  intro msgs
  induction msgs with
  | nil =>
    intro j s s' h
    simp only [Scheduler.drainMessages, Option.some.injEq] at h
    subst h
    exact ⟨FromQueue_refl s, rfl⟩
  | cons msg rest ih =>
    intro j s s' h
    simp only [Scheduler.drainMessages] at h
    cases hm : Scheduler.handleMessage fuel (clocks j) s msg with
    | none => simp [hm] at h
    | some t =>
      simp only [hm] at h
      obtain ⟨h₁, m₁⟩ := handleMessage_fromQueue fuel (clocks j) s t msg hm
      obtain ⟨h₂, m₂⟩ := ih (j + 1) t s' h
      exact ⟨FromQueue_trans h₁ h₂, m₂.trans m₁⟩

/-- Once the flush message, posted last, has been handled the queue is
empty and the next wait is infinite. -/
theorem drainMessages_flush_last (fuel : Nat) (clocks : Nat → Nat → Int) :
    ∀ (msgs : List ScheduleEvent) (j : Nat) (s s' : Scheduler),
      Scheduler.drainMessages fuel clocks j (msgs ++ [ScheduleEvent.eFlush]) s = some s' →
      s'.m_ScheduledSamples = [] ∧ s'.lWait = toLONG INFINITE ∧ s'.flushDone = true := by
  intro msgs
  induction msgs with
  | nil =>
    intro j s s' h
    simp only [List.nil_append, Scheduler.drainMessages, Scheduler.handleMessage,
      Option.some.injEq] at h
    subst h
    simp [ThreadSafeQueue.Clear, ComPtrList.Clear]
  | cons msg rest ih =>
    intro j s s' h
    simp only [List.cons_append, Scheduler.drainMessages] at h
    cases hm : Scheduler.handleMessage fuel (clocks j) s msg with
    | none => simp [hm] at h
    | some t =>
      simp only [hm] at h
      exact ih (j + 1) t s' h

theorem afterWait_fromQueue (fuel : Nat) (clocks : Nat → Nat → Int) (s s1 : Scheduler)
    (timedOut : Bool)
    (h : Scheduler.threadIteration.afterWait fuel clocks s timedOut = some s1) :
    FromQueue s s1 ∧ s1.messages = s.messages := by
  unfold Scheduler.threadIteration.afterWait at h
  cases timedOut with
  | false =>
    simp only [Bool.false_eq_true, if_false, Option.some.injEq] at h
    subst h
    exact ⟨FromQueue_refl s, rfl⟩
  | true =>
    simp only [if_true] at h
    cases hp : Scheduler.ProcessSamplesInQueue fuel (clocks 0) s with
    | none => simp [hp] at h
    | some r =>
      rcases r with ⟨hr, lWait, t⟩
      simp only [hp, Option.some.injEq] at h
      subst h
      have hc := ProcessSamplesInQueue_conserves fuel (clocks 0) s _ hp
      obtain ⟨P, e, c⟩ := (Conserves_fromQueue hc)
      have hm := Conserves_messages hc
      exact ⟨⟨P, e, c⟩, hm⟩

theorem threadIteration_fromQueue (fuel : Nat) (clocks : Nat → Nat → Int) (s s' : Scheduler)
    (timedOut : Bool) (h : Scheduler.threadIteration fuel clocks s timedOut = some s') :
    FromQueue s s' := by
  unfold Scheduler.threadIteration at h
  by_cases hex : s.threadExited = true
  · simp only [hex, if_true, Option.some.injEq] at h
    subst h
    exact FromQueue_refl s
  · simp only [hex, Bool.false_eq_true, if_false] at h
    cases hw : Scheduler.threadIteration.afterWait fuel clocks s timedOut with
    | none => simp [hw] at h
    | some s1 =>
      simp only [hw] at h
      cases hd : Scheduler.drainMessages fuel clocks 1 s1.messages { s1 with messages := [] } with
      | none => simp [hd] at h
      | some s2 =>
        simp only [hd, Option.some.injEq] at h
        subst h
        obtain ⟨⟨P, e, c⟩, _⟩ := drainMessages_fromQueue fuel clocks _ _ _ _ hd
        exact FromQueue_trans (afterWait_fromQueue fuel clocks s s1 timedOut hw).1 ⟨P, e, c⟩

/-- An iteration of the worker thread whose last posted message is the flush
message leaves the queue empty, the next wait infinite and no message
pending. -/
theorem threadIteration_flush (fuel : Nat) (clocks : Nat → Nat → Int) (s s' : Scheduler)
    (timedOut : Bool) (msgs : List ScheduleEvent)
    (hmsgs : s.messages = msgs ++ [ScheduleEvent.eFlush]) (halive : s.threadExited = false)
    (h : Scheduler.threadIteration fuel clocks s timedOut = some s') :
    s'.m_ScheduledSamples = [] ∧ s'.lWait = toLONG INFINITE ∧ s'.messages = [] := by
  unfold Scheduler.threadIteration at h
  simp only [halive, Bool.false_eq_true, if_false] at h
  cases hw : Scheduler.threadIteration.afterWait fuel clocks s timedOut with
  | none => simp [hw] at h
  | some s1 =>
    simp only [hw] at h
    have hm1 : s1.messages = msgs ++ [ScheduleEvent.eFlush] :=
      (afterWait_fromQueue fuel clocks s s1 timedOut hw).2.trans hmsgs
    cases hd : Scheduler.drainMessages fuel clocks 1 s1.messages { s1 with messages := [] } with
    | none => simp [hd] at h
    | some s2 =>
      simp only [hd, Option.some.injEq] at h
      subst h
      have hm2 := (drainMessages_fromQueue fuel clocks _ _ _ _ hd).2
      rw [hm1] at hd
      obtain ⟨hq, hl, _⟩ := drainMessages_flush_last fuel clocks msgs 1 _ _ hd
      exact ⟨hq, hl, hm2⟩

/-- In any run of scheduler operations the presentation callback is called
only on samples that were queued at the start or passed to `ScheduleSample`
during the run. -/
theorem runSteps_presented (steps : List SchedulerStep) :
    ∀ (s s' : Scheduler), runSteps s steps = some s' →
      ∃ P : List (Sample × Int), s'.presented = s.presented ++ P ∧
        ∀ x ∈ P.map Prod.fst ++ s'.m_ScheduledSamples,
          x ∈ s.m_ScheduledSamples ∨ x ∈ scheduledSamples steps := by
  induction steps with
  | nil =>
    intro s s' h
    simp only [runSteps, Option.some.injEq] at h
    subst h
    exact ⟨[], by simp, fun x hx => Or.inl (by simpa using hx)⟩
  | cons step rest ih =>
    intro s s' h
    simp only [runSteps] at h
    cases hs : step.apply s with
    | none => simp [hs] at h
    | some t =>
      simp only [hs] at h
      obtain ⟨P', e', c'⟩ := ih t s' h
      have hstep : ∃ P : List (Sample × Int), t.presented = s.presented ++ P ∧
          ∀ x ∈ P.map Prod.fst ++ t.m_ScheduledSamples,
            x ∈ s.m_ScheduledSamples ∨ x ∈ scheduledSamples [step] := by
        cases step with
        | worker fuel clocks timedOut =>
          obtain ⟨P, e, c⟩ := threadIteration_fromQueue fuel clocks s t timedOut hs
          exact ⟨P, e, fun x hx => Or.inl (c x hx)⟩
        | schedule pSample bPresentNow =>
          simp only [SchedulerStep.apply, Option.some.injEq] at hs
          subst hs
          unfold Scheduler.ScheduleSample
          split_ifs
          · exact ⟨[], by simp, fun x hx => Or.inl (by simpa using hx)⟩
          · exact ⟨[], by simp, fun x hx => Or.inl (by simpa using hx)⟩
          · refine ⟨[(pSample, 0)], by simp [Scheduler.PresentSample], ?_⟩
            intro x hx
            simp [Scheduler.PresentSample, scheduledSamples] at hx ⊢
            tauto
          · refine ⟨[], by simp [ThreadSafeQueue.Queue, ComPtrList.InsertBack, SUCCEEDED, S_OK,
              Scheduler.PostThreadMessage], ?_⟩
            intro x hx
            simp [ThreadSafeQueue.Queue, ComPtrList.InsertBack, SUCCEEDED, S_OK,
              Scheduler.PostThreadMessage, scheduledSamples] at hx ⊢
            tauto
      obtain ⟨P, e, c⟩ := hstep
      refine ⟨P ++ P', by rw [e', e, List.append_assoc], ?_⟩
      intro x hx
      have hsched : ∀ y, y ∈ scheduledSamples [step] ∨ y ∈ scheduledSamples rest →
          y ∈ scheduledSamples (step :: rest) := by
        intro y hy
        cases step with
        | worker fuel clocks timedOut =>
          simpa [scheduledSamples] using hy
        | schedule pSample bPresentNow =>
          simpa [scheduledSamples] using hy
      simp only [List.map_append, List.mem_append] at hx c c'
      rcases hx with (hx | hx) | hx
      · rcases c x (Or.inl hx) with h1 | h1
        · exact Or.inl h1
        · exact Or.inr (hsched x (Or.inl h1))
      · rcases c' x (Or.inl hx) with h1 | h1
        · rcases c x (Or.inr h1) with h2 | h2
          · exact Or.inl h2
          · exact Or.inr (hsched x (Or.inl h2))
        · exact Or.inr (hsched x (Or.inr h1))
      · rcases c' x (Or.inr hx) with h1 | h1
        · rcases c x (Or.inr h1) with h2 | h2
          · exact Or.inl h2
          · exact Or.inr (hsched x (Or.inl h2))
        · exact Or.inr (hsched x (Or.inr h1))

/-- C9 (as amended): when the wait in `Scheduler::Flush` on a started
scheduler ends because the worker thread has handled the posted messages
(not by the timeout), then on return the scheduled queue is empty, the
worker's next wait is infinite and no message is pending, and in every
later run of scheduler operations the presentation callback is called only
on frames passed to `ScheduleSample` after the flush, never on a frame
enqueued before it; and whenever the worker handles the flush message the
queue is empty and the next wait infinite right after. -/
theorem Flush_completed (fuel : Nat) (clocks : Nat → Nat → Int) (s s' : Scheduler)
    (workerTimedOut : Bool) (hr : HRESULT)
    (hthread : s.m_hSchedulerThread = true) (halive : s.threadExited = false)
    (h : s.Flush fuel clocks (Scheduler.FlushWait.completed workerTimedOut) = some (hr, s')) :
    s'.m_ScheduledSamples = [] ∧ s'.lWait = toLONG INFINITE ∧ s'.messages = [] ∧
    (∀ (steps : List SchedulerStep) (s'' : Scheduler), runSteps s' steps = some s'' →
      ∃ P : List (Sample × Int), s''.presented = s'.presented ++ P ∧
        ∀ x ∈ P, x.1 ∈ scheduledSamples steps) ∧
    (∀ (t : Scheduler) (fuel' : Nat) (clock' : Nat → Int),
      ∃ t', Scheduler.handleMessage fuel' clock' t ScheduleEvent.eFlush = some t' ∧
        t'.m_ScheduledSamples = [] ∧ t'.lWait = toLONG INFINITE) := by
  have hflush : s'.m_ScheduledSamples = [] ∧ s'.lWait = toLONG INFINITE ∧ s'.messages = [] := by
    rcases s with ⟨q, cb, ck, th, rate, last, iv, tol, pres, msgs, fd, ex, lw, be⟩
    simp only at hthread halive
    subst hthread
    subst halive
    simp only [Scheduler.Flush, if_true, Scheduler.PostThreadMessage, Bool.false_eq_true,
      if_false] at h
    cases hi : Scheduler.threadIteration fuel clocks
        ⟨q, cb, ck, true, rate, last, iv, tol, pres, msgs ++ [ScheduleEvent.eFlush], fd, false,
          lw, be⟩ workerTimedOut with
    | none => rw [hi] at h; simp at h
    | some s2 =>
      rw [hi] at h
      simp only [Option.some.injEq, Prod.mk.injEq] at h
      obtain ⟨_, rfl⟩ := h
      exact threadIteration_flush fuel clocks _ s2 workerTimedOut msgs rfl rfl hi
  refine ⟨hflush.1, hflush.2.1, hflush.2.2, ?_, ?_⟩
  · intro steps s'' hrun
    obtain ⟨P, e, c⟩ := runSteps_presented steps s' s'' hrun
    refine ⟨P, e, ?_⟩
    intro x hx
    have hmem : x.1 ∈ P.map Prod.fst ++ s''.m_ScheduledSamples :=
      List.mem_append_left _ (List.mem_map_of_mem Prod.fst hx)
    rcases c x.1 hmem with h1 | h1
    · rw [hflush.1] at h1
      exact absurd h1 (List.not_mem_nil _)
    · exact h1
  · intro t fuel' clock'
    exact ⟨_, rfl, rfl, rfl⟩

/-- Witness for C9: a flush that the worker completes while one early frame
is queued. -/
theorem Flush_completed_witness :
    Scheduler.Flush 3 (fun _ _ => 1000000)
        { startedScheduler with m_ScheduledSamples := [⟨1, some 1483333, some 0⟩], lWait := 40 }
        (Scheduler.FlushWait.completed false) = some (S_OK, startedScheduler) ∧
    (startedScheduler.m_ScheduledSamples = [] ∧ startedScheduler.lWait = toLONG INFINITE ∧
      startedScheduler.messages = [] ∧
      (∀ (steps : List SchedulerStep) (s'' : Scheduler),
        runSteps startedScheduler steps = some s'' →
        ∃ P : List (Sample × Int), s''.presented = startedScheduler.presented ++ P ∧
          ∀ x ∈ P, x.1 ∈ scheduledSamples steps) ∧
      (∀ (t : Scheduler) (fuel' : Nat) (clock' : Nat → Int),
        ∃ t', Scheduler.handleMessage fuel' clock' t ScheduleEvent.eFlush = some t' ∧
          t'.m_ScheduledSamples = [] ∧ t'.lWait = toLONG INFINITE)) :=
  ⟨by decide,
   Flush_completed 3 (fun _ _ => 1000000)
    { startedScheduler with m_ScheduledSamples := [⟨1, some 1483333, some 0⟩], lWait := 40 }
    startedScheduler false S_OK rfl rfl (by decide)⟩

/-- C9 fails as stated: when the wait in `Flush` ends by the timeout the
call returns with the frame still queued, and the worker thread, waking
on its own timeout afterwards, passes that frame (enqueued before the
`Flush` call) to the presentation callback. -/
theorem Flush_completed_counterexample :
    Scheduler.Flush 3 (fun _ _ => 21000000)
        { startedScheduler with m_ScheduledSamples := [⟨1, some 1483333, some 0⟩], lWait := 40 }
        Scheduler.FlushWait.timeout
      = some (S_OK,
          { startedScheduler with m_ScheduledSamples := [⟨1, some 1483333, some 0⟩], lWait := 40,
                                  messages := [ScheduleEvent.eFlush] }) ∧
    ({ startedScheduler with m_ScheduledSamples := [⟨1, some 1483333, some 0⟩], lWait := 40,
                             messages := [ScheduleEvent.eFlush] } : Scheduler).m_ScheduledSamples
      ≠ [] ∧
    (Scheduler.threadIteration 3 (fun _ _ => 21000000)
        { startedScheduler with m_ScheduledSamples := [⟨1, some 1483333, some 0⟩], lWait := 40,
                                messages := [ScheduleEvent.eFlush] } true).map
        (fun t => t.presented)
      = some [(⟨1, some 1483333, some 0⟩, 1483333)] := by
  decide

/-- Witness for C5: the freshly started scheduler presents at once or
queues. -/
theorem ScheduleSample_started_witness :
    startedScheduler.ScheduleSample ⟨1, some 0, some 0⟩ true
      = (S_OK, { startedScheduler with
          presented := startedScheduler.presented ++ [(⟨1, some 0, some 0⟩, 0)] }) ∧
    (startedScheduler.m_pClock = true →
      startedScheduler.ScheduleSample ⟨1, some 0, some 0⟩ false
        = (S_OK, { startedScheduler with
            m_ScheduledSamples := startedScheduler.m_ScheduledSamples ++ [⟨1, some 0, some 0⟩],
            messages := startedScheduler.messages ++ [ScheduleEvent.eSchedule] })) :=
  ScheduleSample_started startedScheduler ⟨1, some 0, some 0⟩ rfl rfl rfl

/-! ### The presenter -/

theorem NotifyEvent_frame (p : Presenter) (code : EventCode) (a b : Int) :
    (p.NotifyEvent code a b).m_SamplePool = p.m_SamplePool ∧
    (p.NotifyEvent code a b).m_TokenCounter = p.m_TokenCounter ∧
    (p.NotifyEvent code a b).m_fRate = p.m_fRate ∧
    (p.NotifyEvent code a b).m_pClock = p.m_pClock := by
  unfold Presenter.NotifyEvent
  split <;> simp

theorem CompleteFrameStep_frame (p : Presenter) (pSample : Sample) (now : Int) :
    (p.CompleteFrameStep pSample now).1 = S_OK ∧
    (p.CompleteFrameStep pSample now).2.m_SamplePool = p.m_SamplePool ∧
    (p.CompleteFrameStep pSample now).2.m_TokenCounter = p.m_TokenCounter := by
  unfold Presenter.CompleteFrameStep
  simp only
  split
  · refine ⟨rfl, ?_, ?_⟩
    · rw [(NotifyEvent_frame _ _ _ _).1, (NotifyEvent_frame _ _ _ _).1]
    · rw [(NotifyEvent_frame _ _ _ _).2.1, (NotifyEvent_frame _ _ _ _).2.1]
  · refine ⟨rfl, ?_, ?_⟩
    · rw [(NotifyEvent_frame _ _ _ _).1]
    · rw [(NotifyEvent_frame _ _ _ _).2.1]

/-- The frame-step block of `OnSampleFree` never fails and touches neither
the pool nor the token counter. -/
theorem frameStep_frame (p : Presenter) (r : Presenter.AsyncResult) (now : Int)
    (h2 : SUCCEEDED r.hrQueryInterface = true) :
    FAILED (Presenter.OnSampleFree.frameStep p r now).1 = false ∧
    (Presenter.OnSampleFree.frameStep p r now).2.m_SamplePool = p.m_SamplePool ∧
    (Presenter.OnSampleFree.frameStep p r now).2.m_TokenCounter = p.m_TokenCounter := by
  have hq : FAILED r.hrQueryInterface = false := by
    simp only [SUCCEEDED, decide_eq_true_eq] at h2
    simp only [FAILED, decide_eq_false_iff_not, not_lt]
    exact h2
  unfold Presenter.OnSampleFree.frameStep
  split
  · split
    · obtain ⟨e1, e2, e3⟩ := CompleteFrameStep_frame p r.sample now
      exact ⟨by rw [e1]; rfl, e2, e3⟩
    · exact ⟨rfl, rfl, rfl⟩
  · exact ⟨hq, rfl, rfl⟩

theorem succeeded_not_failed (hr : HRESULT) (h : SUCCEEDED hr = true) : FAILED hr = false := by
  simp only [SUCCEEDED, decide_eq_true_eq] at h
  simp only [FAILED, decide_eq_false_iff_not, not_lt]
  exact h

/-- A released frame whose tag differs from the token counter is dropped:
the callback succeeds and leaves the pool and the counter as they were. -/
theorem OnSampleFree_stale (pump : Presenter → Presenter) (p : Presenter)
    (r : Presenter.AsyncResult) (now : Int)
    (h1 : SUCCEEDED r.hrGetObject = true) (h2 : SUCCEEDED r.hrQueryInterface = true)
    (hstale : Presenter.sampleCounter r.sample ≠ p.m_TokenCounter) :
    p.OnSampleFree pump r now = Presenter.OnSampleFree.frameStep p r now ∧
    (p.OnSampleFree pump r now).2.m_SamplePool = p.m_SamplePool ∧
    (p.OnSampleFree pump r now).2.m_TokenCounter = p.m_TokenCounter := by
  obtain ⟨f1, f2, f3⟩ := frameStep_frame p r now h2
  have e : p.OnSampleFree pump r now = Presenter.OnSampleFree.frameStep p r now := by
    unfold Presenter.OnSampleFree
    simp only [succeeded_not_failed _ h1, succeeded_not_failed _ h2, Bool.false_eq_true,
      if_false]
    rcases hfs : Presenter.OnSampleFree.frameStep p r now with ⟨hr, p1⟩
    rw [hfs] at f1 f3
    simp only at f1 f3
    simp [f1, f3, hstale, Presenter.OnSampleFree.done]
  exact ⟨e, by rw [e]; exact f2, by rw [e]; exact f3⟩

theorem runSampleFree_stale (pump : Presenter → Presenter)
    (released : List (Presenter.AsyncResult × Int)) :
    ∀ p : Presenter,
      (∀ r ∈ released, SUCCEEDED r.1.hrGetObject = true ∧
        SUCCEEDED r.1.hrQueryInterface = true ∧
        Presenter.sampleCounter r.1.sample ≠ p.m_TokenCounter) →
      (runSampleFree pump p released).m_SamplePool = p.m_SamplePool := by
  induction released with
  | nil => intro p _; rfl
  | cons r rest ih =>
    intro p h
    obtain ⟨h1, h2, h3⟩ := h r (List.mem_cons_self r rest)
    obtain ⟨_, e2, e3⟩ := OnSampleFree_stale pump p r.1 r.2 h1 h2 h3
    have := ih (p.OnSampleFree pump r.1 r.2).2 (by
      intro r' hr'
      obtain ⟨g1, g2, g3⟩ := h r' (List.mem_cons_of_mem r hr')
      exact ⟨g1, g2, by rw [e3]; exact g3⟩)
    simp only [runSampleFree, List.foldl_cons] at this ⊢
    rw [this, e2]

/-- C2 (as amended): for every presenter state, every released frame (the
callback's `GetObject` and `QueryInterface` succeed), every behaviour of
`ProcessOutputLoop` and every clock reading: if the frame's generation tag
differs from the token counter the frame is discarded, the pool's free
queue and pending count are unchanged, and any number of such returns
leaves the pool unchanged; if the tag equals the counter and the pool is
initialized, the frame is appended to the pool's free queue, the pending
count is decremented, and `ProcessOutputLoop` runs on that state; if the tag
equals the counter but the pool is not initialized, the frame is not
inserted and the callback fails with `MF_E_NOT_INITIALIZED`. -/
theorem OnSampleFree_pool (pump : Presenter → Presenter) (p : Presenter)
    (r : Presenter.AsyncResult) (now : Int)
    (h1 : SUCCEEDED r.hrGetObject = true) (h2 : SUCCEEDED r.hrQueryInterface = true) :
    (Presenter.sampleCounter r.sample ≠ p.m_TokenCounter →
      (p.OnSampleFree pump r now).2.m_SamplePool = p.m_SamplePool ∧
      SUCCEEDED (p.OnSampleFree pump r now).1 = true) ∧
    (∀ released : List (Presenter.AsyncResult × Int),
      (∀ x ∈ released, SUCCEEDED x.1.hrGetObject = true ∧
        SUCCEEDED x.1.hrQueryInterface = true ∧
        Presenter.sampleCounter x.1.sample ≠ p.m_TokenCounter) →
      (runSampleFree pump p released).m_SamplePool = p.m_SamplePool) ∧
    (Presenter.sampleCounter r.sample = p.m_TokenCounter →
      p.m_SamplePool.m_bInitialized = true →
      p.OnSampleFree pump r now =
        Presenter.OnSampleFree.done S_OK
          (pump { (Presenter.OnSampleFree.frameStep p r now).2 with
            m_SamplePool :=
              { p.m_SamplePool with
                m_VideoSampleQueue := p.m_SamplePool.m_VideoSampleQueue ++ [r.sample],
                m_cPending := wrapDWORD (p.m_SamplePool.m_cPending - 1) } })) ∧
    (Presenter.sampleCounter r.sample = p.m_TokenCounter →
      p.m_SamplePool.m_bInitialized = false →
      (p.OnSampleFree pump r now).1 = MF_E_NOT_INITIALIZED ∧
      (p.OnSampleFree pump r now).2.m_SamplePool = p.m_SamplePool) := by
  obtain ⟨f1, f2, f3⟩ := frameStep_frame p r now h2
  refine ⟨?_, ?_, ?_, ?_⟩
  · intro hstale
    obtain ⟨e, e2, _⟩ := OnSampleFree_stale pump p r now h1 h2 hstale
    refine ⟨e2, ?_⟩
    rw [e]
    simp only [FAILED, decide_eq_false_iff_not, not_lt] at f1
    simpa [SUCCEEDED] using f1
  · intro released h
    exact runSampleFree_stale pump released p h
  · intro hcur hinit
    unfold Presenter.OnSampleFree
    simp only [succeeded_not_failed _ h1, succeeded_not_failed _ h2, Bool.false_eq_true,
      if_false]
    rcases hfs : Presenter.OnSampleFree.frameStep p r now with ⟨hr, p1⟩
    rw [hfs] at f1 f2 f3
    simp only at f1 f2 f3
    simp [f1, f2, f3, hcur, SamplePool.ReturnSample, hinit, ComPtrList.InsertBack, SUCCEEDED, S_OK]
  · intro hcur hinit
    unfold Presenter.OnSampleFree
    simp only [succeeded_not_failed _ h1, succeeded_not_failed _ h2, Bool.false_eq_true,
      if_false]
    rcases hfs : Presenter.OnSampleFree.frameStep p r now with ⟨hr, p1⟩
    rw [hfs] at f1 f2 f3
    simp only at f1 f2 f3
    simp only [f1, f3, hcur, Bool.false_eq_true, if_false, if_true, SamplePool.ReturnSample, f2,
      hinit, Bool.not_false]
    have hfail : SUCCEEDED MF_E_NOT_INITIALIZED = false := by decide
    simp only [hfail, Bool.false_eq_true, if_false, Presenter.OnSampleFree.done]
    refine ⟨trivial, ?_⟩
    split
    · rw [(NotifyEvent_frame _ _ _ _).1]
    · rfl

/-- Witness for C2: on a presenter whose pool holds one free frame of the
current generation, a released frame of that generation goes back to the
pool and a stale one does not. -/
theorem OnSampleFree_pool_witness :
    (({ Presenter.new with m_SamplePool := ⟨[⟨1, none, some 0⟩], true, 1⟩ } : Presenter).OnSampleFree
        (fun q => q) ⟨S_OK, S_OK, ⟨2, none, some 0⟩⟩ 0).2.m_SamplePool
      = ⟨[⟨1, none, some 0⟩, ⟨2, none, some 0⟩], true, 0⟩ ∧
    (({ Presenter.new with m_TokenCounter := 1,
                           m_SamplePool := ⟨[⟨1, none, some 1⟩], true, 1⟩ }
          : Presenter).OnSampleFree
        (fun q => q) ⟨S_OK, S_OK, ⟨2, none, some 0⟩⟩ 0).2.m_SamplePool
      = ({ Presenter.new with m_TokenCounter := 1,
                              m_SamplePool := ⟨[⟨1, none, some 1⟩], true, 1⟩ }
          : Presenter).m_SamplePool :=
  ⟨by
    rw [(OnSampleFree_pool (fun q => q)
      { Presenter.new with m_SamplePool := ⟨[⟨1, none, some 0⟩], true, 1⟩ }
      ⟨S_OK, S_OK, ⟨2, none, some 0⟩⟩ 0 rfl rfl).2.2.1 rfl rfl]
    decide,
   ((OnSampleFree_pool (fun q => q)
      { Presenter.new with m_TokenCounter := 1, m_SamplePool := ⟨[⟨1, none, some 1⟩], true, 1⟩ }
      ⟨S_OK, S_OK, ⟨2, none, some 0⟩⟩ 0 rfl rfl).1 (by decide)).1⟩

/-- C2 fails as stated: on a presenter whose pool is not initialized a
released frame whose tag equals the token counter is not inserted into the
pool. -/
theorem OnSampleFree_pool_counterexample :
    Presenter.sampleCounter ⟨1, none, some 0⟩ = Presenter.new.m_TokenCounter ∧
    (Presenter.new.OnSampleFree (fun q => q) ⟨S_OK, S_OK, ⟨1, none, some 0⟩⟩ 0).1
      = MF_E_NOT_INITIALIZED ∧
    (Presenter.new.OnSampleFree (fun q => q)
      ⟨S_OK, S_OK, ⟨1, none, some 0⟩⟩ 0).2.m_SamplePool.m_VideoSampleQueue = [] := by
  decide

theorem succeeded_ne_end (hr : HRESULT) (h : SUCCEEDED hr = true) : hr ≠ MF_E_NO_MORE_TYPES := by
  simp only [SUCCEEDED, decide_eq_true_eq] at h
  intro e
  rw [e] at h
  exact absurd h (by decide)

theorem loop_cons_skip (o : Offer) (rest : List Offer) (pref : Option MediaType) (m : Int)
    (hacc : o.accepted = false) (hend : o.endsEnumeration = false) :
    Presenter.RenegotiateMediaType.loop (o :: rest) pref m
      = Presenter.RenegotiateMediaType.loop rest pref m := by
  rw [Presenter.RenegotiateMediaType.loop]
  by_cases hs : o.hrSupported = S_OK
  · simp only [hs, ne_eq, not_true_eq_false, if_false]
    by_cases ho : SUCCEEDED o.hrOptimal = true
    · have ht : SUCCEEDED o.hrTest = false := by
        simpa [Offer.accepted, hs, ho] using hacc
      have he : o.hrTest ≠ MF_E_NO_MORE_TYPES := by
        simpa [Offer.endsEnumeration, hs, ho] using hend
      simp [ho, ht, he]
    · have he : o.hrOptimal ≠ MF_E_NO_MORE_TYPES := by
        simpa [Offer.endsEnumeration, hs, ho] using hend
      simp [ho, he]
  · simp [hs]

theorem loop_cons_take (o : Offer) (rest : List Offer) (pref : Option MediaType) (m : Int)
    (hacc : o.accepted = true) (hgt : GetMediaTypeMerit o.optimalType > m) :
    Presenter.RenegotiateMediaType.loop (o :: rest) pref m
      = Presenter.RenegotiateMediaType.loop rest (some o.optimalType)
          (GetMediaTypeMerit o.optimalType) := by
  simp only [Offer.accepted, Bool.and_eq_true, decide_eq_true_eq] at hacc
  obtain ⟨⟨hs, ho⟩, ht⟩ := hacc
  rw [Presenter.RenegotiateMediaType.loop]
  simp [hs, ho, ht, hgt, succeeded_ne_end _ ht]

theorem loop_cons_keep (o : Offer) (rest : List Offer) (pref : Option MediaType) (m : Int)
    (hacc : o.accepted = true) (hle : ¬ GetMediaTypeMerit o.optimalType > m) :
    Presenter.RenegotiateMediaType.loop (o :: rest) pref m
      = Presenter.RenegotiateMediaType.loop rest pref m := by
  simp only [Offer.accepted, Bool.and_eq_true, decide_eq_true_eq] at hacc
  obtain ⟨⟨hs, ho⟩, ht⟩ := hacc
  rw [Presenter.RenegotiateMediaType.loop]
  simp [hs, ho, ht, hle, succeeded_ne_end _ ht]

/-- The negotiation loop either keeps the preferred type it started with,
when no accepted offer has a higher merit, or ends with the optimal type of
the earliest accepted offer of maximal merit. -/
theorem loop_spec (offers : List Offer) :
    ∀ (pref : Option MediaType) (m : Int),
      (∀ o ∈ offers, o.endsEnumeration = false) →
      (Presenter.RenegotiateMediaType.loop offers pref m = (pref, m) ∧
        ∀ o ∈ offers, o.accepted = true → GetMediaTypeMerit o.optimalType ≤ m) ∨
      (∃ (before : List Offer) (best : Offer) (after : List Offer),
        offers = before ++ best :: after ∧ best.accepted = true ∧
        Presenter.RenegotiateMediaType.loop offers pref m
          = (some best.optimalType, GetMediaTypeMerit best.optimalType) ∧
        m < GetMediaTypeMerit best.optimalType ∧
        (∀ o ∈ before, o.accepted = true →
          GetMediaTypeMerit o.optimalType < GetMediaTypeMerit best.optimalType) ∧
        (∀ o ∈ after, o.accepted = true →
          GetMediaTypeMerit o.optimalType ≤ GetMediaTypeMerit best.optimalType)) := by
  induction offers with
  | nil =>
    intro pref m _
    exact Or.inl ⟨rfl, by simp⟩
  | cons o rest ih =>
    intro pref m hend
    have hendo := hend o (List.mem_cons_self o rest)
    have hendr : ∀ x ∈ rest, x.endsEnumeration = false :=
      fun x hx => hend x (List.mem_cons_of_mem o hx)
    by_cases hacc : o.accepted = true
    · by_cases hgt : GetMediaTypeMerit o.optimalType > m
      · rw [loop_cons_take o rest pref m hacc hgt]
        rcases ih (some o.optimalType) (GetMediaTypeMerit o.optimalType) hendr with
          ⟨hl, hall⟩ | ⟨before, best, after, hsplit, hb, hl, hlt, hbef, haft⟩
        · exact Or.inr ⟨[], o, rest, rfl, hacc, hl, hgt, by simp, hall⟩
        · refine Or.inr ⟨o :: before, best, after, by rw [hsplit]; rfl, hb, hl,
            lt_trans hgt hlt, ?_, haft⟩
          intro x hx hxa
          rcases List.mem_cons.mp hx with rfl | hx
          · exact hlt
          · exact hbef x hx hxa
      · rw [loop_cons_keep o rest pref m hacc hgt]
        rcases ih pref m hendr with
          ⟨hl, hall⟩ | ⟨before, best, after, hsplit, hb, hl, hlt, hbef, haft⟩
        · refine Or.inl ⟨hl, ?_⟩
          intro x hx hxa
          rcases List.mem_cons.mp hx with rfl | hx
          · exact not_lt.mp hgt
          · exact hall x hx hxa
        · refine Or.inr ⟨o :: before, best, after, by rw [hsplit]; rfl, hb, hl, hlt, ?_, haft⟩
          intro x hx hxa
          rcases List.mem_cons.mp hx with rfl | hx
          · exact lt_of_le_of_lt (not_lt.mp hgt) hlt
          · exact hbef x hx hxa
    · have hacc' : o.accepted = false := by simpa using hacc
      rw [loop_cons_skip o rest pref m hacc' hendo]
      rcases ih pref m hendr with
        ⟨hl, hall⟩ | ⟨before, best, after, hsplit, hb, hl, hlt, hbef, haft⟩
      · refine Or.inl ⟨hl, ?_⟩
        intro x hx hxa
        rcases List.mem_cons.mp hx with rfl | hx
        · exact absurd hxa hacc
        · exact hall x hx hxa
      · refine Or.inr ⟨o :: before, best, after, by rw [hsplit]; rfl, hb, hl, hlt, ?_, haft⟩
        intro x hx hxa
        rcases List.mem_cons.mp hx with rfl | hx
        · exact absurd hxa hacc
        · exact hbef x hx hxa

theorem merit_nonneg (t : MediaType) : 0 ≤ GetMediaTypeMerit t := by
  unfold GetMediaTypeMerit
  split
  · decide
  · split_ifs <;> decide

/-- What holds of the selection (C10): with a mixer present and provided no
supported offer is rejected with the result `MF_E_NO_MORE_TYPES` (from
`CreateOptimalVideoType` or from the mixer's test, which ends the
enumeration), for every list of offered formats: if none is
supported and test-accepted the negotiation returns
`MF_E_TRANSFORM_TYPE_NOT_SET`; otherwise the type it commits is the optimal
type of the earliest accepted offer of maximal merit (every accepted offer
before it has a strictly smaller merit, every one after it has at most its
merit), and when `SetMediaType` and the mixer's `SetOutputType` succeed that
type becomes the mixer's output type.  The merit orders
NV12 > YV12 > YUY2 > UYVY > X8R8G8B8 > A8R8G8B8 > R8G8B8 = R5G6B5 = 0; with
one NV12 and one 32-bit RGB offer, both accepted, NV12 is chosen in either
order. -/
theorem RenegotiateMediaType_selects
    (SetMediaType : Presenter → Option MediaType → HRESULT × Presenter)
    (p : Presenter) (mixer : Mixer) (hmixer : p.m_pMixer = true)
    (hend : ∀ o ∈ mixer.offers, o.endsEnumeration = false) :
    ((∀ o ∈ mixer.offers, o.accepted = false) →
      (p.RenegotiateMediaType SetMediaType mixer).1 = MF_E_TRANSFORM_TYPE_NOT_SET ∧
      (p.RenegotiateMediaType SetMediaType mixer).2.2.outputType = mixer.outputType) ∧
    ((∃ o ∈ mixer.offers, o.accepted = true) →
      ∃ (before : List Offer) (best : Offer) (after : List Offer),
        mixer.offers = before ++ best :: after ∧ best.accepted = true ∧
        (∀ o ∈ before, o.accepted = true →
          GetMediaTypeMerit o.optimalType < GetMediaTypeMerit best.optimalType) ∧
        (∀ o ∈ after, o.accepted = true →
          GetMediaTypeMerit o.optimalType ≤ GetMediaTypeMerit best.optimalType) ∧
        (Presenter.RenegotiateMediaType.loop mixer.offers none (-1)).1
          = some best.optimalType ∧
        (SUCCEEDED (SetMediaType p (some best.optimalType)).1 = true →
          SUCCEEDED (mixer.hrSetOutputType best.optimalType) = true →
          p.RenegotiateMediaType SetMediaType mixer
            = (mixer.hrSetOutputType best.optimalType,
                (SetMediaType p (some best.optimalType)).2,
                { mixer with outputType := some best.optimalType })) ∧
        (¬ (SUCCEEDED (SetMediaType p (some best.optimalType)).1 = true ∧
            SUCCEEDED (mixer.hrSetOutputType best.optimalType) = true) →
          (p.RenegotiateMediaType SetMediaType mixer).1 = MF_E_TRANSFORM_TYPE_NOT_SET ∧
          (p.RenegotiateMediaType SetMediaType mixer).2.2.outputType = mixer.outputType)) ∧
    (∀ a : Nat,
      GetMediaTypeMerit ⟨some FCC_NV12, a⟩ = 90000000 ∧
      GetMediaTypeMerit ⟨some FCC_YV12, a⟩ < GetMediaTypeMerit ⟨some FCC_NV12, a⟩ ∧
      GetMediaTypeMerit ⟨some FCC_YUY2, a⟩ < GetMediaTypeMerit ⟨some FCC_YV12, a⟩ ∧
      GetMediaTypeMerit ⟨some FCC_UYVY, a⟩ < GetMediaTypeMerit ⟨some FCC_YUY2, a⟩ ∧
      GetMediaTypeMerit ⟨some D3DFMT_X8R8G8B8, a⟩ < GetMediaTypeMerit ⟨some FCC_UYVY, a⟩ ∧
      GetMediaTypeMerit ⟨some D3DFMT_X8R8G8B8, a⟩ = 1102 ∧
      GetMediaTypeMerit ⟨some D3DFMT_A8R8G8B8, a⟩ < GetMediaTypeMerit ⟨some D3DFMT_X8R8G8B8, a⟩ ∧
      GetMediaTypeMerit ⟨some D3DFMT_R8G8B8, a⟩ < GetMediaTypeMerit ⟨some D3DFMT_A8R8G8B8, a⟩ ∧
      GetMediaTypeMerit ⟨some D3DFMT_R8G8B8, a⟩ = 0 ∧
      GetMediaTypeMerit ⟨some D3DFMT_R5G6B5, a⟩ = 0) ∧
    (∀ nv rgb : Offer, nv.accepted = true → rgb.accepted = true →
      nv.optimalType.surfaceFormat = some FCC_NV12 →
      (rgb.optimalType.surfaceFormat = some D3DFMT_X8R8G8B8 ∨
        rgb.optimalType.surfaceFormat = some D3DFMT_A8R8G8B8) →
      (Presenter.RenegotiateMediaType.loop [nv, rgb] none (-1)).1 = some nv.optimalType ∧
      (Presenter.RenegotiateMediaType.loop [rgb, nv] none (-1)).1 = some nv.optimalType) := by
  refine ⟨?_, ?_, ?_, ?_⟩
  · intro hnone
    rcases loop_spec mixer.offers none (-1) hend with
      ⟨hl, _⟩ | ⟨before, best, after, hsplit, hb, _⟩
    · simp [Presenter.RenegotiateMediaType, hmixer, hl]
    · have hmem : best ∈ mixer.offers := by rw [hsplit]; simp
      rw [hnone best hmem] at hb
      exact absurd hb (by decide)
  · rintro ⟨o, ho, hoa⟩
    rcases loop_spec mixer.offers none (-1) hend with
      ⟨_, hall⟩ | ⟨before, best, after, hsplit, hb, hl, _, hbef, haft⟩
    · have h1 := hall o ho hoa
      have h2 := merit_nonneg o.optimalType
      omega
    · refine ⟨before, best, after, hsplit, hb, hbef, haft, by rw [hl], ?_, ?_⟩
      · intro hs hm
        simp only [Presenter.RenegotiateMediaType, hmixer, Bool.not_true, Bool.false_eq_true,
          if_false, hl]
        rcases hsm : SetMediaType p (some best.optimalType) with ⟨hr, p1⟩
        rw [hsm] at hs
        simp only at hs
        simp [hs, hm]
      · intro hnot
        simp only [Presenter.RenegotiateMediaType, hmixer, Bool.not_true, Bool.false_eq_true,
          if_false, hl]
        rcases hsm : SetMediaType p (some best.optimalType) with ⟨hr, p1⟩
        rw [hsm] at hnot
        simp only at hnot
        by_cases hs : SUCCEEDED hr = true
        · have hm : ¬ SUCCEEDED (mixer.hrSetOutputType best.optimalType) = true :=
            fun hm => hnot ⟨hs, hm⟩
          simp [hs, hm]
        · simp [hs]
  · intro a
    simp [GetMediaTypeMerit, FCC_NV12, FCC_YV12, FCC_YUY2, FCC_UYVY, D3DFMT_X8R8G8B8,
      D3DFMT_A8R8G8B8, D3DFMT_R8G8B8, D3DFMT_R5G6B5]
  · intro nv rgb hnv hrgb hfn hfr
    have mnv : GetMediaTypeMerit nv.optimalType = 90000000 := by
      simp [GetMediaTypeMerit, hfn, FCC_NV12]
    have mrgb : GetMediaTypeMerit rgb.optimalType = 1102 ∨
        GetMediaTypeMerit rgb.optimalType = 1101 := by
      rcases hfr with h | h
      · left; simp [GetMediaTypeMerit, h, FCC_NV12, FCC_YV12, FCC_YUY2, FCC_UYVY, D3DFMT_X8R8G8B8]
      · right
        simp [GetMediaTypeMerit, h, FCC_NV12, FCC_YV12, FCC_YUY2, FCC_UYVY, D3DFMT_X8R8G8B8,
          D3DFMT_A8R8G8B8]
    constructor
    · rw [loop_cons_take nv [rgb] none (-1) hnv (by rw [mnv]; decide),
        loop_cons_keep rgb [] _ _ hrgb (by rw [mnv]; rcases mrgb with h | h <;> rw [h] <;> decide)]
      rfl
    · rw [loop_cons_take rgb [nv] none (-1) hrgb
          (by rcases mrgb with h | h <;> rw [h] <;> decide),
        loop_cons_take nv [] _ _ hnv
          (by rw [mnv]; rcases mrgb with h | h <;> rw [h] <;> decide)]
      rfl

/-- An instance of the selection: the mixer offers 32-bit RGB, then a YV12
type that it rejects in the test, then NV12; NV12 is chosen. -/
theorem RenegotiateMediaType_selects_witness :
    ∃ (before : List Offer) (best : Offer) (after : List Offer),
      [(⟨⟨some D3DFMT_X8R8G8B8, 0⟩, S_OK, S_OK, ⟨some D3DFMT_X8R8G8B8, 1⟩, S_OK⟩ : Offer),
       ⟨⟨some FCC_YV12, 0⟩, S_OK, S_OK, ⟨some FCC_YV12, 1⟩, E_FAIL⟩,
       ⟨⟨some FCC_NV12, 0⟩, S_OK, S_OK, ⟨some FCC_NV12, 1⟩, S_OK⟩]
        = before ++ best :: after ∧
      best.accepted = true ∧
      (Presenter.RenegotiateMediaType.loop
        [⟨⟨some D3DFMT_X8R8G8B8, 0⟩, S_OK, S_OK, ⟨some D3DFMT_X8R8G8B8, 1⟩, S_OK⟩,
         ⟨⟨some FCC_YV12, 0⟩, S_OK, S_OK, ⟨some FCC_YV12, 1⟩, E_FAIL⟩,
         ⟨⟨some FCC_NV12, 0⟩, S_OK, S_OK, ⟨some FCC_NV12, 1⟩, S_OK⟩] none (-1)).1
        = some best.optimalType := by
  obtain ⟨before, best, after, hsplit, hacc, _, _, hloop, _, _⟩ :=
    (RenegotiateMediaType_selects (fun q t => (S_OK, { q with m_pMediaType := t }))
      { Presenter.new with m_pMixer := true }
      { offers :=
          [⟨⟨some D3DFMT_X8R8G8B8, 0⟩, S_OK, S_OK, ⟨some D3DFMT_X8R8G8B8, 1⟩, S_OK⟩,
           ⟨⟨some FCC_YV12, 0⟩, S_OK, S_OK, ⟨some FCC_YV12, 1⟩, E_FAIL⟩,
           ⟨⟨some FCC_NV12, 0⟩, S_OK, S_OK, ⟨some FCC_NV12, 1⟩, S_OK⟩],
        hrSetOutputType := fun _ => S_OK, outputType := none }
      rfl (by decide)).2.1
      ⟨⟨⟨some FCC_NV12, 0⟩, S_OK, S_OK, ⟨some FCC_NV12, 1⟩, S_OK⟩, by decide, by decide⟩
  exact ⟨before, best, after, hsplit, hacc, hloop⟩

/-- C10 evaluated on the code: the mixer offers 32-bit RGB, then a YV12 type,
then NV12, and accepts the first and the third in the test.  When it
rejects the second with `E_FAIL` the loop goes on to the third offer and NV12,
of higher merit, is committed; when it rejects the second with
`MF_E_NO_MORE_TYPES` the loop condition `hr != MF_E_NO_MORE_TYPES` ends the
enumeration there, the accepted NV12 offer is never compared, and 32-bit RGB
is committed with the result `S_OK`. -/
theorem RenegotiateMediaType_ends_early :
    (⟨⟨some FCC_NV12, 0⟩, S_OK, S_OK, ⟨some FCC_NV12, 1⟩, S_OK⟩ : Offer).accepted = true ∧
    GetMediaTypeMerit ⟨some D3DFMT_X8R8G8B8, 1⟩ < GetMediaTypeMerit ⟨some FCC_NV12, 1⟩ ∧
    (Presenter.RenegotiateMediaType (fun q t => (S_OK, { q with m_pMediaType := t }))
        { Presenter.new with m_pMixer := true }
        { offers :=
            [⟨⟨some D3DFMT_X8R8G8B8, 0⟩, S_OK, S_OK, ⟨some D3DFMT_X8R8G8B8, 1⟩, S_OK⟩,
             ⟨⟨some FCC_YV12, 0⟩, S_OK, S_OK, ⟨some FCC_YV12, 1⟩, E_FAIL⟩,
             ⟨⟨some FCC_NV12, 0⟩, S_OK, S_OK, ⟨some FCC_NV12, 1⟩, S_OK⟩],
          hrSetOutputType := fun _ => S_OK, outputType := none }).2.2.outputType
      = some ⟨some FCC_NV12, 1⟩ ∧
    (Presenter.RenegotiateMediaType (fun q t => (S_OK, { q with m_pMediaType := t }))
        { Presenter.new with m_pMixer := true }
        { offers :=
            [⟨⟨some D3DFMT_X8R8G8B8, 0⟩, S_OK, S_OK, ⟨some D3DFMT_X8R8G8B8, 1⟩, S_OK⟩,
             ⟨⟨some FCC_YV12, 0⟩, S_OK, S_OK, ⟨some FCC_YV12, 1⟩, MF_E_NO_MORE_TYPES⟩,
             ⟨⟨some FCC_NV12, 0⟩, S_OK, S_OK, ⟨some FCC_NV12, 1⟩, S_OK⟩],
          hrSetOutputType := fun _ => S_OK, outputType := none }).1 = S_OK ∧
    (Presenter.RenegotiateMediaType (fun q t => (S_OK, { q with m_pMediaType := t }))
        { Presenter.new with m_pMixer := true }
        { offers :=
            [⟨⟨some D3DFMT_X8R8G8B8, 0⟩, S_OK, S_OK, ⟨some D3DFMT_X8R8G8B8, 1⟩, S_OK⟩,
             ⟨⟨some FCC_YV12, 0⟩, S_OK, S_OK, ⟨some FCC_YV12, 1⟩, MF_E_NO_MORE_TYPES⟩,
             ⟨⟨some FCC_NV12, 0⟩, S_OK, S_OK, ⟨some FCC_NV12, 1⟩, S_OK⟩],
          hrSetOutputType := fun _ => S_OK, outputType := none }).2.2.outputType
      = some ⟨some D3DFMT_X8R8G8B8, 1⟩ := by
  decide

/-! ### Committing the negotiated type -/

theorem ReleaseResources_type (flush : Scheduler → Scheduler) (p : Presenter) :
    (p.ReleaseResources flush).m_pMediaType = p.m_pMediaType := by
  simp [Presenter.ReleaseResources, Presenter.Flush]

theorem SetMediaType_null (env : SetMediaTypeEnv) (p : Presenter) :
    (p.SetMediaType env none).1 = S_OK ∧ (p.SetMediaType env none).2.m_pMediaType = none := by
  simp [Presenter.SetMediaType, ReleaseResources_type]

theorem SetMediaType_succeeded (env : SetMediaTypeEnv) (p : Presenter) (t : MediaType)
    (hsize : SUCCEEDED (env.observe t).hrGetFrameSize = true)
    (hs : SUCCEEDED (p.SetMediaType env (some t)).1 = true) :
    (p.SetMediaType env (some t)).2.m_pMediaType = some t := by
  have hnf : FAILED (env.observe t).hrGetFrameSize = false := succeeded_not_failed _ hsize
  have hres := succeeded_not_failed _ hs
  simp only [Presenter.SetMediaType, hnf, Bool.false_eq_true, if_false] at hres ⊢
  split_ifs at hres ⊢ with h1 h3 h4 h5 h6
  · simp only [h1] at hres
    exact absurd hres (by simp)
  · exact h3
  · simp only [h4] at hres
    exact absurd hres (by simp)
  · simp only [h5] at hres
    exact absurd hres (by simp)
  · simp only [h6] at hres
    exact absurd hres (by simp)
  · rfl

theorem loop_cons_reject (o : Offer) (rest : List Offer) (pref : Option MediaType) (m : Int)
    (hacc : o.accepted = false) :
    Presenter.RenegotiateMediaType.loop (o :: rest) pref m = (pref, m) ∨
    Presenter.RenegotiateMediaType.loop (o :: rest) pref m
      = Presenter.RenegotiateMediaType.loop rest pref m := by
  by_cases hend : o.endsEnumeration = false
  · exact Or.inr (loop_cons_skip o rest pref m hacc hend)
  · left
    simp only [Bool.not_eq_false] at hend
    simp only [Offer.endsEnumeration, Bool.and_eq_true, decide_eq_true_eq] at hend
    obtain ⟨hs, he⟩ := hend
    rw [Presenter.RenegotiateMediaType.loop]
    by_cases ho : SUCCEEDED o.hrOptimal = true
    · have ht : SUCCEEDED o.hrTest = false := by
        simpa [Offer.accepted, hs, ho] using hacc
      simp only [ho, if_true] at he
      have hE : SUCCEEDED MF_E_NO_MORE_TYPES = false := by decide
      simp [hs, ho, he, hE]
    · simp [ho] at he
      have hE : SUCCEEDED MF_E_NO_MORE_TYPES = false := by decide
      simp [hs, he, hE]

theorem loop_result (offers : List Offer) :
    ∀ (pref : Option MediaType) (m : Int),
      (Presenter.RenegotiateMediaType.loop offers pref m).1 = pref ∨
      ∃ o ∈ offers, o.accepted = true ∧
        (Presenter.RenegotiateMediaType.loop offers pref m).1 = some o.optimalType := by
  induction offers with
  | nil => intro pref m; exact Or.inl rfl
  | cons o rest ih =>
    intro pref m
    have lift : ∀ (pref' : Option MediaType) (m' : Int),
        (pref' = pref ∨ (o.accepted = true ∧ pref' = some o.optimalType)) →
        ((Presenter.RenegotiateMediaType.loop rest pref' m').1 = pref ∨
          ∃ o' ∈ o :: rest, o'.accepted = true ∧
            (Presenter.RenegotiateMediaType.loop rest pref' m').1 = some o'.optimalType) := by
      intro pref' m' hp
      rcases ih pref' m' with h | ⟨o', ho', ha, hl⟩
      · rcases hp with hp | ⟨ha, hp⟩
        · left; rw [h, hp]
        · right; exact ⟨o, List.mem_cons_self _ _, ha, by rw [h, hp]⟩
      · right; exact ⟨o', List.mem_cons_of_mem _ ho', ha, hl⟩
    by_cases hacc : o.accepted = true
    · by_cases hm : GetMediaTypeMerit o.optimalType > m
      · rw [loop_cons_take o rest pref m hacc hm]
        exact lift _ _ (Or.inr ⟨hacc, rfl⟩)
      · rw [loop_cons_keep o rest pref m hacc hm]
        exact lift _ _ (Or.inl rfl)
    · simp only [Bool.not_eq_true] at hacc
      rcases loop_cons_reject o rest pref m hacc with h | h
      · rw [h]; exact Or.inl rfl
      · rw [h]; exact lift _ _ (Or.inl rfl)

theorem loop_none_accepted (offers : List Offer) (pref : Option MediaType) (m : Int)
    (hnone : ∀ o ∈ offers, o.accepted = false) :
    (Presenter.RenegotiateMediaType.loop offers pref m).1 = pref := by
  rcases loop_result offers pref m with h | ⟨o, ho, ha, _⟩
  · exact h
  · rw [hnone o ho] at ha
    exact absurd ha (by decide)

/-- C11: with a mixer present, when `RenegotiateMediaType` finds no
candidate (no offer is supported and test-accepted, or the loop ends with
no preferred type), or `SetMediaType` fails for the chosen candidate, or the
mixer's `SetOutputType` fails for it, the method returns
`MF_E_TRANSFORM_TYPE_NOT_SET` and the presenter's media type is `NULL`
afterwards; every failure is of this kind.  Whenever it returns success the
presenter's media type is the chosen candidate, so not `NULL`, and it is the
mixer's output type.  The candidates are types made by
`CreateOptimalVideoType`, which sets their frame size, so reading
`MF_MT_FRAME_SIZE` from them succeeds (`hsize`). -/
theorem RenegotiateMediaType_clears (env : SetMediaTypeEnv) (p : Presenter) (mixer : Mixer)
    (hmixer : p.m_pMixer = true)
    (hsize : ∀ o ∈ mixer.offers, SUCCEEDED o.hrOptimal = true →
      SUCCEEDED (env.observe o.optimalType).hrGetFrameSize = true) :
    ((∀ o ∈ mixer.offers, o.accepted = false) →
      (p.RenegotiateMediaType (fun q t => q.SetMediaType env t) mixer).1
        = MF_E_TRANSFORM_TYPE_NOT_SET ∧
      (p.RenegotiateMediaType (fun q t => q.SetMediaType env t) mixer).2.1.m_pMediaType
        = none) ∧
    ((Presenter.RenegotiateMediaType.loop mixer.offers none (-1)).1 = none →
      (p.RenegotiateMediaType (fun q t => q.SetMediaType env t) mixer).1
        = MF_E_TRANSFORM_TYPE_NOT_SET ∧
      (p.RenegotiateMediaType (fun q t => q.SetMediaType env t) mixer).2.1.m_pMediaType
        = none) ∧
    (∀ best : MediaType,
      (Presenter.RenegotiateMediaType.loop mixer.offers none (-1)).1 = some best →
      (FAILED (p.SetMediaType env (some best)).1 = true ∨
        FAILED (mixer.hrSetOutputType best) = true) →
      (p.RenegotiateMediaType (fun q t => q.SetMediaType env t) mixer).1
        = MF_E_TRANSFORM_TYPE_NOT_SET ∧
      (p.RenegotiateMediaType (fun q t => q.SetMediaType env t) mixer).2.1.m_pMediaType
        = none) ∧
    (FAILED (p.RenegotiateMediaType (fun q t => q.SetMediaType env t) mixer).1 = true →
      (p.RenegotiateMediaType (fun q t => q.SetMediaType env t) mixer).1
        = MF_E_TRANSFORM_TYPE_NOT_SET ∧
      (p.RenegotiateMediaType (fun q t => q.SetMediaType env t) mixer).2.1.m_pMediaType
        = none) ∧
    (SUCCEEDED (p.RenegotiateMediaType (fun q t => q.SetMediaType env t) mixer).1 = true →
      ∃ best : MediaType,
        (Presenter.RenegotiateMediaType.loop mixer.offers none (-1)).1 = some best ∧
        (p.RenegotiateMediaType (fun q t => q.SetMediaType env t) mixer).2.1.m_pMediaType
          = some best ∧
        (p.RenegotiateMediaType (fun q t => q.SetMediaType env t) mixer).2.2.outputType
          = some best) ∧
    FAILED MF_E_TRANSFORM_TYPE_NOT_SET = true := by
  have hE : FAILED MF_E_TRANSFORM_TYPE_NOT_SET = true := by decide
  have hE2 : SUCCEEDED MF_E_TRANSFORM_TYPE_NOT_SET = false := by decide
  -- the three ways the method can end
  have hnone : (Presenter.RenegotiateMediaType.loop mixer.offers none (-1)).1 = none →
      p.RenegotiateMediaType (fun q t => q.SetMediaType env t) mixer
        = (MF_E_TRANSFORM_TYPE_NOT_SET, (p.SetMediaType env none).2, mixer) := by
    intro h
    simp [Presenter.RenegotiateMediaType, hmixer, h]
  have hfail : ∀ best : MediaType,
      (Presenter.RenegotiateMediaType.loop mixer.offers none (-1)).1 = some best →
      ¬ (SUCCEEDED (p.SetMediaType env (some best)).1 = true ∧
          SUCCEEDED (mixer.hrSetOutputType best) = true) →
      p.RenegotiateMediaType (fun q t => q.SetMediaType env t) mixer
        = (MF_E_TRANSFORM_TYPE_NOT_SET,
            ((p.SetMediaType env (some best)).2.SetMediaType env none).2, mixer) := by
    intro best h hnot
    by_cases h1 : SUCCEEDED (p.SetMediaType env (some best)).1 = true
    · have h2 : ¬ SUCCEEDED (mixer.hrSetOutputType best) = true := fun h2 => hnot ⟨h1, h2⟩
      simp [Presenter.RenegotiateMediaType, hmixer, h, h1, h2]
    · simp [Presenter.RenegotiateMediaType, hmixer, h, h1]
  have hok : ∀ best : MediaType,
      (Presenter.RenegotiateMediaType.loop mixer.offers none (-1)).1 = some best →
      SUCCEEDED (p.SetMediaType env (some best)).1 = true →
      SUCCEEDED (mixer.hrSetOutputType best) = true →
      p.RenegotiateMediaType (fun q t => q.SetMediaType env t) mixer
        = (mixer.hrSetOutputType best, (p.SetMediaType env (some best)).2,
            { mixer with outputType := some best }) := by
    intro best h h1 h2
    simp [Presenter.RenegotiateMediaType, hmixer, h, h1, h2]
  have hbestsize : ∀ best : MediaType,
      (Presenter.RenegotiateMediaType.loop mixer.offers none (-1)).1 = some best →
      SUCCEEDED (env.observe best).hrGetFrameSize = true := by
    intro best h
    rcases loop_result mixer.offers none (-1) with h0 | ⟨o, ho, hacc, hl⟩
    · rw [h] at h0; cases h0
    · rw [h] at hl
      cases hl
      simp only [Offer.accepted, Bool.and_eq_true, decide_eq_true_eq] at hacc
      exact hsize o ho hacc.1.2
  have hcases : (p.RenegotiateMediaType (fun q t => q.SetMediaType env t) mixer).1
        = MF_E_TRANSFORM_TYPE_NOT_SET ∧
      (p.RenegotiateMediaType (fun q t => q.SetMediaType env t) mixer).2.1.m_pMediaType = none
      ∨
      (SUCCEEDED (p.RenegotiateMediaType (fun q t => q.SetMediaType env t) mixer).1 = true ∧
        ∃ best : MediaType,
          (Presenter.RenegotiateMediaType.loop mixer.offers none (-1)).1 = some best ∧
          (p.RenegotiateMediaType (fun q t => q.SetMediaType env t) mixer).2.1.m_pMediaType
            = some best ∧
          (p.RenegotiateMediaType (fun q t => q.SetMediaType env t) mixer).2.2.outputType
            = some best) := by
    cases hl : (Presenter.RenegotiateMediaType.loop mixer.offers none (-1)).1 with
    | none =>
      left
      rw [hnone hl]
      exact ⟨rfl, (SetMediaType_null env p).2⟩
    | some best =>
      by_cases hboth : SUCCEEDED (p.SetMediaType env (some best)).1 = true ∧
          SUCCEEDED (mixer.hrSetOutputType best) = true
      · right
        rw [hok best hl hboth.1 hboth.2]
        exact ⟨hboth.2, best, rfl,
          SetMediaType_succeeded env p best (hbestsize best hl) hboth.1, rfl⟩
      · left
        rw [hfail best hl hboth]
        exact ⟨rfl, (SetMediaType_null env _).2⟩
  refine ⟨?_, ?_, ?_, ?_, ?_, hE⟩
  · intro hall
    have hl := loop_none_accepted mixer.offers none (-1) hall
    rw [hnone hl]
    exact ⟨rfl, (SetMediaType_null env p).2⟩
  · intro hl
    rw [hnone hl]
    exact ⟨rfl, (SetMediaType_null env p).2⟩
  · intro best hl hf
    have hnot : ¬ (SUCCEEDED (p.SetMediaType env (some best)).1 = true ∧
          SUCCEEDED (mixer.hrSetOutputType best) = true) := by
      rintro ⟨h1, h2⟩
      rcases hf with hf | hf
      · rw [succeeded_not_failed _ h1] at hf; cases hf
      · rw [succeeded_not_failed _ h2] at hf; cases hf
    rw [hfail best hl hnot]
    exact ⟨rfl, (SetMediaType_null env _).2⟩
  · intro hf
    rcases hcases with h | ⟨hs, _⟩
    · exact h
    · rw [succeeded_not_failed _ hs] at hf; cases hf
  · intro hs
    rcases hcases with ⟨h, _⟩ | ⟨_, h⟩
    · rw [h, hE2] at hs; cases hs
    · exact h

/-- Witness for C11: a stopped presenter with a mixer that offers 32-bit RGB
and NV12, both accepted; the engine creates three samples.  The negotiation
succeeds and leaves the presenter with the chosen type. -/
theorem RenegotiateMediaType_clears_witness :
    ∃ best : MediaType,
      (Presenter.RenegotiateMediaType.loop
        [⟨⟨some D3DFMT_X8R8G8B8, 0⟩, S_OK, S_OK, ⟨some D3DFMT_X8R8G8B8, 1⟩, S_OK⟩,
         ⟨⟨some FCC_NV12, 0⟩, S_OK, S_OK, ⟨some FCC_NV12, 1⟩, S_OK⟩] none (-1)).1 = some best ∧
      (Presenter.RenegotiateMediaType
        (fun q t => q.SetMediaType
          { observe := fun _ =>
              { hrGetFrameSize := S_OK, hrCreateVideoSamples := S_OK,
                videoSamples := [⟨1, none, none⟩, ⟨2, none, none⟩, ⟨3, none, none⟩],
                hrSetCounter := fun _ => S_OK, frameRate := some ⟨30, 1⟩ },
            SchedulerFlush := fun s => s, AvgTimePerFrame := fun _ => 333333 } t)
        { Presenter.new with m_RenderState := .RENDER_STATE_STOPPED, m_pMixer := true }
        { offers :=
            [⟨⟨some D3DFMT_X8R8G8B8, 0⟩, S_OK, S_OK, ⟨some D3DFMT_X8R8G8B8, 1⟩, S_OK⟩,
             ⟨⟨some FCC_NV12, 0⟩, S_OK, S_OK, ⟨some FCC_NV12, 1⟩, S_OK⟩],
          hrSetOutputType := fun _ => S_OK, outputType := none }).2.1.m_pMediaType
        = some best ∧
      (Presenter.RenegotiateMediaType
        (fun q t => q.SetMediaType
          { observe := fun _ =>
              { hrGetFrameSize := S_OK, hrCreateVideoSamples := S_OK,
                videoSamples := [⟨1, none, none⟩, ⟨2, none, none⟩, ⟨3, none, none⟩],
                hrSetCounter := fun _ => S_OK, frameRate := some ⟨30, 1⟩ },
            SchedulerFlush := fun s => s, AvgTimePerFrame := fun _ => 333333 } t)
        { Presenter.new with m_RenderState := .RENDER_STATE_STOPPED, m_pMixer := true }
        { offers :=
            [⟨⟨some D3DFMT_X8R8G8B8, 0⟩, S_OK, S_OK, ⟨some D3DFMT_X8R8G8B8, 1⟩, S_OK⟩,
             ⟨⟨some FCC_NV12, 0⟩, S_OK, S_OK, ⟨some FCC_NV12, 1⟩, S_OK⟩],
          hrSetOutputType := fun _ => S_OK, outputType := none }).2.2.outputType
        = some best :=
  (RenegotiateMediaType_clears
    { observe := fun _ =>
        { hrGetFrameSize := S_OK, hrCreateVideoSamples := S_OK,
          videoSamples := [⟨1, none, none⟩, ⟨2, none, none⟩, ⟨3, none, none⟩],
          hrSetCounter := fun _ => S_OK, frameRate := some ⟨30, 1⟩ },
      SchedulerFlush := fun s => s, AvgTimePerFrame := fun _ => 333333 }
    { Presenter.new with m_RenderState := .RENDER_STATE_STOPPED, m_pMixer := true }
    { offers :=
        [⟨⟨some D3DFMT_X8R8G8B8, 0⟩, S_OK, S_OK, ⟨some D3DFMT_X8R8G8B8, 1⟩, S_OK⟩,
         ⟨⟨some FCC_NV12, 0⟩, S_OK, S_OK, ⟨some FCC_NV12, 1⟩, S_OK⟩],
      hrSetOutputType := fun _ => S_OK, outputType := none }
    rfl (by decide)).2.2.2.2.1 (by decide)

/-! ### Checking a proposed type -/

/-- C12 evaluated on the code: a progressive, uncompressed 640 x 480 video
type whose geometric aperture is 1000 pixels wide is accepted with `S_OK`,
although `ValidateVideoArea` returns `MF_E_INVALIDMEDIATYPE` for that
aperture: the results of the three `ValidateVideoArea` calls are dropped.
Types that are not video, compressed or not progressive are rejected. -/
theorem IsMediaTypeSupported_ignores_aperture :
    ValidateVideoArea ⟨⟨0, 0⟩, ⟨0, 0⟩, 1000, 480⟩ 640 480 = MF_E_INVALIDMEDIATYPE ∧
    IsMediaTypeSupported (fun _ => S_OK)
      { hrGetRepresentation := S_OK, majortypeIsVideo := true, hrIsCompressedFormat := S_OK,
        bCompressed := false, hrGetInterlaceMode := S_OK,
        InterlaceMode := MFVideoInterlace_Progressive, hrGetFourCC := S_OK,
        d3dFormat := D3DFMT_X8R8G8B8, hrGetFrameSize := S_OK, width := 640, height := 480,
        panScanAperture := none,
        geometricAperture := some ⟨⟨0, 0⟩, ⟨0, 0⟩, 1000, 480⟩,
        minimumDisplayAperture := none } = S_OK ∧
    (∀ (CheckFormat : Nat → HRESULT) (t : ProposedType),
      IsMediaTypeSupported CheckFormat t = S_OK →
      IsMediaTypeSupported CheckFormat
        { t with panScanAperture := none, geometricAperture := none,
                 minimumDisplayAperture := none } = S_OK ∧
      ∀ pan geo dis : Option MFVideoArea,
        IsMediaTypeSupported CheckFormat
          { t with panScanAperture := pan, geometricAperture := geo,
                   minimumDisplayAperture := dis } = S_OK) ∧
    (∀ (CheckFormat : Nat → HRESULT) (t : ProposedType),
      (t.majortypeIsVideo = false ∨ t.bCompressed = true ∨
        t.InterlaceMode ≠ MFVideoInterlace_Progressive) →
      IsMediaTypeSupported CheckFormat t ≠ S_OK) := by
  refine ⟨by decide, by decide, ?_, ?_⟩
  · intro CheckFormat t h
    have key : ∀ pan geo dis : Option MFVideoArea,
        IsMediaTypeSupported CheckFormat
          { t with panScanAperture := pan, geometricAperture := geo,
                   minimumDisplayAperture := dis } = IsMediaTypeSupported CheckFormat t := by
      intro pan geo dis
      rfl
    exact ⟨by rw [key, h], fun pan geo dis => by rw [key, h]⟩
  · intro CheckFormat t h hok
    simp only [IsMediaTypeSupported] at hok
    split_ifs at hok <;>
      simp_all [FAILED, S_OK, MF_E_INVALIDMEDIATYPE]

/-! ### End of stream -/

theorem CheckEndOfStream_idle (q : Presenter) (h : q.m_bEndStreaming = false) :
    q.CheckEndOfStream = (S_OK, q) := by
  simp [Presenter.CheckEndOfStream, h]

theorem CheckEndOfStream_cases (q : Presenter) :
    q.CheckEndOfStream.2 = q ∨
    (q.CheckEndOfStream.2.m_bEndStreaming = false ∧
      (q.CheckEndOfStream.2.events = q.events ∨
        q.CheckEndOfStream.2.events = q.events ++ [(.EC_COMPLETE, S_OK, 0)])) := by
  unfold Presenter.CheckEndOfStream
  split_ifs with h1 h2 h3
  · exact Or.inl rfl
  · exact Or.inl rfl
  · exact Or.inl rfl
  · right
    refine ⟨rfl, ?_⟩
    unfold Presenter.NotifyEvent
    split_ifs
    · exact Or.inr rfl
    · exact Or.inl rfl

theorem runChecks_idle (between : List (Presenter → Presenter))
    (hb : ∀ f ∈ between, ∀ q : Presenter,
      (f q).m_bEndStreaming = q.m_bEndStreaming ∧ (f q).events = q.events) :
    ∀ q : Presenter, q.m_bEndStreaming = false → (runChecks q between).events = q.events := by
  induction between with
  | nil => intro q _; rfl
  | cons f rest ih =>
    intro q hq
    have hf := hb f (List.mem_cons_self _ _) q
    have hfq : (f q).m_bEndStreaming = false := by rw [hf.1]; exact hq
    simp only [runChecks]
    rw [CheckEndOfStream_idle (f q) hfq]
    rw [ih (fun g hg => hb g (List.mem_cons_of_mem _ hg)) (f q) hfq]
    exact hf.2

theorem runChecks_once (between : List (Presenter → Presenter))
    (hb : ∀ f ∈ between, ∀ q : Presenter,
      (f q).m_bEndStreaming = q.m_bEndStreaming ∧ (f q).events = q.events) :
    ∀ q : Presenter, (runChecks q between).events = q.events ∨
      (runChecks q between).events = q.events ++ [(.EC_COMPLETE, S_OK, 0)] := by
  induction between with
  | nil => intro q; exact Or.inl rfl
  | cons f rest ih =>
    intro q
    have hf := hb f (List.mem_cons_self _ _) q
    have hrest : ∀ g ∈ rest, ∀ q : Presenter,
        (g q).m_bEndStreaming = q.m_bEndStreaming ∧ (g q).events = q.events :=
      fun g hg => hb g (List.mem_cons_of_mem _ hg)
    simp only [runChecks]
    rcases CheckEndOfStream_cases (f q) with h | ⟨hflag, hev⟩
    · rw [h]
      rcases ih hrest (f q) with h1 | h1
      · left; rw [h1, hf.2]
      · right; rw [h1, hf.2]
    · rw [runChecks_idle rest hrest _ hflag]
      rcases hev with h1 | h1
      · left; rw [h1, hf.2]
      · right; rw [h1, hf.2]

/-- C13: `CheckEndOfStream` returns `S_OK`; it sends `EC_COMPLETE` and clears
the stream-ended flag when the stream-ended flag is set, the new-input flag
is clear and the pool reports no pending frames, and changes nothing
otherwise.  With an event sink attached the event is emitted if and only if
the three conditions hold.  An emission leaves the stream-ended flag clear,
and across any number of further checks (with anything in between that
leaves the flag and the event log alone, as everything but a new
end-of-stream message does) at most one `EC_COMPLETE` is emitted.  The
end-of-stream message sets the flag and runs the check. -/
theorem CheckEndOfStream_emits (p : Presenter) :
    (p.CheckEndOfStream).1 = S_OK ∧
    ((p.m_bEndStreaming = true ∧ p.m_bSampleNotify = false ∧
        p.m_SamplePool.AreSamplesPending = false) →
      (p.CheckEndOfStream).2
        = { p.NotifyEvent .EC_COMPLETE S_OK 0 with m_bEndStreaming := false }) ∧
    (¬ (p.m_bEndStreaming = true ∧ p.m_bSampleNotify = false ∧
        p.m_SamplePool.AreSamplesPending = false) →
      (p.CheckEndOfStream).2 = p) ∧
    (p.m_pMediaEventSink = true →
      ((p.CheckEndOfStream).2.events = p.events ++ [(.EC_COMPLETE, S_OK, 0)] ↔
        (p.m_bEndStreaming = true ∧ p.m_bSampleNotify = false ∧
          p.m_SamplePool.AreSamplesPending = false))) ∧
    ((p.CheckEndOfStream).2.events ≠ p.events →
      (p.CheckEndOfStream).2.m_bEndStreaming = false) ∧
    (∀ between : List (Presenter → Presenter),
      (∀ f ∈ between, ∀ q : Presenter,
        (f q).m_bEndStreaming = q.m_bEndStreaming ∧ (f q).events = q.events) →
      (runChecks p between).events = p.events ∨
      (runChecks p between).events = p.events ++ [(.EC_COMPLETE, S_OK, 0)]) ∧
    (∀ (c : Callees) (ulParam : Nat), p.m_RenderState ≠ .RENDER_STATE_SHUTDOWN →
      p.ProcessMessage c .MFVP_MESSAGE_ENDOFSTREAM ulParam
        = ({ p with m_bEndStreaming := true } : Presenter).CheckEndOfStream) := by
  refine ⟨?_, ?_, ?_, ?_, ?_, fun between hb => runChecks_once between hb p, ?_⟩
  · unfold Presenter.CheckEndOfStream
    split_ifs <;> rfl
  · rintro ⟨h1, h2, h3⟩
    simp [Presenter.CheckEndOfStream, h1, h2, h3]
  · intro h
    unfold Presenter.CheckEndOfStream
    split_ifs with h1 h2 h3
    · rfl
    · rfl
    · rfl
    · exfalso
      apply h
      simp only [Bool.not_eq_true, Bool.not_eq_eq_eq_not, Bool.not_false] at h1 h2 h3
      exact ⟨by simpa using h1, h2, h3⟩
  · intro hsink
    constructor
    · intro hev
      by_contra hc
      have : (p.CheckEndOfStream).2 = p := by
        unfold Presenter.CheckEndOfStream
        split_ifs with h1 h2 h3
        · rfl
        · rfl
        · rfl
        · exfalso
          apply hc
          simp only [Bool.not_eq_true, Bool.not_eq_eq_eq_not, Bool.not_false] at h1 h2 h3
          exact ⟨by simpa using h1, h2, h3⟩
      rw [this] at hev
      simp at hev
    · rintro ⟨h1, h2, h3⟩
      simp [Presenter.CheckEndOfStream, h1, h2, h3, Presenter.NotifyEvent, hsink]
  · intro hne
    rcases CheckEndOfStream_cases p with h | ⟨h, _⟩
    · rw [h] at hne; exact absurd rfl hne
    · exact h
  · intro c ulParam hstate
    have hf : FAILED S_OK = false := by decide
    simp [Presenter.ProcessMessage, Presenter.CheckShutdown, hstate, hf]

/-! ### Rate support -/

theorem F32_toRat_scale (a : F32) (e : Int) (he : e ≤ a.exp) :
    a.toRat = ((a.mant * 2 ^ (a.exp - e).toNat : Int) : ℚ) * (2 : ℚ) ^ e := by
  have h1 : a.exp = ((a.exp - e).toNat : Int) + e := by
    rw [Int.toNat_of_nonneg (by omega)]; ring
  unfold F32.toRat
  conv_lhs => rw [h1]
  rw [zpow_add₀ (by norm_num : (2 : ℚ) ≠ 0), zpow_natCast]
  push_cast
  ring

theorem F32_lt_iff (a b : F32) : F32.lt a b = true ↔ a.toRat < b.toRat := by
  have hpos : (0 : ℚ) < (2 : ℚ) ^ (min a.exp b.exp) := zpow_pos (by norm_num) _
  rw [F32_toRat_scale a (min a.exp b.exp) (min_le_left _ _),
    F32_toRat_scale b (min a.exp b.exp) (min_le_right _ _),
    mul_lt_mul_right hpos, Int.cast_lt]
  simp [F32.lt]

theorem F32_neg_toRat (a : F32) : a.neg.toRat = -a.toRat := by
  simp [F32.neg, F32.toRat]

theorem F32_fabsf_toRat (a : F32) : a.fabsf.toRat = |a.toRat| := by
  have hpos : (0 : ℚ) < (2 : ℚ) ^ a.exp := zpow_pos (by norm_num) _
  simp only [F32.fabsf, F32.toRat]
  rw [abs_mul, abs_of_pos hpos, Int.natCast_natAbs, Int.cast_abs]

theorem F32_neg_iff (a : F32) : a.mant < 0 ↔ a.toRat < 0 := by
  have hpos : (0 : ℚ) < (2 : ℚ) ^ a.exp := zpow_pos (by norm_num) _
  unfold F32.toRat
  constructor
  · intro h
    exact mul_neg_of_neg_of_pos (by exact_mod_cast h) hpos
  · intro h
    by_contra hc
    have : (0 : ℚ) ≤ (a.mant : ℚ) := by exact_mod_cast (not_lt.mp hc)
    have := mul_nonneg this hpos.le
    linarith
/-- The cases of `IsRateSupported` in every state other than Shutdown,
whatever `GetMaxRate` reports: when `|r| > max` the query fails with
`MF_E_UNSUPPORTED_RATE` and reports the nearest rate `max`, negated when `r`
is negative; when `|r| <= max` it succeeds and reports `r` itself. -/
theorem IsRateSupported_cases (p : Presenter) (engine : D3DPresentEngine)
    (frameRate : MediaType → Option MFRatio) (bThin : Bool)
    (hstate : p.m_RenderState ≠ .RENDER_STATE_SHUTDOWN) :
    (∀ r : F32,
      (|r.toRat| > (p.GetMaxRate engine frameRate bThin).toRat →
        p.IsRateSupported engine frameRate bThin (.finite r) true
          = (MF_E_UNSUPPORTED_RATE,
              some (.finite (if r.toRat < 0 then (p.GetMaxRate engine frameRate bThin).neg
                              else p.GetMaxRate engine frameRate bThin)))) ∧
      (|r.toRat| ≤ (p.GetMaxRate engine frameRate bThin).toRat →
        p.IsRateSupported engine frameRate bThin (.finite r) true
          = (S_OK, some (.finite r)))) ∧
    (∀ negative : Bool,
      p.IsRateSupported engine frameRate bThin (.inf negative) true
        = (MF_E_UNSUPPORTED_RATE,
            some (.finite (if negative then (p.GetMaxRate engine frameRate bThin).neg
                            else p.GetMaxRate engine frameRate bThin)))) ∧
    p.IsRateSupported engine frameRate bThin .nan true = (S_OK, some .nan) ∧
    (∀ r : Float32,
      p.IsRateSupported engine frameRate bThin r false
        = ((p.IsRateSupported engine frameRate bThin r true).1, none)) ∧
    (p.GetMaxRate engine frameRate bThin).neg.toRat
      = -(p.GetMaxRate engine frameRate bThin).toRat ∧
    FAILED MF_E_UNSUPPORTED_RATE = true := by
  have hcs : p.CheckShutdown = S_OK := by simp [Presenter.CheckShutdown, hstate]
  have hnf : FAILED S_OK = false := by decide
  refine ⟨?_, ?_, ?_, ?_, F32_neg_toRat _, by decide⟩
  · intro r
    constructor
    · intro h
      have hlt : F32.lt (p.GetMaxRate engine frameRate bThin) r.fabsf = true := by
        rw [F32_lt_iff, F32_fabsf_toRat]; exact h
      by_cases hneg : r.mant < 0
      · have hr : r.toRat < 0 := (F32_neg_iff r).mp hneg
        simp [Presenter.IsRateSupported, hcs, hnf, Float32.absExceeds, hlt,
          Float32.isNegative, hneg, hr]
      · have hr : ¬ r.toRat < 0 := fun hh => hneg ((F32_neg_iff r).mpr hh)
        simp [Presenter.IsRateSupported, hcs, hnf, Float32.absExceeds, hlt,
          Float32.isNegative, hneg, hr]
    · intro h
      have hlt : F32.lt (p.GetMaxRate engine frameRate bThin) r.fabsf = false := by
        rw [Bool.eq_false_iff, ne_eq, F32_lt_iff, F32_fabsf_toRat]
        exact not_lt.mpr h
      simp [Presenter.IsRateSupported, hcs, hnf, Float32.absExceeds, hlt]
  · intro negative
    cases negative <;>
      simp [Presenter.IsRateSupported, hcs, hnf, Float32.absExceeds, Float32.isNegative]
  · simp [Presenter.IsRateSupported, hcs, hnf, Float32.absExceeds]
  · intro r
    simp [Presenter.IsRateSupported, hcs, hnf]

/-- C14 on the code: with a 60 Hz display and the frame rate `1/2147483647`
the maximum rate `GetMaxRate` reports is -1; the reverse request -3 is then
answered with the nearest rate +1, which is not negative, and the request 0
is rejected with the nearest rate -1 instead of 0.  With a 1 Hz display and
30 frames per second the maximum rate is 0, and the reverse request -3 is
answered with the nearest rate 0, which is not negative. -/
theorem IsRateSupported_clamps_counterexample :
    Presenter.GetMaxRate
        { Presenter.new with m_RenderState := .RENDER_STATE_STARTED,
                             m_pMediaType := some ⟨some FCC_NV12, 0⟩ }
        { D3DPresentEngine.new with RefreshRate := 60 } (fun _ => some ⟨1, 2147483647⟩) false
      = ⟨-1, 0⟩ ∧
    Presenter.IsRateSupported
        { Presenter.new with m_RenderState := .RENDER_STATE_STARTED,
                             m_pMediaType := some ⟨some FCC_NV12, 0⟩ }
        { D3DPresentEngine.new with RefreshRate := 60 } (fun _ => some ⟨1, 2147483647⟩) false
        (.finite ⟨-3, 0⟩) true
      = (MF_E_UNSUPPORTED_RATE, some (.finite ⟨1, 0⟩)) ∧
    Presenter.IsRateSupported
        { Presenter.new with m_RenderState := .RENDER_STATE_STARTED,
                             m_pMediaType := some ⟨some FCC_NV12, 0⟩ }
        { D3DPresentEngine.new with RefreshRate := 60 } (fun _ => some ⟨1, 2147483647⟩) false
        (.finite ⟨0, 0⟩) true
      = (MF_E_UNSUPPORTED_RATE, some (.finite ⟨-1, 0⟩)) ∧
    Presenter.GetMaxRate
        { Presenter.new with m_RenderState := .RENDER_STATE_STARTED,
                             m_pMediaType := some ⟨some FCC_NV12, 0⟩ }
        { D3DPresentEngine.new with RefreshRate := 1 } (fun _ => some ⟨30, 1⟩) false
      = ⟨0, 0⟩ ∧
    Presenter.IsRateSupported
        { Presenter.new with m_RenderState := .RENDER_STATE_STARTED,
                             m_pMediaType := some ⟨some FCC_NV12, 0⟩ }
        { D3DPresentEngine.new with RefreshRate := 1 } (fun _ => some ⟨30, 1⟩) false
        (.finite ⟨-3, 0⟩) true
      = (MF_E_UNSUPPORTED_RATE, some (.finite ⟨0, 0⟩)) := by
  decide

/-- C14 (amended): in every state other than Shutdown in which the maximum
forward rate `max` that `GetMaxRate` reports is positive, for every finite
requested rate `r`: when `|r| > max` the query fails with
`MF_E_UNSUPPORTED_RATE` and reports the nearest rate `sign(r) * max`, which
is negative for a reverse request and positive for a forward one; when
`|r| <= max` it succeeds and reports `r` itself.  An infinite rate is
rejected in the same way, a NaN compares false and is reported back, and
with a `NULL` pointer the result is the same and nothing is written. -/
theorem IsRateSupported_clamps (p : Presenter) (engine : D3DPresentEngine)
    (frameRate : MediaType → Option MFRatio) (bThin : Bool)
    (hstate : p.m_RenderState ≠ .RENDER_STATE_SHUTDOWN)
    (hmax : 0 < (p.GetMaxRate engine frameRate bThin).toRat) :
    (∀ r : F32,
      (|r.toRat| > (p.GetMaxRate engine frameRate bThin).toRat →
        p.IsRateSupported engine frameRate bThin (.finite r) true
          = (MF_E_UNSUPPORTED_RATE,
              some (.finite (if r.toRat < 0 then (p.GetMaxRate engine frameRate bThin).neg
                              else p.GetMaxRate engine frameRate bThin))) ∧
        (if r.toRat < 0 then (p.GetMaxRate engine frameRate bThin).neg
            else p.GetMaxRate engine frameRate bThin).toRat
          = (SignType.sign r.toRat : ℚ) * (p.GetMaxRate engine frameRate bThin).toRat ∧
        (r.toRat < 0 →
          (if r.toRat < 0 then (p.GetMaxRate engine frameRate bThin).neg
            else p.GetMaxRate engine frameRate bThin).toRat < 0) ∧
        (0 < r.toRat →
          0 < (if r.toRat < 0 then (p.GetMaxRate engine frameRate bThin).neg
            else p.GetMaxRate engine frameRate bThin).toRat)) ∧
      (|r.toRat| ≤ (p.GetMaxRate engine frameRate bThin).toRat →
        p.IsRateSupported engine frameRate bThin (.finite r) true
          = (S_OK, some (.finite r)))) ∧
    (∀ negative : Bool,
      p.IsRateSupported engine frameRate bThin (.inf negative) true
        = (MF_E_UNSUPPORTED_RATE,
            some (.finite (if negative then (p.GetMaxRate engine frameRate bThin).neg
                            else p.GetMaxRate engine frameRate bThin))) ∧
      (negative = true → (p.GetMaxRate engine frameRate bThin).neg.toRat < 0)) ∧
    p.IsRateSupported engine frameRate bThin .nan true = (S_OK, some .nan) ∧
    (∀ r : Float32,
      p.IsRateSupported engine frameRate bThin r false
        = ((p.IsRateSupported engine frameRate bThin r true).1, none)) ∧
    FAILED MF_E_UNSUPPORTED_RATE = true := by
  obtain ⟨hfin, hinf, hnan, hnull, hneg, hfail⟩ :=
    IsRateSupported_cases p engine frameRate bThin hstate
  refine ⟨?_, ?_, hnan, hnull, hfail⟩
  · intro r
    refine ⟨?_, (hfin r).2⟩
    intro hgt
    refine ⟨(hfin r).1 hgt, ?_, ?_, ?_⟩
    · by_cases hr : r.toRat < 0
      · simp only [hr, if_true, hneg, sign_neg hr]
        simp
      · have hne : r.toRat ≠ 0 := by
          intro h0
          rw [h0, abs_zero] at hgt
          linarith
        have hpos : 0 < r.toRat := lt_of_le_of_ne (not_lt.mp hr) (Ne.symm hne)
        simp only [hr, if_false, sign_pos hpos]
        simp
    · intro hr
      simp only [hr, if_true, hneg]
      linarith
    · intro hr
      have hnl : ¬ r.toRat < 0 := not_lt.mpr hr.le
      simp only [hnl, if_false]
      exact hmax
  · intro negative
    refine ⟨hinf negative, ?_⟩
    intro _
    rw [hneg]
    linarith

/-- Witness for C14: with a 60 Hz display and 30 frames per second the
maximum rate is 2; a request for the rate -3 is rejected and the nearest
supported rate reported is -2. -/
theorem IsRateSupported_clamps_witness :
    Presenter.IsRateSupported
        { Presenter.new with m_RenderState := .RENDER_STATE_STARTED,
                             m_pMediaType := some ⟨some FCC_NV12, 0⟩ }
        { D3DPresentEngine.new with RefreshRate := 60 } (fun _ => some ⟨30, 1⟩) false
        (.finite ⟨-3, 0⟩) true
      = (MF_E_UNSUPPORTED_RATE, some (.finite ⟨-2, 0⟩)) := by
  have hmax : Presenter.GetMaxRate
      { Presenter.new with m_RenderState := .RENDER_STATE_STARTED,
                           m_pMediaType := some ⟨some FCC_NV12, 0⟩ }
      { D3DPresentEngine.new with RefreshRate := 60 } (fun _ => some ⟨30, 1⟩) false
      = ⟨2, 0⟩ := by decide
  have h := ((IsRateSupported_clamps
    { Presenter.new with m_RenderState := .RENDER_STATE_STARTED,
                         m_pMediaType := some ⟨some FCC_NV12, 0⟩ }
    { D3DPresentEngine.new with RefreshRate := 60 } (fun _ => some ⟨30, 1⟩) false
    (by decide) (by rw [hmax]; norm_num [F32.toRat])).1 ⟨-3, 0⟩).1
  rw [hmax] at h
  have h2 := (h (by norm_num [F32.toRat])).1
  rw [h2]
  norm_num [F32.toRat, F32.neg]

theorem toLONG_small (x : Nat) (h : x < 2147483648) : toLONG x = x := by
  unfold toLONG; omega

theorem MulDiv_nonneg (a b c : Nat) (hc : 0 < c) (hr : (a * b + c / 2) / c ≤ 2147483647) :
    MulDiv a b c = ((a * b + c / 2) / c : Nat) := by
  have hc0 : (c : Int) ≠ 0 := by omega
  have hcn : ¬ (c : Int) < 0 := by omega
  have h2 : Int.tdiv (c : Int) 2 = ((c / 2 : Nat) : Int) := by
    rw [Int.tdiv_eq_ediv (by omega) (by norm_num)]
    push_cast
    rfl
  have h1 : Int.tdiv ((a : Int) * b + Int.tdiv (c : Int) 2) c = ((a * b + c / 2) / c : Nat) := by
    rw [h2, Int.tdiv_eq_ediv (by positivity) (by omega)]
    push_cast
    rfl
  have ha : (0 : Int) ≤ a := by omega
  have hb : (0 : Int) ≤ b := by omega
  simp only [MulDiv, hc0, hcn, if_false, ha, hb, and_self, or_true, if_true, h1]
  generalize (a * b + c / 2) / c = k at hr
  have hk : ¬ ((k : Int) > 2147483647 ∨ (k : Int) < -2147483647) := by omega
  simp only [hk, if_false]

theorem F32_ofInt_small (k : Nat) (h : k < 16777216) : F32.ofInt k = ⟨k, 0⟩ := by
  have : ¬ ((k : Int) < 0) := by omega
  simp [F32.ofInt, this, f32OfNat, h]

theorem round_half_up (a c : Nat) :
    (a + c / 2) / c = (2 * a + c) / (2 * c) := by
  rw [← Nat.div_div_eq_div_mul]
  congr 1
  omega
theorem GetMaxRate_unbounded (q : Presenter) (e : D3DPresentEngine)
    (fr : MediaType → Option MFRatio) (bThin : Bool)
    (h : bThin = true ∨ q.m_pMediaType = none ∨ e.RefreshRate = 0 ∨
      ∃ t, q.m_pMediaType = some t ∧
        (fr t = none ∨ ∃ r, fr t = some r ∧ (r.Numerator = 0 ∨ r.Denominator = 0))) :
    q.GetMaxRate e fr bThin = FLT_MAX := by
  rcases h with h | h | h | ⟨t, ht, h | ⟨r, hr, h | h⟩⟩
  · simp [Presenter.GetMaxRate, h]
  · simp [Presenter.GetMaxRate, h]
  · simp [Presenter.GetMaxRate, h]
  · simp [Presenter.GetMaxRate, ht, h]
  · simp [Presenter.GetMaxRate, ht, hr, h]
  · simp [Presenter.GetMaxRate, ht, hr, h]

theorem round_half_up_near (x num : Nat) (hnum : 0 < num) :
    |(((2 * x + num) / (2 * num) : Nat) : ℚ) - (x : ℚ) / num| ≤ 1 / 2 := by
  have h1 : 2 * num * ((2 * x + num) / (2 * num)) ≤ 2 * x + num := Nat.mul_div_le _ _
  have h2 : 2 * x + num < 2 * num * ((2 * x + num) / (2 * num) + 1) :=
    Nat.lt_mul_div_succ _ (by omega)
  generalize (2 * x + num) / (2 * num) = k at h1 h2
  have hq : (0 : ℚ) < num := by exact_mod_cast hnum
  have h1q : (2 : ℚ) * num * k ≤ 2 * x + num := by exact_mod_cast h1
  have h2q : (2 : ℚ) * x + num < 2 * num * (k + 1) := by exact_mod_cast h2
  rw [abs_le]
  constructor
  · rw [neg_le_sub_iff_le_add, div_le_iff₀ hq]
    nlinarith
  · rw [sub_le_iff_le_add, ← sub_le_iff_le_add', le_div_iff₀ hq]
    nlinarith
/-- C15 (as amended): for non-thinned playback with a current media type of
frame rate `num/den` and a monitor refresh rate `R`, all three positive and
below `2^31`, with a result below `2^24`, `GetMaxRate` returns
`R * den / num` rounded to the nearest whole number (halves upwards), the
value of `MulDiv(R, den, num)`; it is within one half of `R * den / num` and
equal to it when `num` divides `R * den`.  When playback is thinned, no
media type is set, or the frame rate or the refresh rate is unknown (zero),
it returns `FLT_MAX`. -/
theorem GetMaxRate_rounds (p : Presenter) (engine : D3DPresentEngine)
    (frameRate : MediaType → Option MFRatio) (t : MediaType) (num den : Nat)
    (htype : p.m_pMediaType = some t) (hrate : frameRate t = some ⟨num, den⟩)
    (hnum : 0 < num) (hden : 0 < den) (hR : 0 < engine.RefreshRate)
    (hnum31 : num < 2147483648) (hden31 : den < 2147483648)
    (hR31 : engine.RefreshRate < 2147483648)
    (hfit : (2 * (engine.RefreshRate * den) + num) / (2 * num) < 16777216) :
    p.GetMaxRate engine frameRate false
      = ⟨((2 * (engine.RefreshRate * den) + num) / (2 * num) : Nat), 0⟩ ∧
    |(p.GetMaxRate engine frameRate false).toRat
        - ((engine.RefreshRate * den : Nat) : ℚ) / num| ≤ 1 / 2 ∧
    (num ∣ engine.RefreshRate * den →
      (p.GetMaxRate engine frameRate false).toRat
        = ((engine.RefreshRate * den : Nat) : ℚ) / num) ∧
    (∀ (q : Presenter) (e : D3DPresentEngine) (fr : MediaType → Option MFRatio)
        (bThin : Bool),
      (bThin = true ∨ q.m_pMediaType = none ∨ e.RefreshRate = 0 ∨
        ∃ t, q.m_pMediaType = some t ∧
          (fr t = none ∨ ∃ r, fr t = some r ∧ (r.Numerator = 0 ∨ r.Denominator = 0))) →
      q.GetMaxRate e fr bThin = FLT_MAX) := by
  have hval : p.GetMaxRate engine frameRate false
      = ⟨((2 * (engine.RefreshRate * den) + num) / (2 * num) : Nat), 0⟩ := by
    have hk := round_half_up (engine.RefreshRate * den) num
    have hmd := MulDiv_nonneg engine.RefreshRate den num hnum (by rw [hk]; omega)
    have hn0 : num ≠ 0 := by omega
    have hd0 : den ≠ 0 := by omega
    have hR0 : engine.RefreshRate ≠ 0 := by omega
    simp only [Presenter.GetMaxRate, htype, hrate, Bool.not_false, Option.isSome_some,
      and_self, if_true, Option.some_bind, Option.getD_some, ne_eq, hn0, hd0, hR0,
      not_false_eq_true, toLONG_small _ hR31, toLONG_small _ hden31, toLONG_small _ hnum31,
      hmd, hk]
    exact F32_ofInt_small _ hfit
  refine ⟨hval, ?_, ?_, fun q e fr bThin h => GetMaxRate_unbounded q e fr bThin h⟩
  · rw [hval]
    have := round_half_up_near (engine.RefreshRate * den) num hnum
    simpa [F32.toRat] using this
  · rintro ⟨k, hk⟩
    rw [hval, hk]
    have hq : (num : ℚ) ≠ 0 := by exact_mod_cast (by omega : num ≠ 0)
    have hdiv : (2 * (num * k) + num) / (2 * num) = k := by
      rw [show 2 * (num * k) + num = num + 2 * num * k by ring,
        Nat.add_mul_div_left _ _ (by omega : 0 < 2 * num)]
      rw [Nat.div_eq_of_lt (by omega)]
      omega
    rw [hdiv]
    simp only [F32.toRat, zpow_zero, mul_one, Int.cast_natCast]
    push_cast
    field_simp

/-- Witness for C15 (as amended): a 60 Hz display and 24 frames per second
give the maximum rate 3 (60/24 = 2.5, rounded upwards). -/
theorem GetMaxRate_rounds_witness :
    Presenter.GetMaxRate { Presenter.new with m_pMediaType := some ⟨some FCC_NV12, 0⟩ }
      { D3DPresentEngine.new with RefreshRate := 60 } (fun _ => some ⟨24, 1⟩) false
      = ⟨3, 0⟩ :=
  (GetMaxRate_rounds { Presenter.new with m_pMediaType := some ⟨some FCC_NV12, 0⟩ }
    { D3DPresentEngine.new with RefreshRate := 60 } (fun _ => some ⟨24, 1⟩)
    ⟨some FCC_NV12, 0⟩ 24 1 rfl rfl (by decide) (by decide) (by decide) (by decide)
    (by decide) (by decide) (by decide)).1

/-- C15 fails as stated: with a 50 Hz display and a type of 30 frames per
second `GetMaxRate` returns 2, which is neither the quotient `50/30` nor
its whole part 1.  With 60 Hz and the frame rate `1/2147483647` the product
does not fit an `int` and the result is -1; with a refresh rate of
`2^24 + 1` and the frame rate `1/1` the conversion to `float` gives
`2^24`. -/
theorem GetMaxRate_rounds_counterexample :
    Presenter.GetMaxRate { Presenter.new with m_pMediaType := some ⟨some FCC_NV12, 0⟩ }
      { D3DPresentEngine.new with RefreshRate := 50 } (fun _ => some ⟨30, 1⟩) false
      = ⟨2, 0⟩ ∧
    (Presenter.GetMaxRate { Presenter.new with m_pMediaType := some ⟨some FCC_NV12, 0⟩ }
      { D3DPresentEngine.new with RefreshRate := 50 } (fun _ => some ⟨30, 1⟩) false).toRat
      ≠ (50 : ℚ) * 1 / 30 ∧
    (Presenter.GetMaxRate { Presenter.new with m_pMediaType := some ⟨some FCC_NV12, 0⟩ }
      { D3DPresentEngine.new with RefreshRate := 50 } (fun _ => some ⟨30, 1⟩) false).mant
      ≠ ((50 * 1 / 30 : Nat) : Int) ∧
    Presenter.GetMaxRate { Presenter.new with m_pMediaType := some ⟨some FCC_NV12, 0⟩ }
      { D3DPresentEngine.new with RefreshRate := 60 } (fun _ => some ⟨1, 2147483647⟩) false
      = ⟨-1, 0⟩ ∧
    Presenter.GetMaxRate { Presenter.new with m_pMediaType := some ⟨some FCC_NV12, 0⟩ }
      { D3DPresentEngine.new with RefreshRate := 16777217 } (fun _ => some ⟨1, 1⟩) false
      = ⟨16777216, 0⟩ := by
  have h : Presenter.GetMaxRate { Presenter.new with m_pMediaType := some ⟨some FCC_NV12, 0⟩ }
      { D3DPresentEngine.new with RefreshRate := 50 } (fun _ => some ⟨30, 1⟩) false
      = ⟨2, 0⟩ := by decide
  rw [h]
  refine ⟨rfl, ?_, by decide, by decide, by decide⟩
  norm_num [F32.toRat]

/-! ### Rate changes and frame stepping -/

theorem CancelFrameStep_eq (p : Presenter) :
    p.CancelFrameStep
      = (S_OK,
          { p with
            m_FrameStep :=
              { p.m_FrameStep with state := .FRAMESTEP_NONE, steps := 0, pSampleNoRef := none },
            events :=
              if p.m_FrameStep.state = .FRAMESTEP_WAITING_START ∨
                  p.m_FrameStep.state = .FRAMESTEP_PENDING ∨
                  p.m_FrameStep.state = .FRAMESTEP_SCHEDULED
                then (p.NotifyEvent .EC_STEP_COMPLETE 1 0).events else p.events }) := by
  unfold Presenter.CancelFrameStep
  cases hst : p.m_FrameStep.state <;>
    simp [FRAMESTEP_STATE.toNat, Presenter.NotifyEvent] <;>
    split_ifs <;> rfl

/-- C16: in every state other than Shutdown `OnClockSetRate r` succeeds and
stores `r` as the rate of the presenter and of the scheduler.  When the
previous rate was zero and `r` is not, the frame-step state becomes
`FRAMESTEP_NONE` with step counter 0 and an empty frame-step queue, and a
step-complete notification with the cancelled flag is sent exactly when a
step was in flight (state `WAITING_START`, `PENDING` or `SCHEDULED`); in
every other case the frame-step data and the event log are unchanged. -/
theorem OnClockSetRate_cancels (p : Presenter) (fRate : F32)
    (hstate : p.m_RenderState ≠ .RENDER_STATE_SHUTDOWN) :
    (p.OnClockSetRate fRate).1 = S_OK ∧
    (p.OnClockSetRate fRate).2.m_fRate = fRate ∧
    (p.OnClockSetRate fRate).2.m_scheduler.m_fRate = fRate ∧
    (p.OnClockSetRate fRate).2.m_RenderState = p.m_RenderState ∧
    ((p.m_fRate.mant = 0 ∧ fRate.mant ≠ 0) →
      (p.OnClockSetRate fRate).2.m_FrameStep.state = .FRAMESTEP_NONE ∧
      (p.OnClockSetRate fRate).2.m_FrameStep.steps = 0 ∧
      (p.OnClockSetRate fRate).2.m_FrameStep.samples = [] ∧
      (p.OnClockSetRate fRate).2.events
        = (if p.m_FrameStep.state = .FRAMESTEP_WAITING_START ∨
              p.m_FrameStep.state = .FRAMESTEP_PENDING ∨
              p.m_FrameStep.state = .FRAMESTEP_SCHEDULED
            then (p.NotifyEvent .EC_STEP_COMPLETE 1 0).events else p.events) ∧
      (p.m_pMediaEventSink = true →
        ((p.OnClockSetRate fRate).2.events = p.events ++ [(.EC_STEP_COMPLETE, 1, 0)] ↔
          (p.m_FrameStep.state = .FRAMESTEP_WAITING_START ∨
            p.m_FrameStep.state = .FRAMESTEP_PENDING ∨
            p.m_FrameStep.state = .FRAMESTEP_SCHEDULED)) ∧
        ((p.OnClockSetRate fRate).2.events = p.events ↔
          ¬ (p.m_FrameStep.state = .FRAMESTEP_WAITING_START ∨
            p.m_FrameStep.state = .FRAMESTEP_PENDING ∨
            p.m_FrameStep.state = .FRAMESTEP_SCHEDULED)))) ∧
    (¬ (p.m_fRate.mant = 0 ∧ fRate.mant ≠ 0) →
      (p.OnClockSetRate fRate).2.m_FrameStep = p.m_FrameStep ∧
      (p.OnClockSetRate fRate).2.events = p.events) := by
  have hcs : p.CheckShutdown = S_OK := by simp [Presenter.CheckShutdown, hstate]
  have hnf : FAILED S_OK = false := by decide
  have hcf := CancelFrameStep_eq p
  by_cases hc : p.m_fRate.mant = 0 ∧ fRate.mant ≠ 0
  · have hfs2 : (p.OnClockSetRate fRate).2.m_FrameStep
        = { state := .FRAMESTEP_NONE, samples := [], steps := 0, pSampleNoRef := none } := by
      simp [Presenter.OnClockSetRate, hcs, hnf, hc, ComPtrList.Clear, hcf]
    have hev2 : (p.OnClockSetRate fRate).2.events
        = (if p.m_FrameStep.state = .FRAMESTEP_WAITING_START ∨
              p.m_FrameStep.state = .FRAMESTEP_PENDING ∨
              p.m_FrameStep.state = .FRAMESTEP_SCHEDULED
            then (p.NotifyEvent .EC_STEP_COMPLETE 1 0).events else p.events) := by
      simp [Presenter.OnClockSetRate, hcs, hnf, hc, hcf]
    refine ⟨?_, ?_, ?_, ?_, ?_, fun h => absurd hc h⟩
    · simp [Presenter.OnClockSetRate, hcs, hnf]
    · simp [Presenter.OnClockSetRate, hcs, hnf]
    · simp [Presenter.OnClockSetRate, hcs, hnf, Scheduler.SetClockRate]
    · simp [Presenter.OnClockSetRate, hcs, hnf, hc, hcf]
    · intro _
      refine ⟨by rw [hfs2], by rw [hfs2], by rw [hfs2], hev2, ?_⟩
      intro hsink
      rw [hev2]
      by_cases hin : p.m_FrameStep.state = .FRAMESTEP_WAITING_START ∨
              p.m_FrameStep.state = .FRAMESTEP_PENDING ∨
              p.m_FrameStep.state = .FRAMESTEP_SCHEDULED
      · simp [hin, Presenter.NotifyEvent, hsink]
      · simp [hin, Presenter.NotifyEvent, hsink]
  · refine ⟨?_, ?_, ?_, ?_, fun h => absurd h hc, ?_⟩
    · simp [Presenter.OnClockSetRate, hcs, hnf]
    · simp [Presenter.OnClockSetRate, hcs, hnf]
    · simp [Presenter.OnClockSetRate, hcs, hnf, Scheduler.SetClockRate]
    · simp [Presenter.OnClockSetRate, hcs, hnf, hc]
    · intro _
      simp [Presenter.OnClockSetRate, hcs, hnf, hc]

/-- Witness for C16: a paused presenter scrubbing at rate zero with a frame
step pending receives the rate `1.0`. -/
theorem OnClockSetRate_cancels_witness :
    (Presenter.OnClockSetRate
      { Presenter.new with m_RenderState := .RENDER_STATE_PAUSED, m_fRate := ⟨0, 0⟩,
                           m_FrameStep := { state := .FRAMESTEP_PENDING, samples := [⟨7, none, none⟩],
                                            steps := 2, pSampleNoRef := none } }
      ⟨1, 0⟩).2.m_FrameStep
      = { state := .FRAMESTEP_NONE, samples := [], steps := 0, pSampleNoRef := none } ∧
    (Presenter.OnClockSetRate
      { Presenter.new with m_RenderState := .RENDER_STATE_PAUSED, m_fRate := ⟨0, 0⟩,
                           m_FrameStep := { state := .FRAMESTEP_PENDING, samples := [⟨7, none, none⟩],
                                            steps := 2, pSampleNoRef := none } }
      ⟨1, 0⟩).2.events = [(.EC_STEP_COMPLETE, 1, 0)] := by
  have h := OnClockSetRate_cancels
    { Presenter.new with m_RenderState := .RENDER_STATE_PAUSED, m_fRate := ⟨0, 0⟩,
                         m_FrameStep := { state := .FRAMESTEP_PENDING, samples := [⟨7, none, none⟩],
                                          steps := 2, pSampleNoRef := none } }
    ⟨1, 0⟩ (by decide)
  obtain ⟨_, _, _, _, hz, _⟩ := h
  obtain ⟨h1, h2, h3, _, h5⟩ := hz ⟨rfl, by decide⟩
  refine ⟨?_, ?_⟩
  · decide
  · exact (h5 rfl).1.mpr (Or.inr (Or.inl rfl))

/-! ### Shutdown -/

theorem Operation_apply_shutdown (c : Callees) (p : Presenter)
    (hshut : p.m_RenderState = .RENDER_STATE_SHUTDOWN) (op : Operation) :
    op.apply c p = (MF_E_SHUTDOWN, p) := by
  have hcs : p.CheckShutdown = MF_E_SHUTDOWN := by simp [Presenter.CheckShutdown, hshut]
  have hf : FAILED MF_E_SHUTDOWN = true := by decide
  have hs : SUCCEEDED MF_E_SHUTDOWN = false := by decide
  cases op <;>
    simp [Operation.apply, Presenter.OnClockStart, Presenter.OnClockRestart,
      Presenter.OnClockStop, Presenter.OnClockPause, Presenter.OnClockSetRate,
      Presenter.ProcessMessage, hcs, hf, hs]

theorem runOperations_shutdown (c : Callees) (ops : List Operation) :
    ∀ p : Presenter, p.m_RenderState = .RENDER_STATE_SHUTDOWN → runOperations c p ops = p := by
  induction ops with
  | nil => intro p _; rfl
  | cons op rest ih =>
    intro p hshut
    simp only [runOperations, List.foldl_cons]
    rw [Operation_apply_shutdown c p hshut op]
    exact ih p hshut

/-- C17: in the Shutdown state every clock event (`OnClockStart`,
`OnClockRestart`, `OnClockStop`, `OnClockPause`, `OnClockSetRate`) and every
message passed to `ProcessMessage` fails with the result of `CheckShutdown`
and leaves the whole presenter state unchanged, in particular the render
state, the frame-step state and counter, the stream-ended flag, the
new-input flag and the rate; after every sequence of these operations the
presenter is still in the Shutdown state, unchanged. -/
theorem shutdown_rejects (c : Callees) (p : Presenter)
    (hshut : p.m_RenderState = .RENDER_STATE_SHUTDOWN) :
    (∀ op : Operation,
      FAILED (op.apply c p).1 = true ∧ (op.apply c p).1 = p.CheckShutdown ∧
      (op.apply c p).2 = p ∧
      (op.apply c p).2.m_RenderState = .RENDER_STATE_SHUTDOWN ∧
      (op.apply c p).2.m_FrameStep = p.m_FrameStep ∧
      (op.apply c p).2.m_bEndStreaming = p.m_bEndStreaming ∧
      (op.apply c p).2.m_bSampleNotify = p.m_bSampleNotify ∧
      (op.apply c p).2.m_fRate = p.m_fRate) ∧
    (∀ ops : List Operation,
      runOperations c p ops = p ∧
      (runOperations c p ops).m_RenderState = .RENDER_STATE_SHUTDOWN) := by
  have hcs : p.CheckShutdown = MF_E_SHUTDOWN := by simp [Presenter.CheckShutdown, hshut]
  constructor
  · intro op
    rw [Operation_apply_shutdown c p hshut op, hcs]
    exact ⟨rfl, rfl, rfl, hshut, rfl, rfl, rfl, rfl⟩
  · intro ops
    rw [runOperations_shutdown c ops p hshut]
    exact ⟨rfl, hshut⟩

/-- Witness for C17: the presenter as constructed is in the Shutdown state;
a step message followed by a clock start and a rate change leaves it as it
was. -/
theorem shutdown_rejects_witness :
    Presenter.new.m_RenderState = .RENDER_STATE_SHUTDOWN ∧
    runOperations
        { SchedulerFlush := fun s => s, StartFrameStep := fun q => (S_OK, q),
          ProcessOutputLoop := fun q => q, RenegotiateMediaType := fun q => (S_OK, q),
          StartScheduler := fun s _ => (S_OK, s), StopScheduler := fun s => (S_OK, s) }
        Presenter.new
        [.message .MFVP_MESSAGE_STEP 2, .clockStart 0, .clockSetRate ⟨0, 0⟩]
      = Presenter.new :=
  ⟨rfl, ((shutdown_rejects
    { SchedulerFlush := fun s => s, StartFrameStep := fun q => (S_OK, q),
      ProcessOutputLoop := fun q => q, RenegotiateMediaType := fun q => (S_OK, q),
      StartScheduler := fun s _ => (S_OK, s), StopScheduler := fun s => (S_OK, s) }
    Presenter.new rfl).2 _).1⟩

/-- C18 evaluated on the code: in the Shutdown state `GetVideoPosition`,
called with valid pointers, returns the failure of `CheckShutdown` and
writes neither rectangle, although the stored source rectangle is there;
`GetVideoWindow`, `SetVideoWindow` and `SetVideoPosition` do not look at the
render state, so they behave in the Shutdown state as in any other. -/
theorem GetVideoPosition_shutdown :
    Presenter.new.m_RenderState = .RENDER_STATE_SHUTDOWN ∧
    Presenter.new.GetVideoPosition MFVideoNormalizedRect.full (fun _ => none) true true
      = (MF_E_SHUTDOWN, none, none) ∧
    FAILED (Presenter.new.GetVideoPosition MFVideoNormalizedRect.full
      (fun _ => none) true true).1 = true ∧
    (∀ (p : Presenter) (src : MFVideoNormalizedRect)
        (frameSize : MediaType → Option (Nat × Nat)) (pnrcSource prcDest : Bool),
      p.m_RenderState = .RENDER_STATE_SHUTDOWN → (pnrcSource = true ∨ prcDest = true) →
      FAILED (p.GetVideoPosition src frameSize pnrcSource prcDest).1 = true ∧
      (p.GetVideoPosition src frameSize pnrcSource prcDest).2 = (none, none)) ∧
    (∀ (p : Presenter) (src : MFVideoNormalizedRect)
        (frameSize : MediaType → Option (Nat × Nat)),
      p.m_RenderState ≠ .RENDER_STATE_SHUTDOWN →
      (p.GetVideoPosition src frameSize true false) = (S_OK, some src, none)) ∧
    (∀ (p : Presenter) (engine : D3DPresentEngine),
      p.GetVideoWindow engine true = (S_OK, some engine.m_hwnd)) ∧
    (∀ (p : Presenter) (state : RENDER_STATE) (src : MFVideoNormalizedRect) (hr : HRESULT)
        (pnrcSource : Option MFVideoNormalizedRect) (prcDest : Bool),
      Presenter.SetVideoPosition { p with m_RenderState := state } src hr pnrcSource prcDest
        = p.SetVideoPosition src hr pnrcSource prcDest) ∧
    (∀ (create : D3DPresentEngine → HRESULT × D3DPresentEngine) (isWindow : Nat → Bool)
        (p : Presenter) (state : RENDER_STATE) (engine : D3DPresentEngine) (hwnd : Nat),
      (Presenter.SetVideoWindow create isWindow { p with m_RenderState := state }
          engine hwnd).1
        = (p.SetVideoWindow create isWindow engine hwnd).1) := by
  have hf : FAILED MF_E_SHUTDOWN = true := by decide
  have hs : FAILED S_OK = false := by decide
  refine ⟨rfl, by decide, by decide, ?_, ?_, ?_, ?_, ?_⟩
  · intro p src frameSize pnrcSource prcDest hshut hptr
    rcases hptr with h | h <;>
      simp [Presenter.GetVideoPosition, Presenter.CheckShutdown, hshut, hf, h]
  · intro p src frameSize hstate
    simp [Presenter.GetVideoPosition, Presenter.CheckShutdown, hstate, hs]
  · intro p engine
    rfl
  · intro p state src hr pnrcSource prcDest
    rfl
  · intro create isWindow p state engine hwnd
    simp only [Presenter.SetVideoWindow]
    split_ifs <;> rfl

/-- C19 evaluated on the code: in the Shutdown state `GetSlowestRate` writes
no rate but returns `S_OK` (its label `done:` returns the constant, not
`hr`), while `GetFastestRate` and `IsRateSupported` return the failure of
`CheckShutdown` and write nothing. -/
theorem GetSlowestRate_shutdown :
    Presenter.new.m_RenderState = .RENDER_STATE_SHUTDOWN ∧
    FAILED Presenter.new.CheckShutdown = true ∧
    Presenter.new.GetSlowestRate true = (S_OK, none) ∧
    FAILED (Presenter.new.GetSlowestRate true).1 = false ∧
    (∀ p : Presenter, p.m_RenderState = .RENDER_STATE_SHUTDOWN →
      p.GetSlowestRate true = (S_OK, none)) ∧
    (∀ (p : Presenter) (engine : D3DPresentEngine) (frameRate : MediaType → Option MFRatio)
        (eDirection : MFRATE_DIRECTION) (bThin : Bool),
      p.m_RenderState = .RENDER_STATE_SHUTDOWN →
      FAILED (p.GetFastestRate engine frameRate eDirection bThin true).1 = true ∧
      (p.GetFastestRate engine frameRate eDirection bThin true).2 = none) ∧
    (∀ (p : Presenter) (engine : D3DPresentEngine) (frameRate : MediaType → Option MFRatio)
        (bThin : Bool) (fRate : Float32),
      p.m_RenderState = .RENDER_STATE_SHUTDOWN →
      FAILED (p.IsRateSupported engine frameRate bThin fRate true).1 = true ∧
      (p.IsRateSupported engine frameRate bThin fRate true).2 = none) := by
  have hf : FAILED MF_E_SHUTDOWN = true := by decide
  refine ⟨rfl, by decide, by decide, by decide, ?_, ?_, ?_⟩
  · intro p hshut
    simp [Presenter.GetSlowestRate, Presenter.CheckShutdown, hshut, hf]
  · intro p engine frameRate eDirection bThin hshut
    simp [Presenter.GetFastestRate, Presenter.CheckShutdown, hshut, hf]
  · intro p engine frameRate bThin fRate hshut
    simp [Presenter.IsRateSupported, Presenter.CheckShutdown, hshut, hf]

/-! ### The frame-buffer count of the present engine -/

theorem runSetBufferCount_ge (counts : List Int) :
    ∀ e : D3DPresentEngine, 3 ≤ e.m_bufferCount → 3 ≤ (runSetBufferCount e counts).m_bufferCount := by
  induction counts with
  | nil => intro e h; exact h
  | cons n rest ih =>
    intro e h
    simp only [runSetBufferCount, List.foldl_cons]
    apply ih
    unfold D3DPresentEngine.SetBufferCount
    split_ifs with hn
    · exact h
    · simp only; omega

/-- C20: the frame-buffer count is three after construction and at least
three after every sequence of `SetBufferCount` calls; `SetBufferCount n`
fails exactly when `n <= 2`, in which case it returns `E_INVALIDARG` and
changes nothing, and otherwise it succeeds and a following `GetBufferCount`
returns `n`. -/
theorem SetBufferCount_at_least_three :
    D3DPresentEngine.new.m_bufferCount = 3 ∧
    D3DPresentEngine.new.GetBufferCount = (S_OK, 3) ∧
    (∀ counts : List Int,
      3 ≤ (runSetBufferCount D3DPresentEngine.new counts).m_bufferCount) ∧
    (∀ (e : D3DPresentEngine) (n : Int),
      (FAILED (e.SetBufferCount n).1 = true ↔ n ≤ 2) ∧
      (n ≤ 2 → e.SetBufferCount n = (E_INVALIDARG, e)) ∧
      (2 < n → (e.SetBufferCount n).1 = S_OK ∧
        (e.SetBufferCount n).2.GetBufferCount = (S_OK, n))) := by
  refine ⟨rfl, rfl, fun counts => runSetBufferCount_ge counts _ (by decide), ?_⟩
  intro e n
  by_cases hn : n ≤ 2
  · simp [D3DPresentEngine.SetBufferCount, hn, FAILED, E_INVALIDARG]
  · have h2 : 2 < n := by omega
    simp [D3DPresentEngine.SetBufferCount, hn, h2, FAILED, S_OK, D3DPresentEngine.GetBufferCount]

/-! ### Delivery of a sample: device state and immediate presentation -/

theorem ScheduleSample_running (s : Scheduler) (pSample : Sample) (bPresentNow : Bool)
    (hcb : s.m_pCB = true) (hthread : s.m_hSchedulerThread = true)
    (halive : s.threadExited = false) :
    (s.ScheduleSample pSample bPresentNow).1 = S_OK ∧
    ((bPresentNow = true ∨ s.m_pClock = false) →
      (s.ScheduleSample pSample bPresentNow).2
        = { s with presented := s.presented ++ [(pSample, 0)] }) ∧
    ((bPresentNow = false ∧ s.m_pClock = true) →
      (s.ScheduleSample pSample bPresentNow).2
        = { s with m_ScheduledSamples := s.m_ScheduledSamples ++ [pSample],
                   messages := s.messages ++ [.eSchedule] }) := by
  refine ⟨?_, ?_, ?_⟩
  · simp only [Scheduler.ScheduleSample, hcb, hthread, halive]
    by_cases h : bPresentNow = true ∨ s.m_pClock = false
    · rcases h with h | h <;> simp [h]
    · simp only [not_or, Bool.not_eq_true, Bool.not_eq_false] at h
      simp [h.1, h.2, ThreadSafeQueue.Queue, ComPtrList.InsertBack, SUCCEEDED, S_OK]
  · intro h
    simp only [Scheduler.ScheduleSample, hcb, hthread, halive]
    rcases h with h | h <;> simp [h, Scheduler.PresentSample] <;>
      exact ⟨hcb, hthread, halive⟩
  · rintro ⟨h1, h2⟩
    simp [Scheduler.ScheduleSample, hcb, hthread, halive, h1, h2, ThreadSafeQueue.Queue,
      ComPtrList.InsertBack, SUCCEEDED, S_OK, Scheduler.PostThreadMessage]

theorem ScheduleSample_now_queue (s : Scheduler) (pSample : Sample) :
    (s.ScheduleSample pSample true).2.m_ScheduledSamples = s.m_ScheduledSamples := by
  unfold Scheduler.ScheduleSample
  split_ifs with h1 h2 h3
  · rfl
  · rfl
  · rfl
  · simp at h3

theorem ScheduleSample_queue_cases (s : Scheduler) (pSample : Sample) (b : Bool) :
    (s.ScheduleSample pSample b).2.m_ScheduledSamples = s.m_ScheduledSamples ∨
    (b = false ∧
      (s.ScheduleSample pSample b).2.m_ScheduledSamples = s.m_ScheduledSamples ++ [pSample]) := by
  cases b
  · unfold Scheduler.ScheduleSample
    split_ifs <;>
      simp [Scheduler.PresentSample, ThreadSafeQueue.Queue, ComPtrList.InsertBack,
        Scheduler.PostThreadMessage, SUCCEEDED, S_OK]
  · exact Or.inl (ScheduleSample_now_queue s pSample)

theorem DeliverSample_scheduler (p : Presenter) (check : HRESULT × DeviceState)
    (pSample : Sample) (bRepaint : Bool) :
    (p.DeliverSample check pSample bRepaint).2.m_scheduler
      = (if SUCCEEDED check.1 then
          (p.m_scheduler.ScheduleSample pSample
            (Presenter.DeliverSample.bPresentNow p bRepaint)).2
        else p.m_scheduler) ∧
    (p.DeliverSample check pSample bRepaint).2.m_fRate = p.m_fRate ∧
    (p.DeliverSample check pSample bRepaint).2.m_RenderState = p.m_RenderState ∧
    (p.DeliverSample check pSample bRepaint).2.m_FrameStep = p.m_FrameStep ∧
    (p.DeliverSample check pSample bRepaint).2.m_SamplePool = p.m_SamplePool ∧
    (p.DeliverSample check pSample bRepaint).2.m_TokenCounter = p.m_TokenCounter := by
  unfold Presenter.DeliverSample
  simp only
  split_ifs <;> simp [Presenter.NotifyEvent] <;> split_ifs <;> simp

theorem deliver_frame (env : DeliverEnv) (q : Presenter) (pSample : Sample) :
    (Presenter.DeliverFrameStepSample.deliver env q pSample).2.m_scheduler
      = (q.DeliverSample (env.deviceCheck pSample) pSample false).2.m_scheduler ∧
    (Presenter.DeliverFrameStepSample.deliver env q pSample).2.m_fRate = q.m_fRate ∧
    (Presenter.DeliverFrameStepSample.deliver env q pSample).2.m_RenderState
      = q.m_RenderState ∧
    (Presenter.DeliverFrameStepSample.deliver env q pSample).2.m_SamplePool
      = q.m_SamplePool ∧
    (Presenter.DeliverFrameStepSample.deliver env q pSample).2.m_TokenCounter
      = q.m_TokenCounter := by
  obtain ⟨_, h2, h3, _, h5, h6⟩ :=
    DeliverSample_scheduler q (env.deviceCheck pSample) pSample false
  unfold Presenter.DeliverFrameStepSample.deliver
  simp only
  split_ifs
  · exact ⟨rfl, h2, h3, h5, h6⟩
  · exact ⟨rfl, h2, h3, h5, h6⟩
  · exact ⟨rfl, h2, h3, h5, h6⟩

theorem DeliverFrameStepSample_frame (env : DeliverEnv) (p : Presenter) (pSample : Sample) :
    ((p.DeliverFrameStepSample env pSample).2.m_scheduler = p.m_scheduler ∨
      ∃ q : Presenter, q.m_fRate = p.m_fRate ∧ q.m_RenderState = p.m_RenderState ∧
        q.m_scheduler = p.m_scheduler ∧
        (p.DeliverFrameStepSample env pSample).2.m_scheduler
          = (q.DeliverSample (env.deviceCheck pSample) pSample false).2.m_scheduler) ∧
    (p.DeliverFrameStepSample env pSample).2.m_fRate = p.m_fRate ∧
    (p.DeliverFrameStepSample env pSample).2.m_RenderState = p.m_RenderState ∧
    (p.DeliverFrameStepSample env pSample).2.m_SamplePool = p.m_SamplePool ∧
    (p.DeliverFrameStepSample env pSample).2.m_TokenCounter = p.m_TokenCounter := by
  have hA := deliver_frame env
    { p with m_FrameStep := { p.m_FrameStep with steps := p.m_FrameStep.steps - 1 } } pSample
  have hB := deliver_frame env p pSample
  unfold Presenter.DeliverFrameStepSample
  simp only
  split_ifs
  all_goals first
    | exact ⟨Or.inl rfl, rfl, rfl, rfl, rfl⟩
    | exact ⟨Or.inr ⟨{ p with m_FrameStep :=
          { p.m_FrameStep with steps := p.m_FrameStep.steps - 1 } }, rfl, rfl, rfl, hA.1⟩,
        hA.2.1, hA.2.2.1, hA.2.2.2.1, hA.2.2.2.2⟩
    | exact ⟨Or.inr ⟨p, rfl, rfl, rfl, hB.1⟩, hB.2.1, hB.2.2.1, hB.2.2.2.1, hB.2.2.2.2⟩

/-- C21: when the device-health query answers `D3DERR_DEVICEREMOVED`,
`CheckDeviceState` reports the state `DeviceRemoved` and returns that
failure, leaving the engine as it is (the device is not created anew);
`DeliverSample` then leaves the scheduler untouched (nothing presented,
nothing queued), sends `EC_ERRORABORT` with that failure (exactly one event
when a sink is attached) and returns it.  When the query answers
`D3DERR_DEVICELOST` or `D3DERR_DEVICEHUNG` and `CreateD3DDevice` succeeds the
state is `DeviceReset`; `DeliverSample` passes the frame to `ScheduleSample`
and, on a running scheduler, returns success and sends
`EC_DISPLAY_CHANGED` and no `EC_ERRORABORT`. -/
theorem DeliverSample_device_state
    (CreateD3DDevice : D3DPresentEngine → HRESULT × D3DPresentEngine)
    (e : D3DPresentEngine) (p : Presenter) (pSample : Sample) (bRepaint : Bool) :
    (e.CheckDeviceState CreateD3DDevice D3DERR_DEVICEREMOVED
      = (D3DERR_DEVICEREMOVED, .DeviceRemoved, e) ∧
    FAILED D3DERR_DEVICEREMOVED = true ∧
    p.DeliverSample (D3DERR_DEVICEREMOVED, .DeviceRemoved) pSample bRepaint
      = (D3DERR_DEVICEREMOVED, p.NotifyEvent .EC_ERRORABORT D3DERR_DEVICEREMOVED 0) ∧
    (p.DeliverSample (D3DERR_DEVICEREMOVED, .DeviceRemoved) pSample bRepaint).2.m_scheduler
      = p.m_scheduler ∧
    (p.m_pMediaEventSink = true →
      (p.DeliverSample (D3DERR_DEVICEREMOVED, .DeviceRemoved) pSample bRepaint).2.events
        = p.events ++ [(.EC_ERRORABORT, D3DERR_DEVICEREMOVED, 0)])) ∧
    (∀ hrDevice : HRESULT, (hrDevice = D3DERR_DEVICELOST ∨ hrDevice = D3DERR_DEVICEHUNG) →
      SUCCEEDED (CreateD3DDevice e).1 = true →
      e.CheckDeviceState CreateD3DDevice hrDevice
        = ((CreateD3DDevice e).1, .DeviceReset, (CreateD3DDevice e).2) ∧
      (p.DeliverSample ((CreateD3DDevice e).1, .DeviceReset) pSample bRepaint).2.m_scheduler
        = (p.m_scheduler.ScheduleSample pSample
            (Presenter.DeliverSample.bPresentNow p bRepaint)).2 ∧
      (p.m_scheduler.m_pCB = true → p.m_scheduler.m_hSchedulerThread = true →
        p.m_scheduler.threadExited = false →
        (p.DeliverSample ((CreateD3DDevice e).1, .DeviceReset) pSample bRepaint).1 = S_OK ∧
        (p.DeliverSample ((CreateD3DDevice e).1, .DeviceReset) pSample bRepaint).2
          = ({ p with m_scheduler :=
                (p.m_scheduler.ScheduleSample pSample
                  (Presenter.DeliverSample.bPresentNow p bRepaint)).2 } : Presenter).NotifyEvent
              .EC_DISPLAY_CHANGED S_OK 0 ∧
        ((p.DeliverSample ((CreateD3DDevice e).1, .DeviceReset) pSample bRepaint).2.m_scheduler.presented
            = p.m_scheduler.presented ++ [(pSample, 0)] ∨
          (p.DeliverSample ((CreateD3DDevice e).1, .DeviceReset) pSample
              bRepaint).2.m_scheduler.m_ScheduledSamples
            = p.m_scheduler.m_ScheduledSamples ++ [pSample]) ∧
        (p.m_pMediaEventSink = true →
          (p.DeliverSample ((CreateD3DDevice e).1, .DeviceReset) pSample bRepaint).2.events
            = p.events ++ [(.EC_DISPLAY_CHANGED, S_OK, 0)]))) := by
  have hrem : FAILED D3DERR_DEVICEREMOVED = true := by decide
  have hrem2 : SUCCEEDED D3DERR_DEVICEREMOVED = false := by decide
  have hdel : p.DeliverSample (D3DERR_DEVICEREMOVED, .DeviceRemoved) pSample bRepaint
      = (D3DERR_DEVICEREMOVED, p.NotifyEvent .EC_ERRORABORT D3DERR_DEVICEREMOVED 0) := by
    simp [Presenter.DeliverSample, hrem, hrem2]
  have hchk : e.CheckDeviceState CreateD3DDevice D3DERR_DEVICEREMOVED
      = (D3DERR_DEVICEREMOVED, .DeviceRemoved, e) := by
    simp [D3DPresentEngine.CheckDeviceState, D3DERR_DEVICEREMOVED, D3DERR_DEVICELOST,
      D3DERR_DEVICEHUNG, S_OK, S_PRESENT_OCCLUDED, S_PRESENT_MODE_CHANGED]
  refine ⟨⟨hchk, hrem, hdel, ?_, ?_⟩, ?_⟩
  · rw [hdel]
    unfold Presenter.NotifyEvent
    split <;> rfl
  · intro hsink
    rw [hdel]
    simp [Presenter.NotifyEvent, hsink]
  · intro hrDevice hlost hcreate
    have hnf : FAILED (CreateD3DDevice e).1 = false := succeeded_not_failed _ hcreate
    refine ⟨?_, ?_, ?_⟩
    · rcases hlost with h | h <;>
        simp [D3DPresentEngine.CheckDeviceState, h, hnf, D3DERR_DEVICELOST, D3DERR_DEVICEHUNG,
          S_OK, S_PRESENT_OCCLUDED, S_PRESENT_MODE_CHANGED]
    · simp only [Presenter.DeliverSample, hcreate, if_true]
      split_ifs <;> simp [Presenter.NotifyEvent] <;> split_ifs <;> rfl
    · intro hcb hthread halive
      obtain ⟨hok, hnow, hqueue⟩ := ScheduleSample_running p.m_scheduler pSample
        (Presenter.DeliverSample.bPresentNow p bRepaint) hcb hthread halive
      have hfS : FAILED S_OK = false := by decide
      have hdel2 : p.DeliverSample ((CreateD3DDevice e).1, .DeviceReset) pSample bRepaint
          = (S_OK, ({ p with m_scheduler :=
                (p.m_scheduler.ScheduleSample pSample
                  (Presenter.DeliverSample.bPresentNow p bRepaint)).2 } : Presenter).NotifyEvent
              .EC_DISPLAY_CHANGED S_OK 0) := by
        simp [Presenter.DeliverSample, hcreate, hok, hfS]
      rw [hdel2]
      refine ⟨rfl, rfl, ?_, ?_⟩
      · have hs : ∀ q : Presenter, (q.NotifyEvent .EC_DISPLAY_CHANGED S_OK 0).m_scheduler
            = q.m_scheduler := by
          intro q; unfold Presenter.NotifyEvent; split <;> rfl
        simp only [hs]
        by_cases h : Presenter.DeliverSample.bPresentNow p bRepaint = true ∨
            p.m_scheduler.m_pClock = false
        · left; rw [hnow h]
        · right
          simp only [not_or, Bool.not_eq_true, Bool.not_eq_false] at h
          rw [hqueue ⟨h.1, h.2⟩]
      · intro hsink
        simp [Presenter.NotifyEvent, hsink]

/-! ### Cancelling a frame step -/

/-- C22: from every frame-step state `CancelFrameStep` returns `S_OK` and
leaves the state `FRAMESTEP_NONE`, the step counter 0 and the remembered
frame empty; the frame-step queue and everything else but the event log is
unchanged; with an event sink attached, the notification
`EC_STEP_COMPLETE` with the cancelled flag (`TRUE`) is emitted if and only
if the previous state was `WAITING_START`, `PENDING` or `SCHEDULED`, that
is neither `NONE` nor `COMPLETE`, and nothing is emitted otherwise. -/
theorem CancelFrameStep_resets (p : Presenter) :
    p.CancelFrameStep.1 = S_OK ∧
    p.CancelFrameStep.2.m_FrameStep.state = .FRAMESTEP_NONE ∧
    p.CancelFrameStep.2.m_FrameStep.steps = 0 ∧
    p.CancelFrameStep.2.m_FrameStep.pSampleNoRef = none ∧
    p.CancelFrameStep.2.m_FrameStep.samples = p.m_FrameStep.samples ∧
    { p.CancelFrameStep.2 with m_FrameStep := p.m_FrameStep, events := p.events } = p ∧
    ((p.m_FrameStep.state = .FRAMESTEP_WAITING_START ∨
        p.m_FrameStep.state = .FRAMESTEP_PENDING ∨
        p.m_FrameStep.state = .FRAMESTEP_SCHEDULED) ↔
      (p.m_FrameStep.state ≠ .FRAMESTEP_NONE ∧ p.m_FrameStep.state ≠ .FRAMESTEP_COMPLETE)) ∧
    p.CancelFrameStep.2.events
      = (if p.m_FrameStep.state ≠ .FRAMESTEP_NONE ∧ p.m_FrameStep.state ≠ .FRAMESTEP_COMPLETE
          then (p.NotifyEvent .EC_STEP_COMPLETE 1 0).events else p.events) ∧
    (p.m_pMediaEventSink = true →
      (p.CancelFrameStep.2.events = p.events ++ [(.EC_STEP_COMPLETE, 1, 0)] ↔
        (p.m_FrameStep.state ≠ .FRAMESTEP_NONE ∧
          p.m_FrameStep.state ≠ .FRAMESTEP_COMPLETE)) ∧
      (p.CancelFrameStep.2.events = p.events ↔
        ¬ (p.m_FrameStep.state ≠ .FRAMESTEP_NONE ∧
          p.m_FrameStep.state ≠ .FRAMESTEP_COMPLETE))) := by
  have hiff : (p.m_FrameStep.state = .FRAMESTEP_WAITING_START ∨
        p.m_FrameStep.state = .FRAMESTEP_PENDING ∨
        p.m_FrameStep.state = .FRAMESTEP_SCHEDULED) ↔
      (p.m_FrameStep.state ≠ .FRAMESTEP_NONE ∧ p.m_FrameStep.state ≠ .FRAMESTEP_COMPLETE) := by
    cases p.m_FrameStep.state <;> simp
  rw [CancelFrameStep_eq p]
  refine ⟨rfl, rfl, rfl, rfl, rfl, rfl, hiff, ?_, ?_⟩
  · simp only [hiff]
  · intro hsink
    simp only [hiff]
    by_cases hin : p.m_FrameStep.state ≠ .FRAMESTEP_NONE ∧
        p.m_FrameStep.state ≠ .FRAMESTEP_COMPLETE
    · simp [hin, Presenter.NotifyEvent, hsink]
    · simp [hin, Presenter.NotifyEvent, hsink]

/-! ### Immediate presentation -/

/-- C23: when the device check succeeds, `DeliverSample` calls
`ScheduleSample` with `bPresentNow` true if and only if the render state is
not Started, or the rate is zero, or the call is a repaint.  With
`bPresentNow` true the scheduled queue is left as it is; so at rate zero
neither `DeliverSample` nor `DeliverFrameStepSample` appends a frame to the
scheduled queue, and whenever `DeliverSample` changes the queue it appends
the frame, the render state is Started, the rate is not zero and the call
is not a repaint. -/
theorem DeliverSample_present_now (p : Presenter) (check : HRESULT × DeviceState)
    (pSample : Sample) (bRepaint : Bool) :
    (SUCCEEDED check.1 = true →
      (p.DeliverSample check pSample bRepaint).2.m_scheduler
        = (p.m_scheduler.ScheduleSample pSample
            (Presenter.DeliverSample.bPresentNow p bRepaint)).2) ∧
    (SUCCEEDED check.1 = false →
      (p.DeliverSample check pSample bRepaint).2.m_scheduler = p.m_scheduler) ∧
    (Presenter.DeliverSample.bPresentNow p bRepaint = true ↔
      (p.m_RenderState ≠ .RENDER_STATE_STARTED ∨ p.m_fRate.mant = 0 ∨ bRepaint = true)) ∧
    ((p.m_RenderState ≠ .RENDER_STATE_STARTED ∨ p.m_fRate.mant = 0 ∨ bRepaint = true) →
      (p.DeliverSample check pSample bRepaint).2.m_scheduler.m_ScheduledSamples
        = p.m_scheduler.m_ScheduledSamples) ∧
    ((p.DeliverSample check pSample bRepaint).2.m_scheduler.m_ScheduledSamples
        ≠ p.m_scheduler.m_ScheduledSamples →
      (p.DeliverSample check pSample bRepaint).2.m_scheduler.m_ScheduledSamples
        = p.m_scheduler.m_ScheduledSamples ++ [pSample] ∧
      p.m_RenderState = .RENDER_STATE_STARTED ∧ p.m_fRate.mant ≠ 0 ∧ bRepaint = false) ∧
    (∀ env : DeliverEnv, p.m_fRate.mant = 0 →
      (p.DeliverFrameStepSample env pSample).2.m_scheduler.m_ScheduledSamples
        = p.m_scheduler.m_ScheduledSamples) := by
  have hsched := (DeliverSample_scheduler p check pSample bRepaint).1
  have hiff : Presenter.DeliverSample.bPresentNow p bRepaint = true ↔
      (p.m_RenderState ≠ .RENDER_STATE_STARTED ∨ p.m_fRate.mant = 0 ∨ bRepaint = true) := by
    simp [Presenter.DeliverSample.bPresentNow, Presenter.IsScrubbing, or_assoc]
  have hkeep : (p.m_RenderState ≠ .RENDER_STATE_STARTED ∨ p.m_fRate.mant = 0 ∨
        bRepaint = true) →
      (p.DeliverSample check pSample bRepaint).2.m_scheduler.m_ScheduledSamples
        = p.m_scheduler.m_ScheduledSamples := by
    intro h
    rw [hsched, hiff.mpr h]
    split_ifs
    · exact ScheduleSample_now_queue _ _
    · rfl
  refine ⟨?_, ?_, hiff, hkeep, ?_, ?_⟩
  · intro h; rw [hsched, if_pos h]
  · intro h; rw [hsched, h]; rfl
  · intro hne
    have hnot : ¬ (p.m_RenderState ≠ .RENDER_STATE_STARTED ∨ p.m_fRate.mant = 0 ∨
        bRepaint = true) := fun h => hne (hkeep h)
    simp only [not_or, ne_eq, not_not, Bool.not_eq_true] at hnot
    refine ⟨?_, hnot.1, hnot.2.1, hnot.2.2⟩
    rw [hsched] at hne ⊢
    split_ifs at hne ⊢ with hc
    · rcases ScheduleSample_queue_cases p.m_scheduler pSample
        (Presenter.DeliverSample.bPresentNow p bRepaint) with h | ⟨_, h⟩
      · exact absurd h hne
      · exact h
    · exact absurd rfl hne
  · intro env hzero
    rcases (DeliverFrameStepSample_frame env p pSample).1 with h | ⟨q, hq1, _, hq3, h⟩
    · rw [h]
    · rw [h, (DeliverSample_scheduler q _ pSample false).1]
      have hb : Presenter.DeliverSample.bPresentNow q false = true := by
        simp [Presenter.DeliverSample.bPresentNow, Presenter.IsScrubbing, hq1, hzero]
      rw [hb, ← hq3]
      split_ifs
      · exact ScheduleSample_now_queue _ _
      · rfl

/-! ### A frame step of several frames -/

theorem DeliverFrameStepSample_discard (env : DeliverEnv) (q : Presenter) (f : Sample)
    (hstate : q.m_FrameStep.state = .FRAMESTEP_PENDING ∨
      q.m_FrameStep.state = .FRAMESTEP_WAITING_START)
    (hsteps : 2 ≤ q.m_FrameStep.steps)
    (hpass : (q.IsScrubbing && q.m_pClock &&
      IsSampleTimePassed env.hnsTimeNow f (env.duration f)) = false) :
    q.DeliverFrameStepSample env f
      = (S_OK, { q with m_FrameStep :=
          { q.m_FrameStep with steps := q.m_FrameStep.steps - 1 } }) := by
  have h0 : 0 < q.m_FrameStep.steps := by omega
  have h1 : 0 < q.m_FrameStep.steps - 1 := by omega
  rcases hstate with hs | hs <;>
    simp [Presenter.DeliverFrameStepSample, hpass, hs, FRAMESTEP_STATE.toNat, h0, h1]

theorem DeliverFrameStepSample_last_waiting (env : DeliverEnv) (q : Presenter) (f : Sample)
    (hstate : q.m_FrameStep.state = .FRAMESTEP_WAITING_START)
    (hsteps : q.m_FrameStep.steps = 1)
    (hpass : (q.IsScrubbing && q.m_pClock &&
      IsSampleTimePassed env.hnsTimeNow f (env.duration f)) = false) :
    q.DeliverFrameStepSample env f
      = (S_OK, { q with m_FrameStep :=
          { q.m_FrameStep with steps := 0, samples := q.m_FrameStep.samples ++ [f] } }) := by
  simp [Presenter.DeliverFrameStepSample, hpass, hstate, FRAMESTEP_STATE.toNat, hsteps,
    ComPtrList.InsertBack]

theorem DeliverFrameStepSample_last_pending (env : DeliverEnv) (q : Presenter) (f : Sample)
    (hstate : q.m_FrameStep.state = .FRAMESTEP_PENDING)
    (hsteps : q.m_FrameStep.steps = 1)
    (hpass : (q.IsScrubbing && q.m_pClock &&
      IsSampleTimePassed env.hnsTimeNow f (env.duration f)) = false) :
    q.DeliverFrameStepSample env f
      = Presenter.DeliverFrameStepSample.deliver env
          { q with m_FrameStep := { q.m_FrameStep with steps := 0 } } f := by
  simp [Presenter.DeliverFrameStepSample, hpass, hstate, FRAMESTEP_STATE.toNat, hsteps]

theorem deliverFrameStepSamples_take (env : DeliverEnv) (first : List Sample) :
    ∀ (k : Nat) (q : Presenter),
      (q.m_FrameStep.state = .FRAMESTEP_PENDING ∨
        q.m_FrameStep.state = .FRAMESTEP_WAITING_START) →
      q.m_FrameStep.steps = first.length + k + 1 →
      (∀ f ∈ first, (q.IsScrubbing && q.m_pClock &&
        IsSampleTimePassed env.hnsTimeNow f (env.duration f)) = false) →
      deliverFrameStepSamples env q first
        = { q with m_FrameStep := { q.m_FrameStep with steps := k + 1 } } := by
  induction first with
  | nil =>
    intro k q _ hsteps _
    simp only [deliverFrameStepSamples, List.foldl_nil]
    simp only [List.length_nil, Nat.zero_add] at hsteps
    rw [← hsteps]
  | cons f rest ih =>
    intro k q hstate hsteps hpass
    simp only [List.length_cons] at hsteps
    have hd := DeliverFrameStepSample_discard env q f hstate (by omega)
      (hpass f (List.mem_cons_self _ _))
    simp only [deliverFrameStepSamples, List.foldl_cons, hd]
    have := ih k
      { q with m_FrameStep := { q.m_FrameStep with steps := q.m_FrameStep.steps - 1 } }
      hstate (by simp only; omega) (fun g hg => hpass g (List.mem_cons_of_mem _ hg))
    simp only [deliverFrameStepSamples] at this
    rw [this]

theorem deliver_success (env : DeliverEnv) (q : Presenter) (f : Sample)
    (hdev : SUCCEEDED (env.deviceCheck f).1 = true)
    (hcb : q.m_scheduler.m_pCB = true) (hthread : q.m_scheduler.m_hSchedulerThread = true)
    (halive : q.m_scheduler.threadExited = false)
    (hqi : SUCCEEDED (env.hrQueryInterface f) = true) :
    (Presenter.DeliverFrameStepSample.deliver env q f).1 = env.hrQueryInterface f ∧
    (Presenter.DeliverFrameStepSample.deliver env q f).2.m_FrameStep
      = { q.m_FrameStep with pSampleNoRef := some f.id, state := .FRAMESTEP_SCHEDULED } ∧
    (Presenter.DeliverFrameStepSample.deliver env q f).2.m_scheduler
      = (q.m_scheduler.ScheduleSample f (Presenter.DeliverSample.bPresentNow q false)).2 := by
  have hs := (ScheduleSample_running q.m_scheduler f
    (Presenter.DeliverSample.bPresentNow q false) hcb hthread halive).1
  have hds := DeliverSample_scheduler q (env.deviceCheck f) f false
  have hd1 : (q.DeliverSample (env.deviceCheck f) f false).1 = S_OK := by
    unfold Presenter.DeliverSample
    simp only [hdev, if_true, hs]
    have : FAILED S_OK = false := by decide
    simp only [this, Bool.false_eq_true, if_false]
    split_ifs <;> rfl
  have hnf : FAILED S_OK = false := by decide
  have hqf := succeeded_not_failed _ hqi
  unfold Presenter.DeliverFrameStepSample.deliver
  simp only [hd1, hnf, hqf, Bool.false_eq_true, if_false]
  refine ⟨trivial, ?_, ?_⟩
  · simp only [hds.2.2.2.1]
  · simp only [hds.1, hdev, if_true]

/-- C24: take a presenter with step counter 0 and an empty frame-step queue
(in frame-step state None or any other), a step count `N` with
`1 ≤ N < 2^32`, and `N` frames (`first` followed by `last`) of which none
counts as already passed while scrubbing.  When the render state is Started, `PrepareFrameStep N` (with
`StartFrameStep` as its callee) succeeds with counter `N` and state Pending;
after the first `j` frames (`j ≤ N - 1`) passed to `DeliverFrameStepSample`
only the counter has changed, to `N - j`, so these frames were discarded
and not presented; and when the device check and the `QueryInterface` for
the last frame succeed on a running scheduler, the last frame goes to
`ScheduleSample` and the frame-step record ends with state Scheduled,
counter 0 and the identity of the last frame.  When the render state is
not Started, `PrepareFrameStep N` leaves state WaitingStart with counter
`N`, and after the `N` frames the counter is 0, the state still
WaitingStart and the frame-step queue holds the last frame alone, the
scheduler being untouched. -/
theorem frame_step_sequence (env : DeliverEnv) (c : Callees) (p : Presenter) (N : Nat)
    (first : List Sample) (last : Sample)
    (hc : c.StartFrameStep = Presenter.StartFrameStep env)
    (hsteps : p.m_FrameStep.steps = 0)
    (hqueue : p.m_FrameStep.samples = [])
    (hN : 1 ≤ N) (hN32 : N < 2 ^ 32)
    (hlen : first.length + 1 = N)
    (hpass : ∀ f ∈ first ++ [last], (p.IsScrubbing && p.m_pClock &&
      IsSampleTimePassed env.hnsTimeNow f (env.duration f)) = false) :
    (p.m_RenderState = .RENDER_STATE_STARTED →
      p.PrepareFrameStep c N
        = (S_OK, { p with m_FrameStep :=
            { p.m_FrameStep with steps := N, state := .FRAMESTEP_PENDING } }) ∧
      (∀ j, j ≤ first.length →
        deliverFrameStepSamples env (p.PrepareFrameStep c N).2 (first.take j)
          = { p with m_FrameStep :=
              { p.m_FrameStep with steps := N - j, state := .FRAMESTEP_PENDING } }) ∧
      (SUCCEEDED (env.deviceCheck last).1 = true →
        p.m_scheduler.m_pCB = true → p.m_scheduler.m_hSchedulerThread = true →
        p.m_scheduler.threadExited = false →
        SUCCEEDED (env.hrQueryInterface last) = true →
        (deliverFrameStepSamples env (p.PrepareFrameStep c N).2 (first ++ [last])).m_FrameStep
          = { state := .FRAMESTEP_SCHEDULED, samples := [], steps := 0,
              pSampleNoRef := some last.id } ∧
        (deliverFrameStepSamples env (p.PrepareFrameStep c N).2 (first ++ [last])).m_scheduler
          = (p.m_scheduler.ScheduleSample last
              (Presenter.DeliverSample.bPresentNow p false)).2)) ∧
    (p.m_RenderState ≠ .RENDER_STATE_STARTED →
      p.PrepareFrameStep c N
        = (S_OK, { p with m_FrameStep :=
            { p.m_FrameStep with steps := N, state := .FRAMESTEP_WAITING_START } }) ∧
      (∀ j, j ≤ first.length →
        deliverFrameStepSamples env (p.PrepareFrameStep c N).2 (first.take j)
          = { p with m_FrameStep :=
              { p.m_FrameStep with steps := N - j, state := .FRAMESTEP_WAITING_START } }) ∧
      deliverFrameStepSamples env (p.PrepareFrameStep c N).2 (first ++ [last])
        = { p with m_FrameStep :=
            { p.m_FrameStep with steps := 0, state := .FRAMESTEP_WAITING_START,
                                 samples := [last] } }) := by
  have hwrap : wrapDWORD (N : Int) = N := by
    simp only [wrapDWORD]
    omega
  have hpass1 : ∀ f ∈ first, (p.IsScrubbing && p.m_pClock &&
      IsSampleTimePassed env.hnsTimeNow f (env.duration f)) = false :=
    fun f hf => hpass f (List.mem_append_left _ hf)
  have hpassL : (p.IsScrubbing && p.m_pClock &&
      IsSampleTimePassed env.hnsTimeNow last (env.duration last)) = false :=
    hpass last (List.mem_append_right _ (List.mem_singleton_self _))
  constructor
  · intro hstarted
    have hprep : p.PrepareFrameStep c N
        = (S_OK, { p with m_FrameStep :=
            { p.m_FrameStep with steps := N, state := .FRAMESTEP_PENDING } }) := by
      simp [Presenter.PrepareFrameStep, hstarted, hc, Presenter.StartFrameStep, hsteps,
        hwrap, hqueue, Presenter.StartFrameStep.pending]
    refine ⟨hprep, ?_, ?_⟩
    · intro j hj
      rw [hprep]
      have := deliverFrameStepSamples_take env (first.take j) (N - j - 1)
        { p with m_FrameStep :=
            { p.m_FrameStep with steps := N, state := .FRAMESTEP_PENDING } }
        (Or.inl rfl) (by simp only [List.length_take]; omega)
        (fun f hf => hpass1 f (List.mem_of_mem_take hf))
      rw [this]
      have e : N - j - 1 + 1 = N - j := by omega
      simp only [e]
    · intro hdev hcb hthread halive hqi
      rw [hprep]
      have hfirst := deliverFrameStepSamples_take env first 0
        { p with m_FrameStep :=
            { p.m_FrameStep with steps := N, state := .FRAMESTEP_PENDING } }
        (Or.inl rfl) (by simp only; omega) hpass1
      have happ : deliverFrameStepSamples env
          { p with m_FrameStep :=
            { p.m_FrameStep with steps := N, state := .FRAMESTEP_PENDING } } (first ++ [last])
          = ((deliverFrameStepSamples env
              { p with m_FrameStep :=
                { p.m_FrameStep with steps := N, state := .FRAMESTEP_PENDING } }
              first).DeliverFrameStepSample env last).2 := by
        simp only [deliverFrameStepSamples, List.foldl_append, List.foldl_cons, List.foldl_nil]
      rw [happ, hfirst]
      rw [DeliverFrameStepSample_last_pending env
        { p with m_FrameStep :=
            { p.m_FrameStep with steps := 1, state := .FRAMESTEP_PENDING } }
        last rfl rfl hpassL]
      have hd := deliver_success env
        { p with m_FrameStep :=
            { p.m_FrameStep with steps := 0, state := .FRAMESTEP_PENDING } } last
        hdev hcb hthread halive hqi
      refine ⟨?_, ?_⟩
      · rw [hd.2.1]
        simp only [hqueue]
      · rw [hd.2.2]
        rfl
  · intro hstopped
    have hprep : p.PrepareFrameStep c N
        = (S_OK, { p with m_FrameStep :=
            { p.m_FrameStep with steps := N, state := .FRAMESTEP_WAITING_START } }) := by
      simp [Presenter.PrepareFrameStep, hstopped, hsteps, hwrap]
    refine ⟨hprep, ?_, ?_⟩
    · intro j hj
      rw [hprep]
      have := deliverFrameStepSamples_take env (first.take j) (N - j - 1)
        { p with m_FrameStep :=
            { p.m_FrameStep with steps := N, state := .FRAMESTEP_WAITING_START } }
        (Or.inr rfl) (by simp only [List.length_take]; omega)
        (fun f hf => hpass1 f (List.mem_of_mem_take hf))
      rw [this]
      have e : N - j - 1 + 1 = N - j := by omega
      simp only [e]
    · rw [hprep]
      have hfirst := deliverFrameStepSamples_take env first 0
        { p with m_FrameStep :=
            { p.m_FrameStep with steps := N, state := .FRAMESTEP_WAITING_START } }
        (Or.inr rfl) (by simp only; omega) hpass1
      have happ : deliverFrameStepSamples env
          { p with m_FrameStep :=
            { p.m_FrameStep with steps := N, state := .FRAMESTEP_WAITING_START } }
            (first ++ [last])
          = ((deliverFrameStepSamples env
              { p with m_FrameStep :=
                { p.m_FrameStep with steps := N, state := .FRAMESTEP_WAITING_START } }
              first).DeliverFrameStepSample env last).2 := by
        simp only [deliverFrameStepSamples, List.foldl_append, List.foldl_cons, List.foldl_nil]
      rw [happ, hfirst]
      rw [DeliverFrameStepSample_last_waiting env
        { p with m_FrameStep :=
            { p.m_FrameStep with steps := 1, state := .FRAMESTEP_WAITING_START } }
        last rfl rfl hpassL]
      simp only [hqueue, List.nil_append]

/-- Witness for C24: a step of three frames during playback ends with the
third frame remembered and the state Scheduled; the same step on a paused
presenter ends with the third frame on the frame-step queue. -/
theorem frame_step_sequence_witness :
    playingPresenter.m_RenderState = .RENDER_STATE_STARTED ∧
    (deliverFrameStepSamples plainDeliverEnv
        (playingPresenter.PrepareFrameStep plainCallees 3).2
        ([⟨4, some 0, some 0⟩, ⟨5, some 333333, some 0⟩]
          ++ [⟨6, some 666666, some 0⟩])).m_FrameStep
      = { state := .FRAMESTEP_SCHEDULED, samples := [], steps := 0, pSampleNoRef := some 6 } ∧
    (deliverFrameStepSamples plainDeliverEnv
        (({ playingPresenter with m_RenderState := .RENDER_STATE_PAUSED }
          : Presenter).PrepareFrameStep plainCallees 3).2
        ([⟨4, some 0, some 0⟩, ⟨5, some 333333, some 0⟩]
          ++ [⟨6, some 666666, some 0⟩])).m_FrameStep
      = { state := .FRAMESTEP_WAITING_START, samples := [⟨6, some 666666, some 0⟩], steps := 0,
          pSampleNoRef := none } :=
  ⟨rfl,
    (((frame_step_sequence plainDeliverEnv plainCallees playingPresenter 3
      [⟨4, some 0, some 0⟩, ⟨5, some 333333, some 0⟩] ⟨6, some 666666, some 0⟩
      rfl rfl rfl (by decide) (by decide) rfl (fun _ _ => rfl)).1 rfl).2.2
        (by decide) rfl rfl rfl (by decide)).1,
    congrArg Presenter.m_FrameStep
      (((frame_step_sequence plainDeliverEnv plainCallees
        { playingPresenter with m_RenderState := .RENDER_STATE_PAUSED } 3
        [⟨4, some 0, some 0⟩, ⟨5, some 333333, some 0⟩] ⟨6, some 666666, some 0⟩
        rfl rfl rfl (by decide) (by decide) rfl (fun _ _ => rfl)).2 (by decide)).2.2)⟩

/-! ### The output loop: need-more-input and the empty pool -/

theorem pending_round_trip (c : Nat) (h : c < 4294967296) :
    wrapDWORD ((wrapDWORD ((c : Int) + 1) : Int) - 1) = c := by
  simp only [wrapDWORD]
  omega

theorem ProcessOutputLoop_idle (env : OutputEnv) (pulls : List MixerPull) (q : Presenter)
    (h : q.m_bSampleNotify = false) :
    Presenter.ProcessOutputLoop env pulls q
      = (Presenter.ProcessOutputLoop.finish MF_E_TRANSFORM_NEED_MORE_INPUT q, pulls) := by
  cases pulls <;> simp [Presenter.ProcessOutputLoop, h]

theorem prepare_id (env : OutputEnv) (p : Presenter) (f : Sample) :
    (Presenter.ProcessOutput.prepare env p f).id = f.id ∧
    (Presenter.ProcessOutput.prepare env p f).sampleTime = f.sampleTime := by
  unfold Presenter.ProcessOutput.prepare ClearDesiredSampleTime
  split_ifs <;> exact ⟨rfl, rfl⟩

theorem prepare_same (env : OutputEnv) (p : Presenter) (f : Sample)
    (h : p.m_bRepaint = true ∨ SUCCEEDED (env.hrQueryDesired f) = false ∨
      (FAILED (env.hrRestoreCounter f) = false ∧ f.counter ≠ none)) :
    Presenter.ProcessOutput.prepare env p f = f := by
  unfold Presenter.ProcessOutput.prepare ClearDesiredSampleTime
  rcases h with h | h | ⟨h, hc⟩
  · simp [h]
  · simp [h]
  · have hsame : ({ f with counter := some (Presenter.sampleCounter f) } : Sample) = f := by
      cases f with
      | mk i t c =>
        cases c with
        | none => exact absurd rfl hc
        | some c => rfl
    simp only [h, Bool.false_eq_true, if_false, hsame]
    split_ifs <;> rfl

theorem ProcessOutput_need_input_eq (env : OutputEnv) (p : Presenter) (pull : MixerPull)
    (f : Sample) (rest : List Sample)
    (hgate : ¬ (p.m_RenderState ≠ .RENDER_STATE_STARTED ∧ p.m_bRepaint = false ∧
      p.m_bPrerolled = true))
    (hmixer : p.m_pMixer = true)
    (hinit : p.m_SamplePool.m_bInitialized = true)
    (hpend : p.m_SamplePool.m_cPending < 4294967296)
    (hq : p.m_SamplePool.m_VideoSampleQueue = f :: rest)
    (hpull : pull.hr = MF_E_TRANSFORM_NEED_MORE_INPUT) :
    p.ProcessOutput env pull
      = (MF_E_TRANSFORM_NEED_MORE_INPUT,
          { p with m_SamplePool :=
                     { p.m_SamplePool with
                       m_VideoSampleQueue := rest ++ [Presenter.ProcessOutput.prepare env p f] },
                   m_bRepaint := false, m_bSampleNotify := false }, true) := by
  have hget : p.m_SamplePool.GetSample
      = (S_OK, some f, { p.m_SamplePool with
          m_VideoSampleQueue := rest,
          m_cPending := wrapDWORD (p.m_SamplePool.m_cPending + 1) }) := by
    simp [SamplePool.GetSample, hinit, hq, ComPtrList.IsEmpty, ComPtrList.RemoveFront,
      SUCCEEDED, S_OK]
  have h1 : (S_OK : HRESULT) ≠ MF_E_SAMPLEALLOCATOR_EMPTY := by decide
  have h2 : FAILED S_OK = false := by decide
  have h3 : FAILED MF_E_TRANSFORM_NEED_MORE_INPUT = true := by decide
  have hrt := pending_round_trip p.m_SamplePool.m_cPending hpend
  have h4 : SUCCEEDED S_OK = true := by decide
  have hm : (!p.m_pMixer) = false := by simp [hmixer]
  simp only [Presenter.ProcessOutput, hgate, if_false, hm, Bool.false_eq_true,
    hget, h1, h2, hpull, h3, if_true, Presenter.ProcessOutput.mixerFailed,
    SamplePool.ReturnSample, hinit, Bool.not_true, ComPtrList.InsertBack, h4, hrt]

/-! ### The release callback and the frame step -/

theorem StepQuiet_of_eq (p q : Presenter) (he : q.events = p.events)
    (hs : q.m_FrameStep.state = p.m_FrameStep.state)
    (hi : q.m_FrameStep.pSampleNoRef = p.m_FrameStep.pSampleNoRef) : StepQuiet p q :=
  ⟨⟨[], by rw [he, List.append_nil], fun e he => absurd he (List.not_mem_nil e)⟩,
    Or.inl ⟨hs, hi⟩⟩

theorem StepQuiet_refl (p : Presenter) : StepQuiet p p := StepQuiet_of_eq p p rfl rfl rfl

theorem StepQuiet_trans (p q r : Presenter) (h1 : StepQuiet p q) (h2 : StepQuiet q r) :
    StepQuiet p r := by
  obtain ⟨⟨a1, e1, n1⟩, s1⟩ := h1
  obtain ⟨⟨a2, e2, n2⟩, s2⟩ := h2
  refine ⟨⟨a1 ++ a2, by rw [e2, e1, List.append_assoc], ?_⟩, ?_⟩
  · intro e he
    rcases List.mem_append.1 he with h | h
    · exact n1 e h
    · exact n2 e h
  · rcases s1 with ⟨h1, h1i⟩ | ⟨h1, h1s⟩
    · rcases s2 with ⟨h2, h2i⟩ | ⟨h2, h2s⟩
      · exact Or.inl ⟨h2.trans h1, h2i.trans h1i⟩
      · exact Or.inr ⟨h1 ▸ h2, h2s⟩
    · rcases s2 with ⟨h2, _⟩ | ⟨h2, _⟩
      · exact Or.inr ⟨h1, h2.trans h1s⟩
      · rw [h1s] at h2
        exact absurd h2 (by decide)

theorem NotifyEvent_StepQuiet (p : Presenter) (code : EventCode) (a b : Int)
    (hcode : code ≠ .EC_STEP_COMPLETE) : StepQuiet p (p.NotifyEvent code a b) := by
  unfold Presenter.NotifyEvent
  split_ifs
  · exact ⟨⟨[(code, a, b)], rfl, fun e he => by
      rw [List.mem_singleton] at he
      rw [he]
      exact hcode⟩, Or.inl ⟨rfl, rfl⟩⟩
  · exact StepQuiet_refl p

theorem ReleaseResources_StepQuiet (flush : Scheduler → Scheduler) (p : Presenter) :
    StepQuiet p (p.ReleaseResources flush) :=
  StepQuiet_of_eq _ _ (by simp [Presenter.ReleaseResources, Presenter.Flush])
    (by simp [Presenter.ReleaseResources, Presenter.Flush])
    (by simp [Presenter.ReleaseResources, Presenter.Flush])

theorem SetMediaType_StepQuiet (env : SetMediaTypeEnv) (p : Presenter)
    (pMediaType : Option MediaType) : StepQuiet p (p.SetMediaType env pMediaType).2 := by
  have hR : ∀ q : Presenter, q.events = p.events →
      q.m_FrameStep.state = p.m_FrameStep.state →
      q.m_FrameStep.pSampleNoRef = p.m_FrameStep.pSampleNoRef →
      StepQuiet p (q.ReleaseResources env.SchedulerFlush) := fun q he hs hi =>
    StepQuiet_trans p q _ (StepQuiet_of_eq p q he hs hi) (ReleaseResources_StepQuiet _ q)
  cases pMediaType with
  | none => exact hR _ rfl rfl rfl
  | some t =>
    simp only [Presenter.SetMediaType]
    split_ifs
    · exact hR _ rfl rfl rfl
    · exact StepQuiet_refl p
    · exact StepQuiet_refl p
    · exact StepQuiet_trans _ _ _ (hR _ rfl rfl rfl) (ReleaseResources_StepQuiet _ _)
    · exact StepQuiet_trans _ _ _ (hR _ rfl rfl rfl) (ReleaseResources_StepQuiet _ _)
    · refine StepQuiet_trans _ _ _ (hR _ rfl rfl rfl) ?_
      exact StepQuiet_trans _ _ _ (StepQuiet_of_eq _ _ rfl rfl rfl)
        (ReleaseResources_StepQuiet _ _)
    · exact StepQuiet_trans _ _ _ (hR _ rfl rfl rfl) (StepQuiet_of_eq _ _ rfl rfl rfl)

theorem RenegotiateMediaType_StepQuiet
    (SetMediaType : Presenter → Option MediaType → HRESULT × Presenter)
    (hset : ∀ q t, StepQuiet q (SetMediaType q t).2)
    (p : Presenter) (mixer : Mixer) :
    StepQuiet p (p.RenegotiateMediaType SetMediaType mixer).2.1 := by
  unfold Presenter.RenegotiateMediaType
  split_ifs
  · exact StepQuiet_refl p
  · split
    · simp only
      split_ifs
      · exact hset _ _
      · exact StepQuiet_trans _ _ _ (hset _ _) (hset _ _)
      · exact StepQuiet_trans _ _ _ (hset _ _) (hset _ _)
    · exact hset _ _

theorem renegotiate_StepQuiet (env : OutputEnv) (p : Presenter) :
    StepQuiet p (Presenter.ProcessOutput.renegotiate env p).2 :=
  RenegotiateMediaType_StepQuiet _ (fun q t => SetMediaType_StepQuiet env.typeEnv q t)
    p env.mixer

theorem mixerFailed_StepQuiet (env : OutputEnv) (p : Presenter) (pSample : Sample)
    (hr : HRESULT) : StepQuiet p (Presenter.ProcessOutput.mixerFailed env p pSample hr).2 := by
  have h1 : StepQuiet p
      { p with m_SamplePool := (p.m_SamplePool.ReturnSample pSample).2 } :=
    StepQuiet_of_eq _ _ rfl rfl rfl
  unfold Presenter.ProcessOutput.mixerFailed
  simp only
  split_ifs
  · exact h1
  · exact StepQuiet_of_eq _ _ rfl rfl rfl
  · exact StepQuiet_trans _ _ _ h1 (renegotiate_StepQuiet env _)
  · exact StepQuiet_trans _ _ _ h1 (SetMediaType_StepQuiet env.typeEnv _ none)
  · exact StepQuiet_trans _ _ _ h1 (renegotiate_StepQuiet env _)

theorem DeliverSample_StepQuiet (p : Presenter) (check : HRESULT × DeviceState)
    (pSample : Sample) (bRepaint : Bool) :
    StepQuiet p (p.DeliverSample check pSample bRepaint).2 := by
  unfold Presenter.DeliverSample
  simp only
  split_ifs
  all_goals first
    | exact StepQuiet_of_eq _ _ rfl rfl rfl
    | exact StepQuiet_trans _ _ _ (StepQuiet_of_eq p _ rfl rfl rfl)
        (NotifyEvent_StepQuiet _ _ _ _ (by decide))

theorem DeliverSample_FrameStep (p : Presenter) (check : HRESULT × DeviceState)
    (pSample : Sample) (bRepaint : Bool) :
    (p.DeliverSample check pSample bRepaint).2.m_FrameStep = p.m_FrameStep :=
  (DeliverSample_scheduler p check pSample bRepaint).2.2.2.1

theorem frame_step_deliver_StepQuiet (env : DeliverEnv) (p q : Presenter) (pSample : Sample)
    (he : q.events = p.events) (hs : q.m_FrameStep.state = p.m_FrameStep.state)
    (hi : q.m_FrameStep.pSampleNoRef = p.m_FrameStep.pSampleNoRef)
    (hstate : p.m_FrameStep.state = .FRAMESTEP_PENDING) :
    StepQuiet p (Presenter.DeliverFrameStepSample.deliver env q pSample).2 := by
  have hpq : StepQuiet p q := StepQuiet_of_eq p q he hs hi
  have hD := DeliverSample_StepQuiet q (env.deviceCheck pSample) pSample false
  have hpd := StepQuiet_trans _ _ _ hpq hD
  unfold Presenter.DeliverFrameStepSample.deliver
  simp only
  split_ifs
  · exact hpd
  · exact hpd
  · exact ⟨hpd.1, Or.inr ⟨hstate, rfl⟩⟩

theorem DeliverFrameStepSample_StepQuiet (env : DeliverEnv) (p : Presenter) (pSample : Sample)
    (hstate : p.m_FrameStep.state ≠ .FRAMESTEP_NONE) :
    StepQuiet p (p.DeliverFrameStepSample env pSample).2 := by
  have hpend : ¬ (p.m_FrameStep.state.toNat ≥ FRAMESTEP_STATE.toNat .FRAMESTEP_SCHEDULED) →
      p.m_FrameStep.state ≠ .FRAMESTEP_WAITING_START →
      p.m_FrameStep.state = .FRAMESTEP_PENDING := by
    revert hstate
    cases p.m_FrameStep.state <;> simp [FRAMESTEP_STATE.toNat]
  unfold Presenter.DeliverFrameStepSample
  simp only
  split_ifs with h1 h2 h3 h4 h5 h6
  all_goals first
    | exact StepQuiet_of_eq _ _ rfl rfl rfl
    | (refine frame_step_deliver_StepQuiet env p _ pSample ?_ ?_ ?_
        (hpend (by assumption) (by assumption)) <;> rfl)

theorem ProcessOutput_deliver_StepQuiet (env : OutputEnv) (p : Presenter) (pSample : Sample)
    (bRepaint : Bool) :
    StepQuiet p (Presenter.ProcessOutput.deliver env p pSample bRepaint).2 := by
  have hD := DeliverSample_StepQuiet p (env.deliver.deviceCheck pSample) pSample bRepaint
  have hF := DeliverFrameStepSample_StepQuiet env.deliver p pSample
  unfold Presenter.ProcessOutput.deliver
  simp only
  split_ifs with h1 h2
  · exact StepQuiet_refl p
  · exact hD
  · exact StepQuiet_trans _ _ _ hD (StepQuiet_of_eq _ _ rfl rfl rfl)
  · exact hF (fun hn => h2 (Or.inl hn))
  · exact StepQuiet_trans _ _ _ (hF (fun hn => h2 (Or.inl hn)))
      (StepQuiet_of_eq _ _ rfl rfl rfl)

theorem mixerSucceeded_StepQuiet (env : OutputEnv) (p : Presenter) (pSample : Sample)
    (bRepaint : Bool) (pull : MixerPull) :
    StepQuiet p (Presenter.ProcessOutput.mixerSucceeded env p pSample bRepaint pull).2 := by
  unfold Presenter.ProcessOutput.mixerSucceeded
  split_ifs
  · exact StepQuiet_trans _ _ _ (NotifyEvent_StepQuiet p _ _ _ (by decide))
      (ProcessOutput_deliver_StepQuiet env _ pSample bRepaint)
  · exact ProcessOutput_deliver_StepQuiet env p pSample bRepaint

theorem ProcessOutput_StepQuiet (env : OutputEnv) (p : Presenter) (pull : MixerPull) :
    StepQuiet p (p.ProcessOutput env pull).2.1 := by
  have h1 : StepQuiet p
      { p with m_SamplePool := p.m_SamplePool.GetSample.2.2, m_bRepaint := false } :=
    StepQuiet_of_eq _ _ rfl rfl rfl
  unfold Presenter.ProcessOutput
  split_ifs
  · exact StepQuiet_refl p
  · exact StepQuiet_refl p
  · exact StepQuiet_of_eq _ _ rfl rfl rfl
  · exact StepQuiet_of_eq _ _ rfl rfl rfl
  · split
    · exact StepQuiet_of_eq _ _ rfl rfl rfl
    · exact StepQuiet_trans _ _ _ h1 (mixerFailed_StepQuiet env _ _ _)
  · split
    · exact StepQuiet_of_eq _ _ rfl rfl rfl
    · exact StepQuiet_trans _ _ _ h1 (mixerSucceeded_StepQuiet env _ _ _ _)

theorem finish_StepQuiet (hr : HRESULT) (p : Presenter) :
    StepQuiet p (Presenter.ProcessOutputLoop.finish hr p) := by
  unfold Presenter.ProcessOutputLoop.finish Presenter.CheckEndOfStream
  split_ifs
  · exact StepQuiet_refl p
  · exact StepQuiet_refl p
  · exact StepQuiet_refl p
  · exact StepQuiet_trans _ _ _ (NotifyEvent_StepQuiet p .EC_COMPLETE S_OK 0 (by decide))
      (StepQuiet_of_eq _ _ rfl rfl rfl)
  · exact StepQuiet_refl p

theorem finish_FrameStep (hr : HRESULT) (p : Presenter) :
    (Presenter.ProcessOutputLoop.finish hr p).m_FrameStep = p.m_FrameStep := by
  unfold Presenter.ProcessOutputLoop.finish Presenter.CheckEndOfStream
  split_ifs
  · rfl
  · rfl
  · rfl
  · simp only [Presenter.NotifyEvent]
    split_ifs <;> rfl
  · rfl

theorem ProcessOutputLoop_StepQuiet (env : OutputEnv) (pulls : List MixerPull) :
    ∀ p : Presenter, StepQuiet p (Presenter.ProcessOutputLoop env pulls p).1 := by
  induction pulls with
  | nil =>
    intro p
    rw [Presenter.ProcessOutputLoop]
    split_ifs
    · exact finish_StepQuiet _ _
    · exact StepQuiet_trans _ _ _ (ProcessOutput_StepQuiet env p _) (finish_StepQuiet _ _)
  | cons pull rest ih =>
    intro p
    rw [Presenter.ProcessOutputLoop]
    split_ifs
    · exact finish_StepQuiet _ _
    · exact StepQuiet_trans _ _ _ (ProcessOutput_StepQuiet env p pull) (ih _)
    · exact StepQuiet_trans _ _ _ (ProcessOutput_StepQuiet env p pull) (finish_StepQuiet _ _)
    · exact StepQuiet_trans _ _ _ (ProcessOutput_StepQuiet env p pull) (finish_StepQuiet _ _)

theorem done_StepQuiet (hr : HRESULT) (p : Presenter) :
    StepQuiet p (Presenter.OnSampleFree.done hr p).2 := by
  unfold Presenter.OnSampleFree.done
  simp only
  split_ifs
  · exact NotifyEvent_StepQuiet p _ _ _ (by decide)
  · exact StepQuiet_refl p

theorem done_FrameStep (hr : HRESULT) (p : Presenter) :
    (Presenter.OnSampleFree.done hr p).2.m_FrameStep = p.m_FrameStep := by
  unfold Presenter.OnSampleFree.done
  simp only
  split_ifs
  · simp only [Presenter.NotifyEvent]
    split_ifs <;> rfl
  · rfl

/-- After the frame-step block, `OnSampleFree` sends no step-complete
notification and changes the frame-step state only through the output loop,
which it runs when the frame went back to the pool. -/
theorem OnSampleFree_after_block (L : Presenter → Presenter) (p : Presenter)
    (r : Presenter.AsyncResult) (now : Int)
    (hg : SUCCEEDED r.hrGetObject = true) (hq : SUCCEEDED r.hrQueryInterface = true) :
    (p.OnSampleFree L r now).2
        = (Presenter.OnSampleFree.done (p.OnSampleFree L r now).1
            (Presenter.OnSampleFree.frameStep p r now).2).2 ∨
    (∃ pool : SamplePool,
      (p.OnSampleFree L r now).2
        = (Presenter.OnSampleFree.done (p.OnSampleFree L r now).1
            { (Presenter.OnSampleFree.frameStep p r now).2 with m_SamplePool := pool }).2) ∨
    (∃ pool : SamplePool,
      (p.OnSampleFree L r now).2
        = (Presenter.OnSampleFree.done (p.OnSampleFree L r now).1
            (L { (Presenter.OnSampleFree.frameStep p r now).2 with m_SamplePool := pool })).2) := by
  have hgf := succeeded_not_failed _ hg
  have hqf := succeeded_not_failed _ hq
  unfold Presenter.OnSampleFree
  simp only [hgf, hqf, Bool.false_eq_true, if_false]
  split_ifs
  · exact Or.inl rfl
  · exact Or.inr (Or.inr ⟨_, rfl⟩)
  · exact Or.inr (Or.inl ⟨_, rfl⟩)
  · exact Or.inl rfl

theorem OnSampleFree_block_StepQuiet (L : Presenter → Presenter)
    (hL : ∀ q, StepQuiet q (L q)) (p : Presenter)
    (r : Presenter.AsyncResult) (now : Int)
    (hg : SUCCEEDED r.hrGetObject = true) (hq : SUCCEEDED r.hrQueryInterface = true) :
    StepQuiet (Presenter.OnSampleFree.frameStep p r now).2 (p.OnSampleFree L r now).2 := by
  rcases OnSampleFree_after_block L p r now hg hq with h | ⟨pool, h⟩ | ⟨pool, h⟩
  · rw [h]; exact done_StepQuiet _ _
  · rw [h]
    exact StepQuiet_trans _ _ _ (StepQuiet_of_eq _ _ rfl rfl rfl) (done_StepQuiet _ _)
  · rw [h]
    have a : StepQuiet (Presenter.OnSampleFree.frameStep p r now).2
        { (Presenter.OnSampleFree.frameStep p r now).2 with m_SamplePool := pool } :=
      StepQuiet_of_eq _ _ rfl rfl rfl
    have b := hL { (Presenter.OnSampleFree.frameStep p r now).2 with m_SamplePool := pool }
    have c := done_StepQuiet (p.OnSampleFree L r now).1
      (L { (Presenter.OnSampleFree.frameStep p r now).2 with m_SamplePool := pool })
    exact StepQuiet_trans _ _ _ (StepQuiet_trans _ _ _ a b) c

theorem CompleteFrameStep_result (p : Presenter) (pSample : Sample) (now : Int) :
    (p.CompleteFrameStep pSample now).2.m_FrameStep.state = .FRAMESTEP_COMPLETE ∧
    (p.CompleteFrameStep pSample now).2.m_FrameStep.pSampleNoRef = none ∧
    (p.m_pMediaEventSink = true →
      ∃ added : List (EventCode × Int × Int),
        (p.CompleteFrameStep pSample now).2.events
          = p.events ++ (EventCode.EC_STEP_COMPLETE, 0, 0) :: added ∧
        ∀ e ∈ added, e.1 ≠ EventCode.EC_STEP_COMPLETE) := by
  unfold Presenter.CompleteFrameStep
  simp only
  split_ifs
  all_goals
    refine ⟨?_, ?_, ?_⟩
    · simp only [Presenter.NotifyEvent]
      split_ifs <;> rfl
    · simp only [Presenter.NotifyEvent]
      split_ifs <;> rfl
    · intro hsink
      simp only [Presenter.NotifyEvent, hsink, if_true, List.append_assoc,
        List.singleton_append]
      first
        | exact ⟨[], rfl, fun e he => absurd he (List.not_mem_nil e)⟩
        | exact ⟨_, rfl, fun e he => by
            rw [List.mem_singleton] at he
            rw [he]
            simp⟩

/-- C25 on the code: a presenter during playback has a frame step pending
with one step left; `OnSampleFree` for a frame of the current generation
puts the frame back into the pool and runs the output loop, in which the
mixer produces a frame that completes the count and is scheduled.  The
frame-step state was Pending before the call and is Scheduled after it. -/
theorem OnSampleFree_step_counterexample :
    ({ playingPresenter with
        m_FrameStep := { state := .FRAMESTEP_PENDING, samples := [], steps := 1,
                         pSampleNoRef := none } } : Presenter).m_FrameStep.state
      = .FRAMESTEP_PENDING ∧
    (Presenter.OnSampleFree
        (fun q => (Presenter.ProcessOutputLoop plainOutputEnv
          [{ hr := S_OK, sampleTime := some 0, mixerStartTime := 0, mixerEndTime := 0 }] q).1)
        { playingPresenter with
          m_FrameStep := { state := .FRAMESTEP_PENDING, samples := [], steps := 1,
                           pSampleNoRef := none } }
        { hrGetObject := S_OK, hrQueryInterface := S_OK, sample := ⟨1, none, some 0⟩ }
        0).2.m_FrameStep
      = { state := .FRAMESTEP_SCHEDULED, samples := [], steps := 0, pSampleNoRef := some 2 } := by
  decide

/-- C25 (amended): let `OnSampleFree` obtain the frame from the result object.
In frame-step state Scheduled, for the frame whose identity was remembered,
the frame-step state afterwards is Complete and the remembered identity is
cleared, and with an event sink the events sent are one `EC_STEP_COMPLETE`
with the cancelled flag clear followed by events of other kinds.  For any
other frame, or in any other frame-step state, no `EC_STEP_COMPLETE` is sent,
and the frame-step state and the remembered identity are unchanged unless
the output loop that `OnSampleFree` runs schedules the last frame of a
pending step (Pending becomes Scheduled); with the new-input flag clear the
whole frame-step record is unchanged. -/
theorem OnSampleFree_step_complete (env : OutputEnv) (pulls : List MixerPull)
    (p : Presenter) (r : Presenter.AsyncResult) (now : Int)
    (hg : SUCCEEDED r.hrGetObject = true) (hq : SUCCEEDED r.hrQueryInterface = true) :
    (p.m_FrameStep.state = .FRAMESTEP_SCHEDULED →
      p.m_FrameStep.pSampleNoRef = some r.sample.id →
      (p.OnSampleFree (fun q => (Presenter.ProcessOutputLoop env pulls q).1) r
        now).2.m_FrameStep.state = .FRAMESTEP_COMPLETE ∧
      (p.OnSampleFree (fun q => (Presenter.ProcessOutputLoop env pulls q).1) r
        now).2.m_FrameStep.pSampleNoRef = none ∧
      (p.m_pMediaEventSink = true →
        ∃ added : List (EventCode × Int × Int),
          (p.OnSampleFree (fun q => (Presenter.ProcessOutputLoop env pulls q).1) r
            now).2.events = p.events ++ (EventCode.EC_STEP_COMPLETE, 0, 0) :: added ∧
          ∀ e ∈ added, e.1 ≠ EventCode.EC_STEP_COMPLETE)) ∧
    (¬ (p.m_FrameStep.state = .FRAMESTEP_SCHEDULED ∧
        p.m_FrameStep.pSampleNoRef = some r.sample.id) →
      StepQuiet p
        (p.OnSampleFree (fun q => (Presenter.ProcessOutputLoop env pulls q).1) r now).2 ∧
      (p.m_bSampleNotify = false →
        (p.OnSampleFree (fun q => (Presenter.ProcessOutputLoop env pulls q).1) r
          now).2.m_FrameStep = p.m_FrameStep)) := by
  have hblock := OnSampleFree_block_StepQuiet
    (fun q => (Presenter.ProcessOutputLoop env pulls q).1)
    (fun q => ProcessOutputLoop_StepQuiet env pulls q) p r now hg hq
  constructor
  · intro hs hid
    have hfs : Presenter.OnSampleFree.frameStep p r now = p.CompleteFrameStep r.sample now := by
      simp only [Presenter.OnSampleFree.frameStep, hs, hid, if_true]
    rw [hfs] at hblock
    obtain ⟨hc1, hc2, hc3⟩ := CompleteFrameStep_result p r.sample now
    obtain ⟨⟨added, hev, hno⟩, hst⟩ := hblock
    have hkeep : (p.OnSampleFree (fun q => (Presenter.ProcessOutputLoop env pulls q).1) r
          now).2.m_FrameStep.state = (p.CompleteFrameStep r.sample now).2.m_FrameStep.state ∧
        (p.OnSampleFree (fun q => (Presenter.ProcessOutputLoop env pulls q).1) r
          now).2.m_FrameStep.pSampleNoRef
          = (p.CompleteFrameStep r.sample now).2.m_FrameStep.pSampleNoRef := by
      rcases hst with h | ⟨h, _⟩
      · exact h
      · rw [hc1] at h
        exact absurd h (by decide)
    refine ⟨hkeep.1.trans hc1, hkeep.2.trans hc2, ?_⟩
    intro hsink
    obtain ⟨a0, h0, hn0⟩ := hc3 hsink
    refine ⟨a0 ++ added, ?_, ?_⟩
    · rw [hev, h0]
      simp
    · intro e he
      rcases List.mem_append.1 he with h | h
      · exact hn0 e h
      · exact hno e h
  · intro hnot
    have hfs : (Presenter.OnSampleFree.frameStep p r now).2 = p := by
      unfold Presenter.OnSampleFree.frameStep
      split_ifs with h1 h2
      · exact absurd ⟨h1, h2⟩ hnot
      · rfl
      · rfl
    rw [hfs] at hblock
    refine ⟨hblock, ?_⟩
    intro hflag
    rcases OnSampleFree_after_block (fun q => (Presenter.ProcessOutputLoop env pulls q).1)
      p r now hg hq with h | ⟨pool, h⟩ | ⟨pool, h⟩
    · rw [h, done_FrameStep, hfs]
    · rw [h, done_FrameStep, hfs]
    · rw [h, done_FrameStep]
      simp only
      rw [ProcessOutputLoop_idle env pulls _ (by rw [hfs]; exact hflag)]
      simp only
      rw [finish_FrameStep, hfs]

/-- Witness for C25: during playback with a frame step scheduled on frame 1,
the release of frame 1 completes the step. -/
theorem OnSampleFree_step_complete_witness :
    SUCCEEDED S_OK = true ∧
    (Presenter.OnSampleFree (fun q => (Presenter.ProcessOutputLoop plainOutputEnv [] q).1)
        { playingPresenter with
          m_FrameStep := { state := .FRAMESTEP_SCHEDULED, samples := [], steps := 0,
                           pSampleNoRef := some 1 } }
        { hrGetObject := S_OK, hrQueryInterface := S_OK, sample := ⟨1, none, some 0⟩ }
        0).2.m_FrameStep.state = .FRAMESTEP_COMPLETE ∧
    (Presenter.OnSampleFree (fun q => (Presenter.ProcessOutputLoop plainOutputEnv [] q).1)
        { playingPresenter with
          m_FrameStep := { state := .FRAMESTEP_SCHEDULED, samples := [], steps := 0,
                           pSampleNoRef := some 1 } }
        { hrGetObject := S_OK, hrQueryInterface := S_OK, sample := ⟨1, none, some 0⟩ }
        0).2.m_FrameStep.pSampleNoRef = none :=
  ⟨by decide,
    ((OnSampleFree_step_complete plainOutputEnv []
      { playingPresenter with
        m_FrameStep := { state := .FRAMESTEP_SCHEDULED, samples := [], steps := 0,
                         pSampleNoRef := some 1 } }
      { hrGetObject := S_OK, hrQueryInterface := S_OK, sample := ⟨1, none, some 0⟩ }
      0 (by decide) (by decide)).1 rfl rfl).1,
    ((OnSampleFree_step_complete plainOutputEnv []
      { playingPresenter with
        m_FrameStep := { state := .FRAMESTEP_SCHEDULED, samples := [], steps := 0,
                         pSampleNoRef := some 1 } }
      { hrGetObject := S_OK, hrQueryInterface := S_OK, sample := ⟨1, none, some 0⟩ }
      0 (by decide) (by decide)).1 rfl rfl).2.1⟩

/-! ### The output loop without input -/

/-- C26: take a presenter that reaches the mixer call of `ProcessOutput` (it
is started, repainting or not yet prerolled; it has a mixer), with an
initialized pool whose pending count is a `DWORD`.  When the free queue
holds a frame and the mixer answers `MF_E_TRANSFORM_NEED_MORE_INPUT`,
`ProcessOutput` returns that code having called the mixer once; the
acquired frame is back in the pool (the pending count is as before and the
free queue holds the same frames, the acquired one now at the back, as
`ClearDesiredSampleTime` left it: the same frame, and unchanged altogether
when its tag was written back), the new-input flag is clear and no event was
sent, so no `EC_ERRORABORT`.
`ProcessOutputLoop` then ends having used that one answer of the mixer, and
with the flag clear it calls the mixer no more (it uses none of the answers)
whatever the presenter is otherwise; `ProcessInputNotify` sets the flag before
it runs the loop.  When the free queue is empty, `ProcessOutput` returns
`S_FALSE`, which is not a failure, without calling the mixer and leaves the
presenter as it is, and the loop ends without using an answer. -/
theorem ProcessOutput_need_more_input (env : OutputEnv) (p : Presenter) (pull : MixerPull)
    (pulls : List MixerPull)
    (hgate : ¬ (p.m_RenderState ≠ .RENDER_STATE_STARTED ∧ p.m_bRepaint = false ∧
      p.m_bPrerolled = true))
    (hmixer : p.m_pMixer = true)
    (hinit : p.m_SamplePool.m_bInitialized = true)
    (hpend : p.m_SamplePool.m_cPending < 4294967296) :
    (∀ (f : Sample) (rest : List Sample),
      p.m_SamplePool.m_VideoSampleQueue = f :: rest →
      pull.hr = MF_E_TRANSFORM_NEED_MORE_INPUT →
      p.ProcessOutput env pull
        = (MF_E_TRANSFORM_NEED_MORE_INPUT,
            { p with m_SamplePool :=
                       { p.m_SamplePool with
                         m_VideoSampleQueue :=
                           rest ++ [Presenter.ProcessOutput.prepare env p f] },
                     m_bRepaint := false, m_bSampleNotify := false }, true) ∧
      (Presenter.ProcessOutput.prepare env p f).id = f.id ∧
      (p.ProcessOutput env pull).2.1.m_SamplePool.m_cPending = p.m_SamplePool.m_cPending ∧
      List.Perm ((p.ProcessOutput env pull).2.1.m_SamplePool.m_VideoSampleQueue.map Sample.id)
        (p.m_SamplePool.m_VideoSampleQueue.map Sample.id) ∧
      ((p.m_bRepaint = true ∨ SUCCEEDED (env.hrQueryDesired f) = false ∨
          (FAILED (env.hrRestoreCounter f) = false ∧ f.counter ≠ none)) →
        (p.ProcessOutput env pull).2.1.m_SamplePool.m_VideoSampleQueue = rest ++ [f] ∧
        List.Perm (p.ProcessOutput env pull).2.1.m_SamplePool.m_VideoSampleQueue
          p.m_SamplePool.m_VideoSampleQueue) ∧
      (p.ProcessOutput env pull).2.1.m_bSampleNotify = false ∧
      (p.ProcessOutput env pull).2.1.events = p.events ∧
      (p.m_bSampleNotify = true →
        Presenter.ProcessOutputLoop env (pull :: pulls) p
          = (Presenter.ProcessOutputLoop.finish MF_E_TRANSFORM_NEED_MORE_INPUT
              (p.ProcessOutput env pull).2.1, pulls) ∧
        (Presenter.ProcessOutputLoop env (pull :: pulls) p).1.m_bSampleNotify = false ∧
        ∀ e ∈ (Presenter.ProcessOutputLoop env (pull :: pulls) p).1.events,
          e ∈ p.events ∨ e.1 = .EC_COMPLETE)) ∧
    (∀ (q : Presenter) (answers : List MixerPull), q.m_bSampleNotify = false →
      Presenter.ProcessOutputLoop env answers q
        = (Presenter.ProcessOutputLoop.finish MF_E_TRANSFORM_NEED_MORE_INPUT q, answers)) ∧
    (∀ (c : Callees) (q : Presenter),
      (q.ProcessInputNotify c).2
        = (if q.m_pMediaType = none then { q with m_bSampleNotify := true }
          else c.ProcessOutputLoop { q with m_bSampleNotify := true })) ∧
    (p.m_SamplePool.m_VideoSampleQueue = [] →
      p.ProcessOutput env pull = (S_FALSE, p, false) ∧
      FAILED S_FALSE = false ∧
      (p.m_bSampleNotify = true →
        Presenter.ProcessOutputLoop env (pull :: pulls) p = (p, pull :: pulls))) := by
  refine ⟨?_, fun q answers h => ProcessOutputLoop_idle env answers q h, ?_, ?_⟩
  · intro f rest hq hpull
    have heq := ProcessOutput_need_input_eq env p pull f rest hgate hmixer hinit hpend hq hpull
    refine ⟨heq, (prepare_id env p f).1, ?_, ?_, ?_, ?_, ?_, ?_⟩
    · rw [heq]
    · rw [heq, hq]
      simp only [List.map_append, List.map_cons, List.map_nil, (prepare_id env p f).1]
      exact (List.perm_append_singleton f.id (rest.map Sample.id))
    · intro hsame
      rw [heq, hq]
      simp only [prepare_same env p f hsame]
      exact ⟨trivial, List.perm_append_singleton f rest⟩
    · rw [heq]
    · rw [heq]
    · intro hflag
      have hloop : Presenter.ProcessOutputLoop env (pull :: pulls) p
          = (Presenter.ProcessOutputLoop.finish MF_E_TRANSFORM_NEED_MORE_INPUT
              (p.ProcessOutput env pull).2.1, pulls) := by
        have hne : MF_E_TRANSFORM_NEED_MORE_INPUT ≠ S_OK := by decide
        rw [Presenter.ProcessOutputLoop]
        simp only [hflag, Bool.not_true, Bool.false_eq_true, if_false]
        rw [heq]
        simp only [if_true, hne, if_false]
      refine ⟨hloop, ?_, ?_⟩
      · rw [hloop, heq]
        simp only [Presenter.ProcessOutputLoop.finish, if_true, Presenter.CheckEndOfStream]
        split_ifs
        · rfl
        · rfl
        · rfl
        · simp only [Presenter.NotifyEvent]
          split_ifs <;> rfl
      · rw [hloop, heq]
        simp only [Presenter.ProcessOutputLoop.finish, if_true, Presenter.CheckEndOfStream]
        intro e he
        split_ifs at he
        · exact Or.inl he
        · exact Or.inl he
        · exact Or.inl he
        · simp only [Presenter.NotifyEvent] at he
          split_ifs at he
          · simp only [List.mem_append, List.mem_singleton] at he
            rcases he with he | he
            · exact Or.inl he
            · exact Or.inr (by rw [he])
          · exact Or.inl he
  · intro c q
    simp only [Presenter.ProcessInputNotify]
    split_ifs <;> rfl
  · intro hq
    have hget : p.m_SamplePool.GetSample = (MF_E_SAMPLEALLOCATOR_EMPTY, none, p.m_SamplePool) := by
      simp [SamplePool.GetSample, hinit, hq, ComPtrList.IsEmpty]
    have hm : (!p.m_pMixer) = false := by simp [hmixer]
    have hpo : p.ProcessOutput env pull = (S_FALSE, p, false) := by
      simp only [Presenter.ProcessOutput, hgate, if_false, hm,
        Bool.false_eq_true, hget, if_true]
    refine ⟨hpo, by decide, ?_⟩
    intro hflag
    have hne : S_FALSE ≠ MF_E_TRANSFORM_NEED_MORE_INPUT := by decide
    rw [Presenter.ProcessOutputLoop]
    simp only [hflag, Bool.not_true, Bool.false_eq_true, if_false, hpo,
      Presenter.ProcessOutputLoop.finish, hne]

/-- Witness for C26: during playback, with two free frames and no input at
the mixer, `ProcessOutput` puts the acquired frame back at the end of the
free queue and clears the new-input flag. -/
theorem ProcessOutput_need_more_input_witness :
    playingPresenter.m_pMixer = true ∧
    playingPresenter.m_SamplePool.m_bInitialized = true ∧
    playingPresenter.ProcessOutput plainOutputEnv MixerPull.needMoreInput
      = (MF_E_TRANSFORM_NEED_MORE_INPUT,
          { playingPresenter with
            m_SamplePool :=
              { playingPresenter.m_SamplePool with
                m_VideoSampleQueue := [⟨3, none, some 0⟩] ++ [⟨2, none, some 0⟩] },
            m_bRepaint := false, m_bSampleNotify := false }, true) :=
  ⟨rfl, rfl,
    ((ProcessOutput_need_more_input plainOutputEnv playingPresenter MixerPull.needMoreInput []
      (by decide) rfl rfl (by decide)).1 ⟨2, none, some 0⟩ [⟨3, none, some 0⟩] rfl rfl).1⟩

/-! ### A frame put back with a wait of zero -/

theorem loop_spins (clock : Nat → Int) (s : Scheduler)
    (hspin : ∀ i, s.ProcessSample (clock i) 0 = (true, 0, s)) :
    ∀ fuel i, Scheduler.ProcessSamplesInQueue.loop clock fuel i s 0 = none := by
  intro fuel
  induction fuel with
  | zero => intro i; rfl
  | succ n ih =>
    intro i
    rw [Scheduler.ProcessSamplesInQueue.loop, hspin i]
    simp only [gt_iff_lt, lt_self_iff_false, if_false]
    exact ih (i + 1)

/-- C27 evaluated on the code: a frame stamped 88333 with the clock at 0, a
tolerance of 83333 and rate 1.0 has `delta > tolerance` but
`delta - tolerance` is half a millisecond, so `ProcessSample` puts it back
and reports a wait of 0 (and at rate 2.0 a frame one whole millisecond
beyond the tolerance is put back with a wait of 0 as well).  The scheduler
is then exactly as before, so with the clock fixed `ProcessSamplesInQueue`
does not return, however many iterations it is given. -/
theorem ProcessSamplesInQueue_spins :
    (startedScheduler.m_fRate = ⟨1, 0⟩ ∧ startedScheduler.m_PerFrame_1_4th = 83333 ∧
      (88333 : Int) - 0 > startedScheduler.m_PerFrame_1_4th) ∧
    Scheduler.ProcessSample.timing startedScheduler ⟨1, some 88333, some 0⟩ 0 = (false, 0) ∧
    Scheduler.ProcessSample.timing { startedScheduler with m_fRate := ⟨1, 1⟩ }
      ⟨1, some 93333, some 0⟩ 0 = (false, 0) ∧
    Scheduler.ProcessSample
        { startedScheduler with m_ScheduledSamples := [⟨1, some 88333, some 0⟩] } 0 0
      = (true, 0, { startedScheduler with m_ScheduledSamples := [⟨1, some 88333, some 0⟩] }) ∧
    (∀ fuel, Scheduler.ProcessSamplesInQueue fuel (fun _ => 0)
        { startedScheduler with m_ScheduledSamples := [⟨1, some 88333, some 0⟩] } = none) := by
  refine ⟨by decide, by decide, by decide, by decide, ?_⟩
  intro fuel
  have h0 : Scheduler.ProcessSample
        { startedScheduler with m_ScheduledSamples := [⟨1, some 88333, some 0⟩] } 0 0
      = (true, 0, { startedScheduler with
          m_ScheduledSamples := [⟨1, some 88333, some 0⟩] }) := by decide
  have h := loop_spins (fun _ => 0)
    { startedScheduler with m_ScheduledSamples := [⟨1, some 88333, some 0⟩] }
    (fun _ => h0) fuel 0
  simp only [Scheduler.ProcessSamplesInQueue, h]

/-! ### Aspect-ratio correction -/

theorem MulDiv_stretch (a b c : Nat) (hc : 0 < c) (hcb : c ≤ b)
    (hr : (a * b + c / 2) / c ≤ 2147483647) :
    (a : Int) ≤ MulDiv a b c := by
  rw [MulDiv_nonneg a b c hc hr]
  have h1 : a * c ≤ a * b + c / 2 := by
    have := Nat.mul_le_mul_left a hcb
    omega
  have h2 : a ≤ (a * b + c / 2) / c := (Nat.le_div_iff_mul_le hc).2 h1
  exact_mod_cast h2

/-- C28 on the code: a source rectangle 1073741824 wide with pixel aspect
ratio 4:1 is corrected to a rectangle of width `-1`, because the stretched
width does not fit an `int` and `MulDiv` answers `-1`. -/
theorem CorrectAspectRatio_counterexample :
    CorrectAspectRatio ⟨0, 0, 1073741824, 1⟩ ⟨4, 1⟩ ⟨1, 1⟩ = ⟨0, 0, -1, 1⟩ ∧
    ¬ ((1073741824 : Int) ≤ (CorrectAspectRatio ⟨0, 0, 1073741824, 1⟩ ⟨4, 1⟩ ⟨1, 1⟩).right) := by
  decide

/-- C28 (amended): for a source rectangle of width `w ≥ 0` and height
`h ≥ 0` and a source pixel aspect ratio whose terms are positive and below
`2^31`, such that the stretched dimension does not exceed `2^31 - 1`,
`CorrectAspectRatio` to a 1:1 destination returns a rectangle anchored at the
origin whose width is at least `w` and whose height is at least `h`: the
width is `w * num / den` rounded to nearest when `num > den`, the height is
`h * den / num` rounded to nearest when `num < den`, and the other dimension
is unchanged.  When source and destination ratio are equal the size is
unchanged, and 720 x 486 at 9:10 becomes 720 x 540. -/
theorem CorrectAspectRatio_stretches (src : RECT) (w h : Nat) (srcPAR : MFRatio)
    (hw : src.right - src.left = w) (hh : src.bottom - src.top = h)
    (hnum : 0 < srcPAR.Numerator) (hden : 0 < srcPAR.Denominator)
    (hnum31 : srcPAR.Numerator < 2147483648) (hden31 : srcPAR.Denominator < 2147483648)
    (hfitW : srcPAR.Denominator < srcPAR.Numerator →
      (w * srcPAR.Numerator + srcPAR.Denominator / 2) / srcPAR.Denominator ≤ 2147483647)
    (hfitH : srcPAR.Numerator < srcPAR.Denominator →
      (h * srcPAR.Denominator + srcPAR.Numerator / 2) / srcPAR.Numerator ≤ 2147483647) :
    (CorrectAspectRatio src srcPAR ⟨1, 1⟩).left = 0 ∧
    (CorrectAspectRatio src srcPAR ⟨1, 1⟩).top = 0 ∧
    (w : Int) ≤ (CorrectAspectRatio src srcPAR ⟨1, 1⟩).right ∧
    (h : Int) ≤ (CorrectAspectRatio src srcPAR ⟨1, 1⟩).bottom ∧
    (srcPAR.Denominator < srcPAR.Numerator →
      (CorrectAspectRatio src srcPAR ⟨1, 1⟩).right
        = ((w * srcPAR.Numerator + srcPAR.Denominator / 2) / srcPAR.Denominator : Nat) ∧
      (CorrectAspectRatio src srcPAR ⟨1, 1⟩).bottom = h) ∧
    (srcPAR.Numerator < srcPAR.Denominator →
      (CorrectAspectRatio src srcPAR ⟨1, 1⟩).right = w ∧
      (CorrectAspectRatio src srcPAR ⟨1, 1⟩).bottom
        = ((h * srcPAR.Denominator + srcPAR.Numerator / 2) / srcPAR.Numerator : Nat)) ∧
    (srcPAR.Numerator = srcPAR.Denominator →
      (CorrectAspectRatio src srcPAR ⟨1, 1⟩).right = w ∧
      (CorrectAspectRatio src srcPAR ⟨1, 1⟩).bottom = h) ∧
    (∀ r : MFRatio, CorrectAspectRatio src r r = ⟨0, 0, w, h⟩) ∧
    CorrectAspectRatio ⟨0, 0, 720, 486⟩ ⟨9, 10⟩ ⟨1, 1⟩ = ⟨0, 0, 720, 540⟩ := by
  have hn := toLONG_small srcPAR.Numerator hnum31
  have hd := toLONG_small srcPAR.Denominator hden31
  have hval : CorrectAspectRatio src srcPAR ⟨1, 1⟩
      = if srcPAR.Denominator < srcPAR.Numerator then
          ⟨0, 0, MulDiv w srcPAR.Numerator srcPAR.Denominator, h⟩
        else if srcPAR.Numerator < srcPAR.Denominator then
          ⟨0, 0, w, MulDiv h srcPAR.Denominator srcPAR.Numerator⟩
        else ⟨0, 0, w, h⟩ := by
    simp only [CorrectAspectRatio, hw, hh, hn, hd]
    split_ifs <;> simp_all
  have hsame : ∀ r : MFRatio, CorrectAspectRatio src r r = ⟨0, 0, w, h⟩ := by
    intro r
    simp [CorrectAspectRatio, hw, hh]
  refine ⟨?_, ?_, ?_, ?_, ?_, ?_, ?_, hsame, by decide⟩
  · rw [hval]; split_ifs <;> rfl
  · rw [hval]; split_ifs <;> rfl
  · rw [hval]
    split_ifs with h1 h2
    · exact MulDiv_stretch w _ _ hden (by omega) (hfitW h1)
    · exact le_refl _
    · exact le_refl _
  · rw [hval]
    split_ifs with h1 h2
    · exact le_refl _
    · exact MulDiv_stretch h _ _ hnum (by omega) (hfitH h2)
    · exact le_refl _
  · intro h1
    rw [hval, if_pos h1]
    exact ⟨MulDiv_nonneg w _ _ hden (hfitW h1), rfl⟩
  · intro h2
    have h1 : ¬ srcPAR.Denominator < srcPAR.Numerator := by omega
    rw [hval, if_neg h1, if_pos h2]
    exact ⟨rfl, MulDiv_nonneg h _ _ hnum (hfitH h2)⟩
  · intro h3
    have h1 : ¬ srcPAR.Denominator < srcPAR.Numerator := by omega
    have h2 : ¬ srcPAR.Numerator < srcPAR.Denominator := by omega
    rw [hval, if_neg h1, if_neg h2]
    exact ⟨rfl, rfl⟩

/-- Witness for C28: the rectangle 720 x 486 with pixel aspect ratio 9:10
meets the bounds, and its corrected height is 540. -/
theorem CorrectAspectRatio_stretches_witness :
    (486 : Int) ≤ (CorrectAspectRatio ⟨0, 0, 720, 486⟩ ⟨9, 10⟩ ⟨1, 1⟩).bottom ∧
    (CorrectAspectRatio ⟨0, 0, 720, 486⟩ ⟨9, 10⟩ ⟨1, 1⟩).bottom = (540 : Nat) :=
  ⟨(CorrectAspectRatio_stretches ⟨0, 0, 720, 486⟩ 720 486 ⟨9, 10⟩ rfl rfl (by decide)
      (by decide) (by decide) (by decide) (by decide) (by decide)).2.2.2.1,
    ((CorrectAspectRatio_stretches ⟨0, 0, 720, 486⟩ 720 486 ⟨9, 10⟩ rfl rfl (by decide)
      (by decide) (by decide) (by decide) (by decide) (by decide)).2.2.2.2.2.1
        (by decide)).2⟩

/-! ### Generation tags of the pooled frames -/

theorem TagInv_of_frame (p q : Presenter) (hpool : q.m_SamplePool = p.m_SamplePool)
    (hcounter : q.m_TokenCounter = p.m_TokenCounter) (h : TagInv p) : TagInv q := by
  intro s hs
  rw [hpool] at hs
  rw [hcounter]
  exact h s hs

theorem TagInv_of_empty (q : Presenter) (h : q.m_SamplePool.m_VideoSampleQueue = []) :
    TagInv q := by
  intro s hs
  rw [h] at hs
  exact absurd hs (List.not_mem_nil s)

theorem ReleaseResources_TagInv (flush : Scheduler → Scheduler) (p : Presenter) :
    TagInv (p.ReleaseResources flush) :=
  TagInv_of_empty _ (by
    simp [Presenter.ReleaseResources, Presenter.Flush, SamplePool.Clear, ComPtrList.Clear])

theorem tagSamples_tagged (hrSetCounter : Sample → HRESULT) (counter : Nat) :
    ∀ samples : List Sample,
      FAILED (Presenter.SetMediaType.tagSamples hrSetCounter counter samples).1 = false →
      ∀ s ∈ (Presenter.SetMediaType.tagSamples hrSetCounter counter samples).2,
        s.counter = some counter := by
  intro samples
  induction samples with
  | nil =>
    intro _ s hs
    simp [Presenter.SetMediaType.tagSamples] at hs
  | cons f rest ih =>
    intro hok s hs
    rw [Presenter.SetMediaType.tagSamples] at hok hs
    split_ifs at hok hs with hf
    · simp only [hf] at hok
      exact absurd hok (by simp)
    · simp only [List.mem_cons] at hs
      rcases hs with hs | hs
      · rw [hs]
      · exact ih hok s hs

theorem ReleaseResources_pool (flush : Scheduler → Scheduler) (p : Presenter) :
    (p.ReleaseResources flush).m_SamplePool
      = { m_VideoSampleQueue := [], m_bInitialized := false, m_cPending := 0 } := by
  simp [Presenter.ReleaseResources, Presenter.Flush, SamplePool.Clear, ComPtrList.Clear]

theorem SetMediaType_TagInv (env : SetMediaTypeEnv) (p : Presenter)
    (pMediaType : Option MediaType) (h : TagInv p) :
    TagInv (p.SetMediaType env pMediaType).2 := by
  cases pMediaType with
  | none => exact ReleaseResources_TagInv _ _
  | some t =>
    simp only [Presenter.SetMediaType]
    split_ifs with h1 h2 h3 h4 h5 h6
    · exact ReleaseResources_TagInv _ _
    · exact h
    · exact h
    · exact ReleaseResources_TagInv _ _
    · exact ReleaseResources_TagInv _ _
    · exact ReleaseResources_TagInv _ _
    · intro s hs
      simp only [ReleaseResources_pool, SamplePool.Initialize, Bool.false_eq_true, if_false,
        moveSamples_eq, List.nil_append] at hs
      have hnf : FAILED S_OK = false := by decide
      simp only [hnf, Bool.false_eq_true, if_false] at hs
      have htag := tagSamples_tagged _ _ _ (by simpa using h5) s hs
      simp only [Presenter.sampleCounter, htag, Option.getD_some]

theorem RenegotiateMediaType_TagInv
    (SetMediaType : Presenter → Option MediaType → HRESULT × Presenter)
    (hset : ∀ q t, TagInv q → TagInv (SetMediaType q t).2)
    (p : Presenter) (mixer : Mixer) (h : TagInv p) :
    TagInv (p.RenegotiateMediaType SetMediaType mixer).2.1 := by
  unfold Presenter.RenegotiateMediaType
  split_ifs
  · exact h
  · split
    · simp only
      split_ifs
      · exact hset _ _ h
      · exact hset _ _ (hset _ _ h)
      · exact hset _ _ (hset _ _ h)
    · exact hset _ _ h

theorem renegotiate_TagInv (env : OutputEnv) (p : Presenter) (h : TagInv p) :
    TagInv (Presenter.ProcessOutput.renegotiate env p).2 :=
  RenegotiateMediaType_TagInv _ (fun q t hq => SetMediaType_TagInv env.typeEnv q t hq)
    p env.mixer h

theorem ReturnSample_queue (pool : SamplePool) (pSample : Sample) :
    ∀ s ∈ (pool.ReturnSample pSample).2.m_VideoSampleQueue,
      s ∈ pool.m_VideoSampleQueue ∨ s = pSample := by
  intro s hs
  unfold SamplePool.ReturnSample at hs
  split_ifs at hs
  · exact Or.inl hs
  · simp only [ComPtrList.InsertBack] at hs
    split_ifs at hs <;>
      simpa [List.mem_append, List.mem_singleton] using hs

theorem mixerFailed_TagInv (env : OutputEnv) (p : Presenter) (pSample : Sample)
    (hr : HRESULT) (h : TagInv p)
    (htag : Presenter.sampleCounter pSample = p.m_TokenCounter) :
    TagInv (Presenter.ProcessOutput.mixerFailed env p pSample hr).2 := by
  have h1 : TagInv { p with m_SamplePool := (p.m_SamplePool.ReturnSample pSample).2 } := by
    intro s hs
    rcases ReturnSample_queue p.m_SamplePool pSample s hs with hm | hm
    · exact h s hm
    · rw [hm]; exact htag
  unfold Presenter.ProcessOutput.mixerFailed
  simp only
  split_ifs
  · exact h1
  · exact h1
  · exact renegotiate_TagInv env _ h1
  · exact SetMediaType_TagInv env.typeEnv _ none h1
  · exact renegotiate_TagInv env _ h1

theorem ProcessOutput_deliver_frame (env : OutputEnv) (q : Presenter) (pSample : Sample)
    (bRepaint : Bool) :
    (Presenter.ProcessOutput.deliver env q pSample bRepaint).2.m_SamplePool
      = q.m_SamplePool ∧
    (Presenter.ProcessOutput.deliver env q pSample bRepaint).2.m_TokenCounter
      = q.m_TokenCounter := by
  have hD := DeliverSample_scheduler q (env.deliver.deviceCheck pSample) pSample bRepaint
  have hF := DeliverFrameStepSample_frame env.deliver q pSample
  unfold Presenter.ProcessOutput.deliver
  simp only
  split_ifs
  all_goals first
    | exact ⟨rfl, rfl⟩
    | exact ⟨hD.2.2.2.2.1, hD.2.2.2.2.2⟩
    | exact ⟨hF.2.2.2.1, hF.2.2.2.2⟩

theorem mixerSucceeded_frame (env : OutputEnv) (p : Presenter) (pSample : Sample)
    (bRepaint : Bool) (pull : MixerPull) :
    (Presenter.ProcessOutput.mixerSucceeded env p pSample bRepaint pull).2.m_SamplePool
      = p.m_SamplePool ∧
    (Presenter.ProcessOutput.mixerSucceeded env p pSample bRepaint pull).2.m_TokenCounter
      = p.m_TokenCounter := by
  have hN := NotifyEvent_frame p .EC_PROCESSING_LATENCY
    (pull.mixerEndTime - pull.mixerStartTime) 0
  unfold Presenter.ProcessOutput.mixerSucceeded
  split_ifs
  · exact ⟨(ProcessOutput_deliver_frame env _ pSample bRepaint).1.trans hN.1,
      (ProcessOutput_deliver_frame env _ pSample bRepaint).2.trans hN.2.1⟩
  · exact ProcessOutput_deliver_frame env _ pSample bRepaint

theorem GetSample_queue (pool : SamplePool) :
    (∀ s ∈ pool.GetSample.2.2.m_VideoSampleQueue, s ∈ pool.m_VideoSampleQueue) ∧
    (∀ f, pool.GetSample.2.1 = some f → f ∈ pool.m_VideoSampleQueue) := by
  unfold SamplePool.GetSample
  split_ifs with h1 h2
  · exact ⟨fun s hs => hs, fun f hf => by simp at hf⟩
  · exact ⟨fun s hs => hs, fun f hf => by simp at hf⟩
  · cases hq : pool.m_VideoSampleQueue with
    | nil => simp [ComPtrList.IsEmpty, hq] at h2
    | cons x rest =>
      simp only [ComPtrList.RemoveFront]
      have hs : SUCCEEDED S_OK = true := by decide
      simp only [hs, if_true]
      refine ⟨fun s hs => List.mem_cons_of_mem _ hs, fun f hf => ?_⟩
      simp only [Option.some.injEq] at hf
      rw [← hf]
      exact List.mem_cons_self _ _

theorem prepare_counter (env : OutputEnv) (p : Presenter) (f : Sample)
    (hkeep : ∀ s : Sample, SUCCEEDED (env.hrQueryDesired s) = true →
      FAILED (env.hrRestoreCounter s) = false) :
    Presenter.sampleCounter (Presenter.ProcessOutput.prepare env p f)
      = Presenter.sampleCounter f := by
  unfold Presenter.ProcessOutput.prepare ClearDesiredSampleTime
  split_ifs with h1 h2 h3
  · rfl
  · rw [hkeep f h2] at h3
    exact absurd h3 (by simp)
  · simp [Presenter.sampleCounter]
  · rfl

theorem ProcessOutput_TagInv (env : OutputEnv) (p : Presenter) (pull : MixerPull)
    (hkeep : ∀ s : Sample, SUCCEEDED (env.hrQueryDesired s) = true →
      FAILED (env.hrRestoreCounter s) = false)
    (h : TagInv p) : TagInv (p.ProcessOutput env pull).2.1 := by
  have hG := GetSample_queue p.m_SamplePool
  have hpool : ∀ b : Bool,
      TagInv { p with m_SamplePool := p.m_SamplePool.GetSample.2.2, m_bRepaint := b } :=
    fun b s hs => h s (hG.1 s hs)
  have hpool2 : TagInv { p with m_SamplePool := p.m_SamplePool.GetSample.2.2 } :=
    fun s hs => h s (hG.1 s hs)
  unfold Presenter.ProcessOutput
  split_ifs
  · exact h
  · exact h
  · exact hpool2
  · exact hpool2
  · split
    · exact hpool2
    · rename_i pSample hsome
      exact mixerFailed_TagInv env _ _ pull.hr (hpool false)
        ((prepare_counter env p pSample hkeep).trans (h pSample (hG.2 pSample hsome)))
  · split
    · exact hpool2
    · rename_i pSample hsome
      have hm := mixerSucceeded_frame env
        { p with m_SamplePool := p.m_SamplePool.GetSample.2.2, m_bRepaint := false }
        { Presenter.ProcessOutput.prepare env p pSample with sampleTime := pull.sampleTime }
        p.m_bRepaint pull
      exact TagInv_of_frame _ _ hm.1 hm.2 (hpool false)

theorem finish_frame (hr : HRESULT) (p : Presenter) :
    (Presenter.ProcessOutputLoop.finish hr p).m_SamplePool = p.m_SamplePool ∧
    (Presenter.ProcessOutputLoop.finish hr p).m_TokenCounter = p.m_TokenCounter := by
  unfold Presenter.ProcessOutputLoop.finish Presenter.CheckEndOfStream
  split_ifs
  · exact ⟨rfl, rfl⟩
  · exact ⟨rfl, rfl⟩
  · exact ⟨rfl, rfl⟩
  · exact ⟨(NotifyEvent_frame p .EC_COMPLETE S_OK 0).1, (NotifyEvent_frame p .EC_COMPLETE S_OK 0).2.1⟩
  · exact ⟨rfl, rfl⟩

theorem finish_TagInv (hr : HRESULT) (p : Presenter) (h : TagInv p) :
    TagInv (Presenter.ProcessOutputLoop.finish hr p) :=
  TagInv_of_frame _ _ (finish_frame hr p).1 (finish_frame hr p).2 h

theorem ProcessOutputLoop_TagInv (env : OutputEnv)
    (hkeep : ∀ s : Sample, SUCCEEDED (env.hrQueryDesired s) = true →
      FAILED (env.hrRestoreCounter s) = false)
    (pulls : List MixerPull) :
    ∀ p : Presenter, TagInv p → TagInv (Presenter.ProcessOutputLoop env pulls p).1 := by
  induction pulls with
  | nil =>
    intro p h
    rw [Presenter.ProcessOutputLoop]
    split_ifs
    · exact finish_TagInv _ _ h
    · exact finish_TagInv _ _ (ProcessOutput_TagInv env p _ hkeep h)
  | cons pull rest ih =>
    intro p h
    rw [Presenter.ProcessOutputLoop]
    split_ifs
    · exact finish_TagInv _ _ h
    · exact ih _ (ProcessOutput_TagInv env p pull hkeep h)
    · exact finish_TagInv _ _ (ProcessOutput_TagInv env p pull hkeep h)
    · exact finish_TagInv _ _ (ProcessOutput_TagInv env p pull hkeep h)

theorem done_TagInv (hr : HRESULT) (p : Presenter) (h : TagInv p) :
    TagInv (Presenter.OnSampleFree.done hr p).2 := by
  unfold Presenter.OnSampleFree.done
  simp only
  split_ifs
  · exact TagInv_of_frame _ _ (NotifyEvent_frame p _ _ _).1 (NotifyEvent_frame p _ _ _).2.1 h
  · exact h

theorem frameStep_pool (p : Presenter) (r : Presenter.AsyncResult) (now : Int) :
    (Presenter.OnSampleFree.frameStep p r now).2.m_SamplePool = p.m_SamplePool ∧
    (Presenter.OnSampleFree.frameStep p r now).2.m_TokenCounter = p.m_TokenCounter := by
  unfold Presenter.OnSampleFree.frameStep
  split_ifs
  · exact (CompleteFrameStep_frame p r.sample now).2
  · exact ⟨rfl, rfl⟩
  · exact ⟨rfl, rfl⟩

theorem OnSampleFree_TagInv (L : Presenter → Presenter) (hL : ∀ q, TagInv q → TagInv (L q))
    (p : Presenter) (r : Presenter.AsyncResult) (now : Int) (h : TagInv p) :
    TagInv (p.OnSampleFree L r now).2 := by
  have hfs := frameStep_pool p r now
  have h1 : TagInv (Presenter.OnSampleFree.frameStep p r now).2 :=
    TagInv_of_frame _ _ hfs.1 hfs.2 h
  unfold Presenter.OnSampleFree
  split_ifs with hg hq
  · exact done_TagInv _ _ h
  · exact done_TagInv _ _ h
  · have h2 : Presenter.sampleCounter r.sample
          = (Presenter.OnSampleFree.frameStep p r now).2.m_TokenCounter →
        TagInv { (Presenter.OnSampleFree.frameStep p r now).2 with
          m_SamplePool :=
            ((Presenter.OnSampleFree.frameStep p r now).2.m_SamplePool.ReturnSample
              r.sample).2 } := by
      intro htag s hs
      rcases ReturnSample_queue _ r.sample s hs with hm | hm
      · exact h1 s hm
      · rw [hm]; exact htag
    simp only
    split_ifs with hf htag hs
    · exact done_TagInv _ _ h1
    · exact done_TagInv _ _ (hL _ (h2 htag))
    · exact done_TagInv _ _ (h2 htag)
    · exact done_TagInv _ _ h1

theorem PresenterCall_TagInv (p : Presenter) (call : PresenterCall)
    (hkeep : call.keepsTags) (h : TagInv p) :
    TagInv (PresenterCall.apply p call) := by
  cases call with
  | setMediaType env t => exact SetMediaType_TagInv env p t h
  | releaseResources flush => exact ReleaseResources_TagInv flush p
  | processOutput env pull => exact ProcessOutput_TagInv env p pull hkeep h
  | sampleFree env pulls r now =>
    exact OnSampleFree_TagInv _
      (fun q hq => ProcessOutputLoop_TagInv env hkeep pulls q hq) p r now h

theorem runPresenterCalls_TagInv (calls : List PresenterCall) :
    ∀ p : Presenter, TagInv p → (∀ c ∈ calls, c.keepsTags) →
      TagInv (runPresenterCalls p calls) := by
  induction calls with
  | nil => intro p h _; exact h
  | cons c rest ih =>
    intro p h hkeep
    simp only [runPresenterCalls, List.foldl_cons]
    exact ih _ (PresenterCall_TagInv p c (hkeep c (List.mem_cons_self _ _)) h)
      (fun d hd => hkeep d (List.mem_cons_of_mem _ hd))

theorem ReleaseResources_counter (flush : Scheduler → Scheduler) (p : Presenter) :
    (p.ReleaseResources flush).m_TokenCounter = wrapDWORD (p.m_TokenCounter + 1) := by
  simp [Presenter.ReleaseResources, Presenter.Flush]

/-- C29 evaluated on the code: a stopped presenter to which new input was
announced is given a media type; `SetMediaType` succeeds, the counter is 1
and the pool holds three frames tagged 1.  In the `ProcessOutput` that
follows, `ClearDesiredSampleTime` wipes the attributes of the acquired frame
and cannot write the counter back (`E_OUTOFMEMORY`, a result that
`ProcessOutput` drops), and the mixer answers
`MF_E_TRANSFORM_NEED_MORE_INPUT`: the frame goes back to the pool without a
tag.  The free queue then holds a frame whose tag reads `(UINT32)-1`, not
the counter, and the third `GetSample` hands that frame out, which is when
the assertion in `ProcessOutput` fails.  When the counter is always written
back, every sequence of `SetMediaType`, `ReleaseResources`, `ProcessOutput`
and `OnSampleFree` keeps every pooled frame tagged with the counter;
`ReleaseResources` empties the pool and moves the counter on, so that the
tag of every frame made before differs from it. -/
theorem pool_tag_lost :
    (runPresenterCalls { stoppedPresenter with m_bSampleNotify := true }
        [.setMediaType plainOutputEnv.typeEnv (some ⟨some FCC_NV12, 0⟩)]).m_TokenCounter = 1 ∧
    (runPresenterCalls { stoppedPresenter with m_bSampleNotify := true }
        [.setMediaType plainOutputEnv.typeEnv
          (some ⟨some FCC_NV12, 0⟩)]).m_SamplePool.m_VideoSampleQueue
      = [⟨1, none, some 1⟩, ⟨2, none, some 1⟩, ⟨3, none, some 1⟩] ∧
    (runPresenterCalls { stoppedPresenter with m_bSampleNotify := true }
        [.setMediaType plainOutputEnv.typeEnv (some ⟨some FCC_NV12, 0⟩),
         .processOutput { plainOutputEnv with hrRestoreCounter := fun _ => E_OUTOFMEMORY }
           MixerPull.needMoreInput]).m_SamplePool.m_VideoSampleQueue
      = [⟨2, none, some 1⟩, ⟨3, none, some 1⟩, ⟨1, none, none⟩] ∧
    (runPresenterCalls { stoppedPresenter with m_bSampleNotify := true }
        [.setMediaType plainOutputEnv.typeEnv (some ⟨some FCC_NV12, 0⟩),
         .processOutput { plainOutputEnv with hrRestoreCounter := fun _ => E_OUTOFMEMORY }
           MixerPull.needMoreInput]).m_TokenCounter = 1 ∧
    Presenter.sampleCounter ⟨1, none, none⟩ = 4294967295 ∧
    ¬ TagInv (runPresenterCalls { stoppedPresenter with m_bSampleNotify := true }
        [.setMediaType plainOutputEnv.typeEnv (some ⟨some FCC_NV12, 0⟩),
         .processOutput { plainOutputEnv with hrRestoreCounter := fun _ => E_OUTOFMEMORY }
           MixerPull.needMoreInput]) ∧
    (runPresenterCalls { stoppedPresenter with m_bSampleNotify := true }
        [.setMediaType plainOutputEnv.typeEnv (some ⟨some FCC_NV12, 0⟩),
         .processOutput { plainOutputEnv with hrRestoreCounter := fun _ => E_OUTOFMEMORY }
           MixerPull.needMoreInput]).m_SamplePool.GetSample.2.2.GetSample.2.2.GetSample.2.1
      = some ⟨1, none, none⟩ ∧
    (∀ (calls : List PresenterCall) (p : Presenter), TagInv p →
      (∀ c ∈ calls, c.keepsTags) → TagInv (runPresenterCalls p calls)) ∧
    (∀ (flush : Scheduler → Scheduler) (p : Presenter), p.m_TokenCounter < 4294967296 →
      (p.ReleaseResources flush).m_SamplePool.m_VideoSampleQueue = [] ∧
      (p.ReleaseResources flush).m_TokenCounter ≠ p.m_TokenCounter ∧
      ∀ s : Sample, Presenter.sampleCounter s = p.m_TokenCounter →
        Presenter.sampleCounter s ≠ (p.ReleaseResources flush).m_TokenCounter) := by
  have hq : (runPresenterCalls { stoppedPresenter with m_bSampleNotify := true }
        [.setMediaType plainOutputEnv.typeEnv (some ⟨some FCC_NV12, 0⟩),
         .processOutput { plainOutputEnv with hrRestoreCounter := fun _ => E_OUTOFMEMORY }
           MixerPull.needMoreInput]).m_SamplePool.m_VideoSampleQueue
      = [⟨2, none, some 1⟩, ⟨3, none, some 1⟩, ⟨1, none, none⟩] := by decide
  have hc : (runPresenterCalls { stoppedPresenter with m_bSampleNotify := true }
        [.setMediaType plainOutputEnv.typeEnv (some ⟨some FCC_NV12, 0⟩),
         .processOutput { plainOutputEnv with hrRestoreCounter := fun _ => E_OUTOFMEMORY }
           MixerPull.needMoreInput]).m_TokenCounter = 1 := by decide
  refine ⟨by decide, by decide, hq, hc, by decide, ?_, by decide, ?_, ?_⟩
  · intro h
    have h1 := h ⟨1, none, none⟩ (by rw [hq]; decide)
    rw [hc] at h1
    exact absurd h1 (by decide)
  · intro calls p hp hkeep
    exact runPresenterCalls_TagInv calls p hp hkeep
  · intro flush p hlt
    have hcount := ReleaseResources_counter flush p
    have hne : wrapDWORD ((p.m_TokenCounter : Int) + 1) ≠ p.m_TokenCounter := by
      simp only [wrapDWORD]
      omega
    refine ⟨by rw [ReleaseResources_pool], ?_, ?_⟩
    · rw [hcount]; exact hne
    · intro s hs
      rw [hs, hcount]
      exact fun h => hne h.symm

/-! ### The result of SetMediaType -/

end EVRPresenter
